import Mathlib

set_option maxRecDepth 8000

/-!
Shallow embedding of the Sudoku solving engine of `src/src/solver.js`
(class `SudokuSolver`), together with proofs of the specification claims.

Modelling conventions:
* A JS 9x9 array-of-arrays is a `Grid α`: a length-9 vector of length-9
  vectors, read and written through `Grid.get` / `Grid.set`.
* Board cell values are unbounded integers (`ℤ`), as JS numbers restricted
  to integers by the claims; `0` means empty.
* A JS `Set` of digits is a `List ℤ` in insertion order: `new Set([1..9])`
  is the ascending list `digits`, and `Set.delete v` is `eraseVal · v`,
  which removes the element while keeping the order of the rest, exactly
  as JS `Set` iteration order behaves.
* The mutable solver instance (`this.candidates`, `this.solvingSteps`,
  the board mutated in place) is threaded explicitly as a `SolverState`.
* A JS loop `for (let i = 0; i < 9; i++)` becomes a fold over the literal
  list `cols9 = [0, ..., 8]`, and the nested row/column loops become folds
  over `allCells` in the same row-major order; box loops iterate the
  `boxCells` table, whose agreement with the `floor(i / 3)` box arithmetic
  of the source is proved in `boxCells_eq_filter`.
* The `while (progress)` loop of `constraintPropagation` and the
  recursion of `solveWithBacktracking` are given explicit fuel; `none`
  marks fuel exhaustion, and the fuel bounds used in `solve` are proved
  sufficient (there are at most 81 empty cells), so the fuelled functions
  agree with the JS originals.
-/

namespace SudokuJS

open Mathlib

/-- One row of a 9x9 grid. -/
abbrev Row (α : Type) := Mathlib.Vector α 9

/-- A 9x9 grid. -/
abbrev Grid (α : Type) := Mathlib.Vector (Row α) 9

namespace Grid

/-- Read `g[r][c]`. -/
def get {α : Type} (g : Grid α) (r c : Fin 9) : α :=
  Mathlib.Vector.get (Mathlib.Vector.get g r) c

/-- Write `g[r][c] = a`. -/
def set {α : Type} (g : Grid α) (r c : Fin 9) (a : α) : Grid α :=
  Mathlib.Vector.set g r (Mathlib.Vector.set (Mathlib.Vector.get g r) c a)

end Grid

/-- A board: 9x9 grid of integers, `0` = empty cell. -/
abbrev Board := Grid ℤ

/-- The candidate store `this.candidates`: a 9x9 grid of JS sets of digits,
modelled as insertion-ordered lists. -/
abbrev Cands := Grid (List ℤ)

/-- The index sequence of a JS loop `for (let i = 0; i < 9; i++)`. -/
def cols9 : List (Fin 9) := [0, 1, 2, 3, 4, 5, 6, 7, 8]

/-- All 81 cells in row-major order: the iteration order of the nested
`for (row) for (col)` loops. -/
def allCells : List (Fin 9 × Fin 9) :=
  cols9.flatMap fun r => cols9.map fun c => (r, c)

/-- `new Set([1, 2, 3, 4, 5, 6, 7, 8, 9])` in insertion order; also the
value sequence of a loop `for (let value = 1; value <= 9; value++)`. -/
def digits : List ℤ := [1, 2, 3, 4, 5, 6, 7, 8, 9]

/-- `Set.delete value` on an insertion-ordered set. -/
def eraseVal (l : List ℤ) (v : ℤ) : List ℤ :=
  l.filter fun x => decide (x ≠ v)

/-- Box row (or column) index `floor(i / 3)` of a row (or column) index. -/
def boxOf (i : Fin 9) : Fin 3 := ⟨i.val / 3, by have := i.isLt; omega⟩

/-- The cells of box `(br, bc)` in the row-major order of the JS loops
`for (r = boxRow * 3; r < boxRow * 3 + 3; r++) for (c = ...)`, tabulated;
`boxCells_eq_filter` proves the table right. -/
def boxCells (br bc : Fin 3) : List (Fin 9 × Fin 9) :=
  match br, bc with
  | 0, 0 => [(0,0), (0,1), (0,2), (1,0), (1,1), (1,2), (2,0), (2,1), (2,2)]
  | 0, 1 => [(0,3), (0,4), (0,5), (1,3), (1,4), (1,5), (2,3), (2,4), (2,5)]
  | 0, 2 => [(0,6), (0,7), (0,8), (1,6), (1,7), (1,8), (2,6), (2,7), (2,8)]
  | 1, 0 => [(3,0), (3,1), (3,2), (4,0), (4,1), (4,2), (5,0), (5,1), (5,2)]
  | 1, 1 => [(3,3), (3,4), (3,5), (4,3), (4,4), (4,5), (5,3), (5,4), (5,5)]
  | 1, 2 => [(3,6), (3,7), (3,8), (4,6), (4,7), (4,8), (5,6), (5,7), (5,8)]
  | 2, 0 => [(6,0), (6,1), (6,2), (7,0), (7,1), (7,2), (8,0), (8,1), (8,2)]
  | 2, 1 => [(6,3), (6,4), (6,5), (7,3), (7,4), (7,5), (8,3), (8,4), (8,5)]
  | 2, 2 => [(6,6), (6,7), (6,8), (7,6), (7,7), (7,8), (8,6), (8,7), (8,8)]

/-- The box-cell table agrees with the `floor(i / 3)` box membership test
of the source, in row-major order. -/
theorem boxCells_eq_filter : ∀ br bc : Fin 3,
    boxCells br bc =
      allCells.filter fun p => decide (p.1.val / 3 = br.val ∧ p.2.val / 3 = bc.val) := by
  decide

/-- Cells of the 3x3 box containing `(r, c)`, row-major: the iteration
order of the box loops of `setCellValue`. -/
def boxCellsOf (r c : Fin 9) : List (Fin 9 × Fin 9) :=
  boxCells (boxOf r) (boxOf c)

/-- Build a `Row` from a 9-element list (used for concrete grids). -/
def mkRow9 {α : Type} (dflt : α) (l : List α) : Row α :=
  if h : l.length = 9 then ⟨l, h⟩ else Mathlib.Vector.replicate 9 dflt

/-- Build a `Grid` from a 9x9 list of lists (used for concrete grids). -/
def mkGrid9 {α : Type} (dflt : α) (l : List (List α)) : Grid α :=
  if h : (l.map (mkRow9 dflt)).length = 9 then ⟨l.map (mkRow9 dflt), h⟩
  else Mathlib.Vector.replicate 9 (Mathlib.Vector.replicate 9 dflt)

/-- One entry of `this.solvingSteps`. -/
structure TraceEntry where
  technique : String
  row : Fin 9
  col : Fin 9
  value : ℤ
  reason : String
deriving DecidableEq

/-- The mutable state of a `SudokuSolver` instance together with the board
it is working on (the board is mutated in place by the JS code). -/
structure SolverState where
  board : Board
  cands : Cands
  steps : List TraceEntry
deriving DecidableEq

/-- `setCellValue(board, row, col, value)`: write the cell, clear its
candidate set, and delete `value` from the candidate sets of the whole
row, column and box (in that order, as in the source). -/
def setCellValue (st : SolverState) (row col : Fin 9) (value : ℤ) : SolverState :=
  let b := st.board.set row col value
  let cs0 := st.cands.set row col []
  let cs1 := cols9.foldl
    (fun cs c => cs.set row c (eraseVal (cs.get row c) value)) cs0
  let cs2 := cols9.foldl
    (fun cs r => cs.set r col (eraseVal (cs.get r col) value)) cs1
  let cs3 := (boxCellsOf row col).foldl
    (fun cs p => cs.set p.1 p.2 (eraseVal (cs.get p.1 p.2) value)) cs2
  ⟨b, cs3, st.steps⟩

/-- The loop body of `initializeCandidates`: replay `setCellValue` on a
pre-filled cell. -/
def initStep (st : SolverState) (p : Fin 9 × Fin 9) : SolverState :=
  if st.board.get p.1 p.2 ≠ 0 then setCellValue st p.1 p.2 (st.board.get p.1 p.2) else st

/-- `initializeCandidates(board)`: every candidate set starts as `{1..9}`,
then `setCellValue` is replayed on every pre-filled cell (writing back the
same value). The trace list is the fresh `this.solvingSteps = []` of
`solve`. -/
def initializeCandidates (b : Board) : SolverState :=
  allCells.foldl initStep
    ⟨b, Mathlib.Vector.replicate 9 (Mathlib.Vector.replicate 9 digits), []⟩

/-- The loop body of `solveNakedSingles`. -/
def nakedStep (acc : SolverState × Bool) (p : Fin 9 × Fin 9) : SolverState × Bool :=
  let st := acc.1
  if st.board.get p.1 p.2 = 0 ∧ (st.cands.get p.1 p.2).length = 1 then
    let value := (st.cands.get p.1 p.2).headD 0
    let st1 := setCellValue st p.1 p.2 value
    (⟨st1.board, st1.cands,
      st1.steps ++ [⟨"Naked Single", p.1, p.2, value,
        "Only possible value for cell (" ++ toString (p.1.val + 1) ++ ", " ++
          toString (p.2.val + 1) ++ ")"⟩]⟩, true)
  else acc

/-- `solveNakedSingles(board)`: row-major scan; any empty cell whose
candidate set has exactly one member is assigned it. Returns the updated
state and the `progress` flag. -/
def solveNakedSingles (st : SolverState) : SolverState × Bool :=
  allCells.foldl nakedStep (st, false)

/-- The `(row, value)` iteration order of the row phase of
`solveHiddenSingles` (and the row phase of `solveBoxLineReduction`). -/
def rowValuePairs : List (Fin 9 × ℤ) :=
  cols9.flatMap fun r => digits.map fun v => (r, v)

/-- The `(boxRow, boxCol, value)` iteration order of the box loops. -/
def boxValueTriples : List (Fin 3 × Fin 3 × ℤ) :=
  ([0, 1, 2] : List (Fin 3)).flatMap fun br =>
    ([0, 1, 2] : List (Fin 3)).flatMap fun bc => digits.map fun v => (br, bc, v)

/-- The loop body of the row phase of `solveHiddenSingles`. -/
def hiddenRowStep (acc : SolverState × Bool) (rv : Fin 9 × ℤ) : SolverState × Bool :=
  let st := acc.1
  let row := rv.1
  let value := rv.2
  let possibleCols := cols9.filter fun c =>
    decide (st.board.get row c = 0 ∧ value ∈ st.cands.get row c)
  match possibleCols with
  | [col] =>
    let st1 := setCellValue st row col value
    (⟨st1.board, st1.cands,
      st1.steps ++ [⟨"Hidden Single (Row)", row, col, value,
        toString value ++ " can only go in this cell in row " ++
          toString (row.val + 1)⟩]⟩, true)
  | _ => acc

/-- Row phase of `solveHiddenSingles`. -/
def hiddenSinglesRows (acc : SolverState × Bool) : SolverState × Bool :=
  rowValuePairs.foldl hiddenRowStep acc

/-- The loop body of the column phase of `solveHiddenSingles`. -/
def hiddenColStep (acc : SolverState × Bool) (cv : Fin 9 × ℤ) : SolverState × Bool :=
  let st := acc.1
  let col := cv.1
  let value := cv.2
  let possibleRows := cols9.filter fun r =>
    decide (st.board.get r col = 0 ∧ value ∈ st.cands.get r col)
  match possibleRows with
  | [row] =>
    let st1 := setCellValue st row col value
    (⟨st1.board, st1.cands,
      st1.steps ++ [⟨"Hidden Single (Column)", row, col, value,
        toString value ++ " can only go in this cell in column " ++
          toString (col.val + 1)⟩]⟩, true)
  | _ => acc

/-- Column phase of `solveHiddenSingles`. -/
def hiddenSinglesCols (acc : SolverState × Bool) : SolverState × Bool :=
  rowValuePairs.foldl hiddenColStep acc

/-- The loop body of the box phase of `solveHiddenSingles`. -/
def hiddenBoxStep (acc : SolverState × Bool) (bv : Fin 3 × Fin 3 × ℤ) : SolverState × Bool :=
  let st := acc.1
  let br := bv.1
  let bc := bv.2.1
  let value := bv.2.2
  let possibleCells := (boxCells br bc).filter fun p =>
    decide (st.board.get p.1 p.2 = 0 ∧ value ∈ st.cands.get p.1 p.2)
  match possibleCells with
  | [p] =>
    let st1 := setCellValue st p.1 p.2 value
    (⟨st1.board, st1.cands,
      st1.steps ++ [⟨"Hidden Single (Box)", p.1, p.2, value,
        toString value ++ " can only go in this cell in box " ++
          toString (br.val + 1) ++ "-" ++ toString (bc.val + 1)⟩]⟩, true)
  | _ => acc

/-- Box phase of `solveHiddenSingles`. -/
def hiddenSinglesBoxes (acc : SolverState × Bool) : SolverState × Bool :=
  boxValueTriples.foldl hiddenBoxStep acc

/-- `solveHiddenSingles(board)`: rows, then columns, then boxes. -/
def solveHiddenSingles (st : SolverState) : SolverState × Bool :=
  hiddenSinglesBoxes (hiddenSinglesCols (hiddenSinglesRows (st, false)))

/-- Delete `value` from the candidate set of one cell if present, setting
the progress flag — the elimination step shared by `solvePointingPairs`
and `solveBoxLineReduction`. -/
def elimAt (acc : SolverState × Bool) (r c : Fin 9) (value : ℤ) : SolverState × Bool :=
  let st := acc.1
  if value ∈ st.cands.get r c then
    (⟨st.board, st.cands.set r c (eraseVal (st.cands.get r c) value), st.steps⟩, true)
  else acc

/-- `solvePointingPairs(board)`: for each box and value, if the 2 or 3
empty cells of the box that can hold the value share a row (resp. column),
delete the value from that row (resp. column) outside the box. Both checks
use the cell list computed before either elimination, as in the source.
This is the loop body; `solvePointingPairs` folds it over all boxes and
values. -/
def pointingStep (acc : SolverState × Bool) (bv : Fin 3 × Fin 3 × ℤ) : SolverState × Bool :=
  let st := acc.1
  let br := bv.1
  let bc := bv.2.1
  let value := bv.2.2
  let cellsWithValue := (boxCells br bc).filter fun p =>
    decide (st.board.get p.1 p.2 = 0 ∧ value ∈ st.cands.get p.1 p.2)
  if 2 ≤ cellsWithValue.length ∧ cellsWithValue.length ≤ 3 then
    let rows := (cellsWithValue.map Prod.fst).dedup
    let acc1 :=
      match rows with
      | [row] =>
        (cols9.filter fun c => decide (c.val / 3 ≠ bc.val)).foldl
          (fun a c => elimAt a row c value) acc
      | _ => acc
    let cols := (cellsWithValue.map Prod.snd).dedup
    match cols with
    | [col] =>
      (cols9.filter fun r => decide (r.val / 3 ≠ br.val)).foldl
        (fun a r => elimAt a r col value) acc1
    | _ => acc1
  else acc

/-- `solvePointingPairs(board)`. -/
def solvePointingPairs (st : SolverState) : SolverState × Bool :=
  boxValueTriples.foldl pointingStep (st, false)

/-- The loop body of the row phase of `solveBoxLineReduction`: if every
empty cell of a row that can hold `value` lies in one box, delete `value`
from that box's cells in the other rows of the band. -/
def boxLineRowStep (acc : SolverState × Bool) (rv : Fin 9 × ℤ) : SolverState × Bool :=
  let st := acc.1
  let row := rv.1
  let value := rv.2
  let boxesWithValue := ((cols9.filter fun c =>
    decide (st.board.get row c = 0 ∧ value ∈ st.cands.get row c)).map
      fun c => c.val / 3).dedup
  match boxesWithValue with
  | [boxCol] =>
    ((boxCells (boxOf row) ⟨boxCol % 3, Nat.mod_lt _ (by omega)⟩).filter
        fun p => decide (p.1 ≠ row)).foldl
      (fun a p => elimAt a p.1 p.2 value) acc
  | _ => acc

/-- Row phase of `solveBoxLineReduction`. -/
def boxLineRows (acc : SolverState × Bool) : SolverState × Bool :=
  rowValuePairs.foldl boxLineRowStep acc

/-- The loop body of the column phase of `solveBoxLineReduction`. -/
def boxLineColStep (acc : SolverState × Bool) (cv : Fin 9 × ℤ) : SolverState × Bool :=
  let st := acc.1
  let col := cv.1
  let value := cv.2
  let boxesWithValue := ((cols9.filter fun r =>
    decide (st.board.get r col = 0 ∧ value ∈ st.cands.get r col)).map
      fun r => r.val / 3).dedup
  match boxesWithValue with
  | [boxRow] =>
    ((boxCells ⟨boxRow % 3, Nat.mod_lt _ (by omega)⟩ (boxOf col)).filter
        fun p => decide (p.2 ≠ col)).foldl
      (fun a p => elimAt a p.1 p.2 value) acc
  | _ => acc

/-- Column phase of `solveBoxLineReduction`. -/
def boxLineCols (acc : SolverState × Bool) : SolverState × Bool :=
  rowValuePairs.foldl boxLineColStep acc

/-- `solveBoxLineReduction(board)`: rows then columns. -/
def solveBoxLineReduction (st : SolverState) : SolverState × Bool :=
  boxLineCols (boxLineRows (st, false))

/-- One iteration of the `while (progress)` body of
`constraintPropagation`: run all four rules (all of them are always run,
`|=` does not short-circuit) and report whether any made progress. -/
def propagateOnce (st : SolverState) : SolverState × Bool :=
  let r1 := solveNakedSingles st
  let r2 := solveHiddenSingles r1.1
  let r3 := solvePointingPairs r2.1
  let r4 := solveBoxLineReduction r3.1
  (r4.1, r1.2 || r2.2 || r3.2 || r4.2)

/-- The `while (progress)` loop, with explicit fuel. -/
def propagateLoop : ℕ → SolverState → SolverState
  | 0, st => st
  | fuel + 1, st =>
    let r := propagateOnce st
    if r.2 then propagateLoop fuel r.1 else r.1

/-- `constraintPropagation(board)`. Each iteration whose progress flag is
set removes at least one candidate from the at most 81 * 9 = 729 stored
candidates, so 730 iterations always reach the fixpoint. -/
def constraintPropagation (st : SolverState) : SolverState :=
  propagateLoop 730 st

/-- The minimum-candidates scan of `solveWithBacktracking`: `none` is the
early `return false` on an empty cell with no candidates; `some none`
means no empty cell (solved); `some (some cell)` is `bestCell`. -/
def mrvScan (st : SolverState) :
    List (Fin 9 × Fin 9) → ℕ → Option (Fin 9 × Fin 9) → Option (Option (Fin 9 × Fin 9))
  | [], _, best => some best
  | p :: rest, minCandidates, best =>
    if st.board.get p.1 p.2 = 0 then
      let n := (st.cands.get p.1 p.2).length
      if n = 0 then none
      else if n < minCandidates then mrvScan st rest n (some p)
      else mrvScan st rest minCandidates best
    else mrvScan st rest minCandidates best

/-- The `for (const value of candidateValues)` trial loop: try each value;
on failure restore board and candidates (but keep the trace accumulated by
the failed branch, as the source does). `rec` is the recursive call at the
current fuel level; its `none` (out of fuel) propagates. -/
def tryValues (rec : SolverState → Option (SolverState × Bool)) (r c : Fin 9) :
    SolverState → List ℤ → Option (SolverState × Bool)
  | st, [] => some (st, false)
  | st, value :: rest =>
    match rec (setCellValue st r c value) with
    | none => none
    | some (st1, true) => some (st1, true)
    | some (st1, false) => tryValues rec r c ⟨st.board, st.cands, st1.steps⟩ rest

/-- The part of `solveWithBacktracking(board)` after constraint
propagation: the minimum-candidates scan, then the trial loop over the
best cell's candidates; `rec` is the recursive call. -/
def swbBranch (rec : SolverState → Option (SolverState × Bool)) (st1 : SolverState) :
    Option (SolverState × Bool) :=
  match mrvScan st1 allCells 10 none with
  | none => some (st1, false)
  | some none => some (st1, true)
  | some (some p) => tryValues rec p.1 p.2 st1 (st1.cands.get p.1 p.2)

/-- `solveWithBacktracking(board)` with explicit recursion fuel: apply
constraint propagation, then scan and try candidates. -/
def swb : ℕ → SolverState → Option (SolverState × Bool)
  | 0, _ => none
  | fuel + 1, st => swbBranch (swb fuel) (constraintPropagation st)

/-- One-step unfolding of the backtracking search. -/
theorem swb_succ (fuel : ℕ) (st : SolverState) :
    swb (fuel + 1) st = swbBranch (swb fuel) (constraintPropagation st) := rfl

/-- `swbBranch` when the scan finds an empty cell with no candidates. -/
theorem swbBranch_none (rec : SolverState → Option (SolverState × Bool))
    (st1 : SolverState) (h : mrvScan st1 allCells 10 none = none) :
    swbBranch rec st1 = some (st1, false) := by
  unfold swbBranch
  rw [h]

/-- `swbBranch` when the scan finds no empty cell. -/
theorem swbBranch_solved (rec : SolverState → Option (SolverState × Bool))
    (st1 : SolverState) (h : mrvScan st1 allCells 10 none = some none) :
    swbBranch rec st1 = some (st1, true) := by
  unfold swbBranch
  rw [h]

/-- `swbBranch` when the scan finds a best cell. -/
theorem swbBranch_best (rec : SolverState → Option (SolverState × Bool))
    (st1 : SolverState) (r c : Fin 9)
    (h : mrvScan st1 allCells 10 none = some (some (r, c))) :
    swbBranch rec st1 = tryValues rec r c st1 (st1.cands.get r c) := by
  unfold swbBranch
  rw [h]

/-- One-step unfolding of the propagation loop (for staged evaluation). -/
theorem propagateLoop_succ (fuel : ℕ) (st : SolverState) :
    propagateLoop (fuel + 1) st =
      if (propagateOnce st).2 then propagateLoop fuel (propagateOnce st).1
      else (propagateOnce st).1 := rfl

/-- Projection of a literal pair (for staged evaluation rewrites). -/
theorem pair_fst {α β : Type} (x : α) (y : β) : (x, y).1 = x := rfl

/-- An `if` whose scrutinised progress flag is literally `true`. -/
theorem ite_pair_true {α β : Type} (x : α) (a b : β) :
    (if ((x, true) : α × Bool).2 = true then a else b) = a := rfl

/-- An `if` whose scrutinised progress flag is literally `false`. -/
theorem ite_pair_false {α β : Type} (x : α) (a b : β) :
    (if ((x, false) : α × Bool).2 = true then a else b) = b := rfl

/-- One-step unfolding of `tryValues` on an empty candidate list. -/
theorem tryValues_nil (rec : SolverState → Option (SolverState × Bool)) (r c : Fin 9)
    (st : SolverState) : tryValues rec r c st [] = some (st, false) := rfl

/-- One-step unfolding of `tryValues` on a non-empty candidate list. -/
theorem tryValues_cons (rec : SolverState → Option (SolverState × Bool)) (r c : Fin 9)
    (st : SolverState) (value : ℤ) (rest : List ℤ) :
    tryValues rec r c st (value :: rest) =
      match rec (setCellValue st r c value) with
      | none => none
      | some (st1, true) => some (st1, true)
      | some (st1, false) => tryValues rec r c ⟨st.board, st.cands, st1.steps⟩ rest := rfl

/-- `tryValues` when the first trial succeeds. -/
theorem tryValues_cons_success (rec : SolverState → Option (SolverState × Bool))
    (r c : Fin 9) (st : SolverState) (value : ℤ) (rest : List ℤ) (st1 : SolverState)
    (h : rec (setCellValue st r c value) = some (st1, true)) :
    tryValues rec r c st (value :: rest) = some (st1, true) := by
  rw [tryValues_cons, h]

/-- `tryValues` when the first trial fails: board and candidates are
restored from the state before the trial, the trace is kept. -/
theorem tryValues_cons_failed (rec : SolverState → Option (SolverState × Bool))
    (r c : Fin 9) (st : SolverState) (value : ℤ) (rest : List ℤ) (st1 : SolverState)
    (h : rec (setCellValue st r c value) = some (st1, false)) :
    tryValues rec r c st (value :: rest) =
      tryValues rec r c ⟨st.board, st.cands, st1.steps⟩ rest := by
  rw [tryValues_cons, h]


/-- A unit-duplicate scan with the JS `seen` set: non-zero values already
seen cause `return false`. -/
def dupFree : List ℤ → List ℤ → Bool
  | _, [] => true
  | seen, x :: rest =>
    if x ≠ 0 then
      if x ∈ seen then false else dupFree (x :: seen) rest
    else dupFree seen rest

/-- The 9 values of row `r`, in column order. -/
def rowVals (b : Board) (r : Fin 9) : List ℤ :=
  cols9.map fun c => b.get r c

/-- The 9 values of column `c`, in row order. -/
def colVals (b : Board) (c : Fin 9) : List ℤ :=
  cols9.map fun r => b.get r c

/-- The 9 values of box `(br, bc)`, row-major. -/
def boxVals (b : Board) (br bc : Fin 3) : List ℤ :=
  (boxCells br bc).map fun p => b.get p.1 p.2

/-- `isValidBoard(board)`: range check, then duplicate scans of all rows,
columns and boxes. -/
def isValidBoard (b : Board) : Bool :=
  (allCells.all fun p => decide (0 ≤ b.get p.1 p.2 ∧ b.get p.1 p.2 ≤ 9)) &&
  (cols9.all fun r => dupFree [] (rowVals b r)) &&
  (cols9.all fun c => dupFree [] (colVals b c)) &&
  (([0, 1, 2] : List (Fin 3)).all fun br =>
    ([0, 1, 2] : List (Fin 3)).all fun bc => dupFree [] (boxVals b br bc))

/-- `isComplete(board)`. -/
def isComplete (b : Board) : Bool :=
  allCells.all fun p => decide (b.get p.1 p.2 ≠ 0)

/-- `copyBoard(board)`: a deep copy; in the value model this is the board
itself. -/
def copyBoard (b : Board) : Board := b

/-- The outcome record of `solve`. `steps = none` models the branch that
returns an object literal without a `steps` field (so `result.steps` is
`undefined` in JS). -/
structure SolveOutcome where
  success : Bool
  steps : Option (List TraceEntry)
  error : Option String
deriving DecidableEq

/-- The part of `solve(board)` after candidate initialization: validate,
then run the search with fuel 82, which is proved sufficient (there are
at most 81 empty cells); the `none` fallback is unreachable. -/
def solveCore (st0 : SolverState) : SolveOutcome × Board :=
  if isValidBoard st0.board = false then
    (⟨false, none, some "Invalid initial board state"⟩, st0.board)
  else
    match swb 82 st0 with
    | none => (⟨false, none, none⟩, st0.board)
    | some (st1, success) =>
      (⟨success, some st1.steps,
        if success then none else some "No solution exists for this puzzle"⟩, st1.board)

/-- `solve(board)`: reset the trace, initialize candidates (which rewrites
each pre-filled cell with its own value), validate, then search. Returns
the outcome and the (in-place mutated) board. -/
def solve (b : Board) : SolveOutcome × Board :=
  solveCore (initializeCandidates b)

/-- The validation `if` when `isValidBoard` returned `false`. -/
theorem ite_validity_neg {α : Type} (a b : α) :
    (if (false : Bool) = false then a else b) = a := rfl

/-- The validation `if` when `isValidBoard` returned `true`. -/
theorem ite_validity_pos {α : Type} (a b : α) :
    (if (true : Bool) = false then a else b) = b := rfl

/-- `solveCore` on a state that fails validation. -/
theorem solveCore_invalid (st0 : SolverState)
    (hv : isValidBoard st0.board = false) :
    solveCore st0 = (⟨false, none, some "Invalid initial board state"⟩, st0.board) := by
  unfold solveCore
  rw [hv, ite_validity_neg]

/-- `solveCore` in terms of the result of the backtracking search. -/
theorem solveCore_of_swb (st0 st1 : SolverState) (success : Bool)
    (hv : isValidBoard st0.board = true)
    (h : swb 82 st0 = some (st1, success)) :
    solveCore st0 = (⟨success, some st1.steps,
      if success then none else some "No solution exists for this puzzle"⟩, st1.board) := by
  unfold solveCore
  rw [hv, ite_validity_pos, h]

/-- The record returned by `getIntelligentHint`. -/
structure Hint where
  row : Fin 9
  col : Fin 9
  value : ℤ
  technique : String
  explanation : String
deriving DecidableEq

/-- First cell (row-major) that is empty in `b` but filled in `b1`. -/
def firstFilled (b b1 : Board) : Option (Fin 9 × Fin 9) :=
  allCells.find? fun p => decide (b.get p.1 p.2 = 0 ∧ b1.get p.1 p.2 ≠ 0)

/-- The fallback block of `getIntelligentHint`: a full solve of another
copy of the board — whose solved board is discarded: the returned `value`
reads the (unchanged by this block) working copy `boardCopy`. -/
def hintFallback (b : Board) (boardCopy : Board) (result : SolveOutcome × Board) :
    Option Hint :=
  if result.1.success then
    (allCells.find? fun p => decide (b.get p.1 p.2 = 0)).map fun p =>
      ⟨p.1, p.2, boardCopy.get p.1 p.2, "Logical Deduction", "Next logical step"⟩
  else none

/-- The hidden-single block of `getIntelligentHint`, taking the result of
the one hidden-singles pass on the working copy. -/
def hintHiddenCase (b : Board) (r2 : SolverState × Bool) : Option Hint :=
  let h2 : Option Hint :=
    if r2.2 then
      (firstFilled b r2.1.board).map fun p =>
        ⟨p.1, p.2, r2.1.board.get p.1 p.2, "Hidden Single",
          toString (r2.1.board.get p.1 p.2) ++ " can only go in this position"⟩
    else none
  match h2 with
  | some h => some h
  | none => hintFallback b r2.1.board (solve (copyBoard b))

/-- The naked-single block of `getIntelligentHint`, taking the result of
the one naked-singles pass on the working copy. -/
def hintNakedCase (b : Board) (r1 : SolverState × Bool) : Option Hint :=
  let h1 : Option Hint :=
    if r1.2 then
      (firstFilled b r1.1.board).map fun p =>
        ⟨p.1, p.2, r1.1.board.get p.1 p.2, "Naked Single",
          "This cell can only contain " ++ toString (r1.1.board.get p.1 p.2)⟩
    else none
  match h1 with
  | some h => some h
  | none => hintHiddenCase b (solveHiddenSingles r1.1)

/-- `getIntelligentHint(board)`: work on a copy with a fresh solver; one
pass of naked singles, else one pass of hidden singles, else the full
solve fallback. -/
def getIntelligentHint (b : Board) : Option Hint :=
  hintNakedCase b (solveNakedSingles (initializeCandidates (copyBoard b)))

/-- The report returned by `analyzeDifficulty`. -/
structure DifficultyReport where
  level : String
  score : ℤ
deriving DecidableEq

/-- Number of pre-filled (non-zero) cells of a board. -/
def filledCells (b : Board) : ℕ :=
  (allCells.filter fun p => decide (b.get p.1 p.2 ≠ 0)).length

/-- `analyzeDifficulty(board)`: solve a copy; on failure report Invalid;
otherwise score from the distinct techniques of the trace plus
`max(0, 30 - filledCells)` and map through the thresholds. -/
def analyzeDifficulty (b : Board) : DifficultyReport :=
  let result := (solve (copyBoard b)).1
  if result.success = false then ⟨"Invalid", 0⟩
  else
    let techniques := (result.steps.getD []).map TraceEntry.technique
    let score : ℤ :=
      (if "Naked Single" ∈ techniques then 1 else 0) +
      (if "Hidden Single" ∈ techniques then 2 else 0) +
      (if "Pointing Pairs" ∈ techniques then 3 else 0) +
      (if "Box/Line Reduction" ∈ techniques then 3 else 0) +
      max 0 (30 - (filledCells b : ℤ))
    if score ≤ 5 then ⟨"Easy", score⟩
    else if score ≤ 15 then ⟨"Medium", score⟩
    else if score ≤ 25 then ⟨"Hard", score⟩
    else ⟨"Expert", score⟩



/-- `analyzeDifficulty` as the specification words it: on a successful solve,
score = (+1 if a Naked Single step occurs) + (+2 Hidden Single) + (+3
Pointing Pairs) + (+3 Box/Line Reduction) + max(0, 30 - filled cells),
mapped through the thresholds; on failure, level `Invalid` with score 0. -/
def analyzeDifficultySpec (b : Board) : DifficultyReport :=
  let result := (solve (copyBoard b)).1
  if result.success then
    let tr := result.steps.getD []
    let score : ℤ :=
      (if ∃ e ∈ tr, e.technique = "Naked Single" then 1 else 0) +
      (if ∃ e ∈ tr, e.technique = "Hidden Single" then 2 else 0) +
      (if ∃ e ∈ tr, e.technique = "Pointing Pairs" then 3 else 0) +
      (if ∃ e ∈ tr, e.technique = "Box/Line Reduction" then 3 else 0) +
      max 0 (30 - (filledCells b : ℤ))
    if score ≤ 5 then ⟨"Easy", score⟩
    else if score ≤ 15 then ⟨"Medium", score⟩
    else if score ≤ 25 then ⟨"Hard", score⟩
    else ⟨"Expert", score⟩
  else ⟨"Invalid", 0⟩

/-! ### Concrete boards and staged evaluations -/

/-- A concrete test board. -/
def exampleSolution : Board := mkGrid9 (0 : ℤ) [[1, 2, 3, 4, 5, 6, 7, 8, 9], [4, 5, 6, 7, 8, 9, 1, 2, 3], [7, 8, 9, 1, 2, 3, 4, 5, 6], [2, 3, 4, 5, 6, 7, 8, 9, 1], [5, 6, 7, 8, 9, 1, 2, 3, 4], [8, 9, 1, 2, 3, 4, 5, 6, 7], [3, 4, 5, 6, 7, 8, 9, 1, 2], [6, 7, 8, 9, 1, 2, 3, 4, 5], [9, 1, 2, 3, 4, 5, 6, 7, 8]]

/-- A concrete test board. -/
def exampleBoard : Board := mkGrid9 (0 : ℤ) [[0, 2, 3, 4, 5, 6, 7, 8, 9], [4, 5, 6, 7, 8, 9, 1, 2, 3], [7, 8, 9, 1, 2, 3, 4, 5, 6], [2, 3, 4, 5, 6, 7, 8, 9, 1], [5, 6, 7, 8, 9, 1, 2, 3, 4], [8, 9, 1, 2, 3, 4, 5, 6, 7], [3, 4, 5, 6, 7, 8, 9, 1, 2], [6, 7, 8, 9, 1, 2, 3, 4, 5], [9, 1, 2, 3, 4, 5, 6, 7, 8]]

/-- A concrete test board. -/
def hintBugBoard : Board := mkGrid9 (0 : ℤ) [[5, 3, 4, 0, 0, 8, 9, 1, 2], [6, 7, 2, 1, 9, 5, 3, 4, 8], [1, 9, 8, 3, 4, 2, 5, 6, 7], [8, 5, 9, 0, 0, 1, 4, 2, 3], [4, 2, 6, 8, 5, 3, 7, 9, 1], [7, 1, 3, 9, 2, 4, 8, 5, 6], [9, 6, 1, 5, 3, 7, 2, 8, 4], [2, 8, 7, 4, 1, 9, 6, 3, 5], [3, 4, 5, 2, 8, 6, 1, 7, 9]]

/-- A concrete test board. -/
def staleTraceBoard : Board := mkGrid9 (0 : ℤ) [[5, 0, 4, 0, 0, 8, 0, 1, 0], [6, 7, 0, 1, 9, 5, 0, 4, 8], [1, 9, 8, 0, 0, 0, 5, 0, 0], [0, 5, 9, 7, 6, 1, 4, 2, 0], [0, 0, 0, 8, 5, 3, 7, 9, 1], [0, 1, 0, 9, 2, 4, 0, 5, 6], [9, 0, 0, 5, 3, 0, 2, 0, 0], [2, 8, 7, 0, 1, 0, 0, 3, 0], [3, 4, 5, 0, 0, 0, 0, 0, 0]]

/-- Intermediate solver state of a staged evaluation. -/
def ev_S1 : SolverState :=
  ⟨mkGrid9 (0 : ℤ) [[0, 2, 3, 4, 5, 6, 7, 8, 9], [4, 5, 6, 7, 8, 9, 1, 2, 3], [7, 8, 9, 1, 2, 3, 4, 5, 6], [2, 3, 4, 5, 6, 7, 8, 9, 1], [5, 6, 7, 8, 9, 1, 2, 3, 4], [8, 9, 1, 2, 3, 4, 5, 6, 7], [3, 4, 5, 6, 7, 8, 9, 1, 2], [6, 7, 8, 9, 1, 2, 3, 4, 5], [9, 1, 2, 3, 4, 5, 6, 7, 8]],
   mkGrid9 ([] : List ℤ) [[[1], [], [], [], [], [], [], [], []], [[], [], [], [], [], [], [1, 2, 3], [1, 2, 3], [1, 2, 3]], [[1, 7, 8, 9], [1, 7, 8, 9], [1, 7, 8, 9], [1, 2, 3], [1, 2, 3], [1, 2, 3], [1, 2, 3, 4, 5, 6], [1, 2, 3, 4, 5, 6], [1, 2, 3, 4, 5, 6]], [[1, 2, 3, 5, 6, 7, 8, 9], [1, 3, 4, 6, 7, 8, 9], [1, 2, 4, 5, 7, 8, 9], [1, 2, 3, 5, 6, 8, 9], [1, 2, 3, 4, 6, 7, 9], [1, 2, 3, 4, 5, 7, 8], [1, 2, 3, 4, 5, 6, 8, 9], [1, 2, 3, 4, 5, 6, 7, 9], [1, 2, 3, 4, 5, 6, 7, 8]], [[1, 2, 3, 5, 6, 7, 8, 9], [1, 3, 4, 6, 7, 8, 9], [1, 2, 4, 5, 7, 8, 9], [1, 2, 3, 5, 6, 8, 9], [1, 2, 3, 4, 6, 7, 9], [1, 2, 3, 4, 5, 7, 8], [1, 2, 3, 4, 5, 6, 8, 9], [1, 2, 3, 4, 5, 6, 7, 9], [1, 2, 3, 4, 5, 6, 7, 8]], [[1, 2, 3, 5, 6, 7, 8, 9], [1, 3, 4, 6, 7, 8, 9], [1, 2, 4, 5, 7, 8, 9], [1, 2, 3, 5, 6, 8, 9], [1, 2, 3, 4, 6, 7, 9], [1, 2, 3, 4, 5, 7, 8], [1, 2, 3, 4, 5, 6, 8, 9], [1, 2, 3, 4, 5, 6, 7, 9], [1, 2, 3, 4, 5, 6, 7, 8]], [[1, 2, 3, 5, 6, 7, 8, 9], [1, 3, 4, 6, 7, 8, 9], [1, 2, 4, 5, 7, 8, 9], [1, 2, 3, 5, 6, 8, 9], [1, 2, 3, 4, 6, 7, 9], [1, 2, 3, 4, 5, 7, 8], [1, 2, 3, 4, 5, 6, 8, 9], [1, 2, 3, 4, 5, 6, 7, 9], [1, 2, 3, 4, 5, 6, 7, 8]], [[1, 2, 3, 5, 6, 7, 8, 9], [1, 3, 4, 6, 7, 8, 9], [1, 2, 4, 5, 7, 8, 9], [1, 2, 3, 5, 6, 8, 9], [1, 2, 3, 4, 6, 7, 9], [1, 2, 3, 4, 5, 7, 8], [1, 2, 3, 4, 5, 6, 8, 9], [1, 2, 3, 4, 5, 6, 7, 9], [1, 2, 3, 4, 5, 6, 7, 8]], [[1, 2, 3, 5, 6, 7, 8, 9], [1, 3, 4, 6, 7, 8, 9], [1, 2, 4, 5, 7, 8, 9], [1, 2, 3, 5, 6, 8, 9], [1, 2, 3, 4, 6, 7, 9], [1, 2, 3, 4, 5, 7, 8], [1, 2, 3, 4, 5, 6, 8, 9], [1, 2, 3, 4, 5, 6, 7, 9], [1, 2, 3, 4, 5, 6, 7, 8]]],
   ([] : List TraceEntry)⟩

/-- Intermediate solver state of a staged evaluation. -/
def ev_S3 : SolverState :=
  ⟨mkGrid9 (0 : ℤ) [[0, 2, 3, 4, 5, 6, 7, 8, 9], [4, 5, 6, 7, 8, 9, 1, 2, 3], [7, 8, 9, 1, 2, 3, 4, 5, 6], [2, 3, 4, 5, 6, 7, 8, 9, 1], [5, 6, 7, 8, 9, 1, 2, 3, 4], [8, 9, 1, 2, 3, 4, 5, 6, 7], [3, 4, 5, 6, 7, 8, 9, 1, 2], [6, 7, 8, 9, 1, 2, 3, 4, 5], [9, 1, 2, 3, 4, 5, 6, 7, 8]],
   mkGrid9 ([] : List ℤ) [[[1], [], [], [], [], [], [], [], []], [[], [], [], [], [], [], [], [], []], [[], [], [], [], [], [], [], [], []], [[], [], [1, 4, 5, 7, 8], [5, 6, 8, 9], [1, 4, 6, 7, 9], [1, 4, 5, 7, 8], [5, 6, 8, 9], [1, 4, 6, 7, 9], [1, 4, 5, 7, 8]], [[1, 5, 6, 8, 9], [1, 4, 6, 7, 9], [1, 4, 5, 7, 8], [2, 3, 5, 6, 8, 9], [1, 3, 4, 6, 7, 9], [1, 2, 4, 5, 7, 8], [2, 3, 5, 6, 8, 9], [1, 3, 4, 6, 7, 9], [1, 2, 4, 5, 7, 8]], [[1, 5, 6, 8, 9], [1, 4, 6, 7, 9], [1, 4, 5, 7, 8], [2, 3, 5, 6, 8, 9], [1, 3, 4, 6, 7, 9], [1, 2, 4, 5, 7, 8], [2, 3, 5, 6, 8, 9], [1, 3, 4, 6, 7, 9], [1, 2, 4, 5, 7, 8]], [[1, 3, 5, 6, 8, 9], [1, 4, 6, 7, 9], [1, 2, 4, 5, 7, 8], [2, 3, 5, 6, 8, 9], [1, 3, 4, 6, 7, 9], [1, 2, 4, 5, 7, 8], [2, 3, 5, 6, 8, 9], [1, 3, 4, 6, 7, 9], [1, 2, 4, 5, 7, 8]], [[1, 3, 5, 6, 8, 9], [1, 4, 6, 7, 9], [1, 2, 4, 5, 7, 8], [2, 3, 5, 6, 8, 9], [1, 3, 4, 6, 7, 9], [1, 2, 4, 5, 7, 8], [2, 3, 5, 6, 8, 9], [1, 3, 4, 6, 7, 9], [1, 2, 4, 5, 7, 8]], [[1, 3, 5, 6, 8, 9], [1, 4, 6, 7, 9], [1, 2, 4, 5, 7, 8], [2, 3, 5, 6, 8, 9], [1, 3, 4, 6, 7, 9], [1, 2, 4, 5, 7, 8], [2, 3, 5, 6, 8, 9], [1, 3, 4, 6, 7, 9], [1, 2, 4, 5, 7, 8]]],
   ([] : List TraceEntry)⟩

/-- Intermediate solver state of a staged evaluation. -/
def ev_S5 : SolverState :=
  ⟨mkGrid9 (0 : ℤ) [[0, 2, 3, 4, 5, 6, 7, 8, 9], [4, 5, 6, 7, 8, 9, 1, 2, 3], [7, 8, 9, 1, 2, 3, 4, 5, 6], [2, 3, 4, 5, 6, 7, 8, 9, 1], [5, 6, 7, 8, 9, 1, 2, 3, 4], [8, 9, 1, 2, 3, 4, 5, 6, 7], [3, 4, 5, 6, 7, 8, 9, 1, 2], [6, 7, 8, 9, 1, 2, 3, 4, 5], [9, 1, 2, 3, 4, 5, 6, 7, 8]],
   mkGrid9 ([] : List ℤ) [[[1], [], [], [], [], [], [], [], []], [[], [], [], [], [], [], [], [], []], [[], [], [], [], [], [], [], [], []], [[], [], [], [], [], [], [], [], []], [[], [], [], [], [], [], [], [3, 4], [4]], [[1, 8, 9], [1, 9], [1, 8], [2, 3], [3, 4], [2, 4], [3, 5, 6], [3, 4, 6, 7], [4, 5, 7]], [[1, 3, 6, 8, 9], [1, 4, 7, 9], [1, 2, 5, 8], [2, 3, 6, 9], [1, 3, 4, 7], [2, 4, 5, 8], [3, 5, 6, 9], [1, 3, 4, 6, 7], [2, 4, 5, 7, 8]], [[1, 3, 6, 8, 9], [1, 4, 7, 9], [1, 2, 5, 8], [2, 3, 6, 9], [1, 3, 4, 7], [2, 4, 5, 8], [3, 5, 6, 9], [1, 3, 4, 6, 7], [2, 4, 5, 7, 8]], [[1, 3, 6, 8, 9], [1, 4, 7, 9], [1, 2, 5, 8], [2, 3, 6, 9], [1, 3, 4, 7], [2, 4, 5, 8], [3, 5, 6, 9], [1, 3, 4, 6, 7], [2, 4, 5, 7, 8]]],
   ([] : List TraceEntry)⟩

/-- Intermediate solver state of a staged evaluation. -/
def ev_S7 : SolverState :=
  ⟨mkGrid9 (0 : ℤ) [[0, 2, 3, 4, 5, 6, 7, 8, 9], [4, 5, 6, 7, 8, 9, 1, 2, 3], [7, 8, 9, 1, 2, 3, 4, 5, 6], [2, 3, 4, 5, 6, 7, 8, 9, 1], [5, 6, 7, 8, 9, 1, 2, 3, 4], [8, 9, 1, 2, 3, 4, 5, 6, 7], [3, 4, 5, 6, 7, 8, 9, 1, 2], [6, 7, 8, 9, 1, 2, 3, 4, 5], [9, 1, 2, 3, 4, 5, 6, 7, 8]],
   mkGrid9 ([] : List ℤ) [[[1], [], [], [], [], [], [], [], []], [[], [], [], [], [], [], [], [], []], [[], [], [], [], [], [], [], [], []], [[], [], [], [], [], [], [], [], []], [[], [], [], [], [], [], [], [], []], [[], [], [], [], [], [], [], [], []], [[], [], [], [6, 9], [1, 7], [2, 8], [6, 9], [1, 7], [2, 8]], [[1, 6, 9], [1, 7], [2, 8], [3, 6, 9], [1, 4, 7], [2, 5, 8], [3, 6, 9], [1, 4, 7], [2, 5, 8]], [[1, 6, 9], [1, 7], [2, 8], [3, 6, 9], [1, 4, 7], [2, 5, 8], [3, 6, 9], [1, 4, 7], [2, 5, 8]]],
   ([] : List TraceEntry)⟩

/-- Intermediate solver state of a staged evaluation. -/
def ev_S9 : SolverState :=
  ⟨mkGrid9 (0 : ℤ) [[0, 2, 3, 4, 5, 6, 7, 8, 9], [4, 5, 6, 7, 8, 9, 1, 2, 3], [7, 8, 9, 1, 2, 3, 4, 5, 6], [2, 3, 4, 5, 6, 7, 8, 9, 1], [5, 6, 7, 8, 9, 1, 2, 3, 4], [8, 9, 1, 2, 3, 4, 5, 6, 7], [3, 4, 5, 6, 7, 8, 9, 1, 2], [6, 7, 8, 9, 1, 2, 3, 4, 5], [9, 1, 2, 3, 4, 5, 6, 7, 8]],
   mkGrid9 ([] : List ℤ) [[[1], [], [], [], [], [], [], [], []], [[], [], [], [], [], [], [], [], []], [[], [], [], [], [], [], [], [], []], [[], [], [], [], [], [], [], [], []], [[], [], [], [], [], [], [], [], []], [[], [], [], [], [], [], [], [], []], [[], [], [], [], [], [], [], [], []], [[], [], [], [], [], [], [], [], [5]], [[1, 9], [1], [2], [3], [4], [5], [6], [7], [5, 8]]],
   ([] : List TraceEntry)⟩

/-- Intermediate solver state of a staged evaluation. -/
def ev_S11 : SolverState :=
  ⟨mkGrid9 (0 : ℤ) [[0, 2, 3, 4, 5, 6, 7, 8, 9], [4, 5, 6, 7, 8, 9, 1, 2, 3], [7, 8, 9, 1, 2, 3, 4, 5, 6], [2, 3, 4, 5, 6, 7, 8, 9, 1], [5, 6, 7, 8, 9, 1, 2, 3, 4], [8, 9, 1, 2, 3, 4, 5, 6, 7], [3, 4, 5, 6, 7, 8, 9, 1, 2], [6, 7, 8, 9, 1, 2, 3, 4, 5], [9, 1, 2, 3, 4, 5, 6, 7, 8]],
   mkGrid9 ([] : List ℤ) [[[1], [], [], [], [], [], [], [], []], [[], [], [], [], [], [], [], [], []], [[], [], [], [], [], [], [], [], []], [[], [], [], [], [], [], [], [], []], [[], [], [], [], [], [], [], [], []], [[], [], [], [], [], [], [], [], []], [[], [], [], [], [], [], [], [], []], [[], [], [], [], [], [], [], [], []], [[], [], [], [], [], [], [], [], []]],
   ([] : List TraceEntry)⟩

/-- Intermediate solver state of a staged evaluation. -/
def ev_S15 : SolverState :=
  ⟨mkGrid9 (0 : ℤ) [[1, 2, 3, 4, 5, 6, 7, 8, 9], [4, 5, 6, 7, 8, 9, 1, 2, 3], [7, 8, 9, 1, 2, 3, 4, 5, 6], [2, 3, 4, 5, 6, 7, 8, 9, 1], [5, 6, 7, 8, 9, 1, 2, 3, 4], [8, 9, 1, 2, 3, 4, 5, 6, 7], [3, 4, 5, 6, 7, 8, 9, 1, 2], [6, 7, 8, 9, 1, 2, 3, 4, 5], [9, 1, 2, 3, 4, 5, 6, 7, 8]],
   mkGrid9 ([] : List ℤ) [[[], [], [], [], [], [], [], [], []], [[], [], [], [], [], [], [], [], []], [[], [], [], [], [], [], [], [], []], [[], [], [], [], [], [], [], [], []], [[], [], [], [], [], [], [], [], []], [[], [], [], [], [], [], [], [], []], [[], [], [], [], [], [], [], [], []], [[], [], [], [], [], [], [], [], []], [[], [], [], [], [], [], [], [], []]],
   ([⟨"Naked Single", 0, 0, 1, "Only possible value for cell (1, 1)"⟩] : List TraceEntry)⟩

/-- Intermediate solver state of a staged evaluation. -/
def ev_S34 : SolverState :=
  ⟨mkGrid9 (0 : ℤ) [[5, 3, 4, 0, 0, 8, 9, 1, 2], [6, 7, 2, 1, 9, 5, 3, 4, 8], [1, 9, 8, 3, 4, 2, 5, 6, 7], [8, 5, 9, 0, 0, 1, 4, 2, 3], [4, 2, 6, 8, 5, 3, 7, 9, 1], [7, 1, 3, 9, 2, 4, 8, 5, 6], [9, 6, 1, 5, 3, 7, 2, 8, 4], [2, 8, 7, 4, 1, 9, 6, 3, 5], [3, 4, 5, 2, 8, 6, 1, 7, 9]],
   mkGrid9 ([] : List ℤ) [[[], [], [], [6, 7], [6, 7], [], [], [], []], [[], [], [], [], [], [], [], [4, 8], [4, 8]], [[1, 8, 9], [1, 8, 9], [1, 8, 9], [2, 3, 4, 6, 7], [2, 3, 4, 6, 7], [2, 3, 4, 6, 7], [4, 5, 6, 7, 8], [4, 5, 6, 7, 8], [4, 5, 6, 7, 8]], [[1, 2, 3, 4, 7, 8, 9], [1, 2, 4, 5, 6, 8, 9], [1, 3, 5, 6, 7, 8, 9], [2, 3, 4, 5, 6, 7, 8, 9], [1, 2, 3, 4, 5, 6, 7, 8], [1, 2, 3, 4, 6, 7, 9], [1, 2, 4, 5, 6, 7, 8], [2, 3, 4, 5, 6, 7, 8, 9], [1, 3, 4, 5, 6, 7, 8, 9]], [[1, 2, 3, 4, 7, 8, 9], [1, 2, 4, 5, 6, 8, 9], [1, 3, 5, 6, 7, 8, 9], [2, 3, 4, 5, 6, 7, 8, 9], [1, 2, 3, 4, 5, 6, 7, 8], [1, 2, 3, 4, 6, 7, 9], [1, 2, 4, 5, 6, 7, 8], [2, 3, 4, 5, 6, 7, 8, 9], [1, 3, 4, 5, 6, 7, 8, 9]], [[1, 2, 3, 4, 7, 8, 9], [1, 2, 4, 5, 6, 8, 9], [1, 3, 5, 6, 7, 8, 9], [2, 3, 4, 5, 6, 7, 8, 9], [1, 2, 3, 4, 5, 6, 7, 8], [1, 2, 3, 4, 6, 7, 9], [1, 2, 4, 5, 6, 7, 8], [2, 3, 4, 5, 6, 7, 8, 9], [1, 3, 4, 5, 6, 7, 8, 9]], [[1, 2, 3, 4, 7, 8, 9], [1, 2, 4, 5, 6, 8, 9], [1, 3, 5, 6, 7, 8, 9], [2, 3, 4, 5, 6, 7, 8, 9], [1, 2, 3, 4, 5, 6, 7, 8], [1, 2, 3, 4, 6, 7, 9], [1, 2, 4, 5, 6, 7, 8], [2, 3, 4, 5, 6, 7, 8, 9], [1, 3, 4, 5, 6, 7, 8, 9]], [[1, 2, 3, 4, 7, 8, 9], [1, 2, 4, 5, 6, 8, 9], [1, 3, 5, 6, 7, 8, 9], [2, 3, 4, 5, 6, 7, 8, 9], [1, 2, 3, 4, 5, 6, 7, 8], [1, 2, 3, 4, 6, 7, 9], [1, 2, 4, 5, 6, 7, 8], [2, 3, 4, 5, 6, 7, 8, 9], [1, 3, 4, 5, 6, 7, 8, 9]], [[1, 2, 3, 4, 7, 8, 9], [1, 2, 4, 5, 6, 8, 9], [1, 3, 5, 6, 7, 8, 9], [2, 3, 4, 5, 6, 7, 8, 9], [1, 2, 3, 4, 5, 6, 7, 8], [1, 2, 3, 4, 6, 7, 9], [1, 2, 4, 5, 6, 7, 8], [2, 3, 4, 5, 6, 7, 8, 9], [1, 3, 4, 5, 6, 7, 8, 9]]],
   ([] : List TraceEntry)⟩

/-- Intermediate solver state of a staged evaluation. -/
def ev_S36 : SolverState :=
  ⟨mkGrid9 (0 : ℤ) [[5, 3, 4, 0, 0, 8, 9, 1, 2], [6, 7, 2, 1, 9, 5, 3, 4, 8], [1, 9, 8, 3, 4, 2, 5, 6, 7], [8, 5, 9, 0, 0, 1, 4, 2, 3], [4, 2, 6, 8, 5, 3, 7, 9, 1], [7, 1, 3, 9, 2, 4, 8, 5, 6], [9, 6, 1, 5, 3, 7, 2, 8, 4], [2, 8, 7, 4, 1, 9, 6, 3, 5], [3, 4, 5, 2, 8, 6, 1, 7, 9]],
   mkGrid9 ([] : List ℤ) [[[], [], [], [6, 7], [6, 7], [], [], [], []], [[], [], [], [], [], [], [], [], []], [[], [], [], [], [], [], [], [], []], [[], [], [], [2, 4, 6, 7], [1, 2, 3, 6, 7], [1, 3, 4, 6, 7], [1, 2, 4, 6, 7], [2, 3, 7], [1, 3, 4, 6]], [[2, 3, 4, 7], [1, 2, 4, 6], [1, 3, 6, 7], [2, 4, 5, 6, 7, 8, 9], [1, 2, 3, 5, 6, 7, 8], [1, 3, 4, 6, 7, 9], [1, 2, 4, 6, 7, 8], [2, 3, 5, 7, 8, 9], [1, 3, 4, 5, 6, 9]], [[2, 3, 4, 7], [1, 2, 4, 6], [1, 3, 6, 7], [2, 4, 5, 6, 7, 8, 9], [1, 2, 3, 5, 6, 7, 8], [1, 3, 4, 6, 7, 9], [1, 2, 4, 6, 7, 8], [2, 3, 5, 7, 8, 9], [1, 3, 4, 5, 6, 9]], [[2, 3, 4, 7, 9], [1, 2, 4, 6, 8], [1, 3, 5, 6, 7], [2, 4, 5, 6, 7, 8, 9], [1, 2, 3, 5, 6, 7, 8], [1, 3, 4, 6, 7, 9], [1, 2, 4, 6, 7, 8], [2, 3, 5, 7, 8, 9], [1, 3, 4, 5, 6, 9]], [[2, 3, 4, 7, 9], [1, 2, 4, 6, 8], [1, 3, 5, 6, 7], [2, 4, 5, 6, 7, 8, 9], [1, 2, 3, 5, 6, 7, 8], [1, 3, 4, 6, 7, 9], [1, 2, 4, 6, 7, 8], [2, 3, 5, 7, 8, 9], [1, 3, 4, 5, 6, 9]], [[2, 3, 4, 7, 9], [1, 2, 4, 6, 8], [1, 3, 5, 6, 7], [2, 4, 5, 6, 7, 8, 9], [1, 2, 3, 5, 6, 7, 8], [1, 3, 4, 6, 7, 9], [1, 2, 4, 6, 7, 8], [2, 3, 5, 7, 8, 9], [1, 3, 4, 5, 6, 9]]],
   ([] : List TraceEntry)⟩

/-- Intermediate solver state of a staged evaluation. -/
def ev_S38 : SolverState :=
  ⟨mkGrid9 (0 : ℤ) [[5, 3, 4, 0, 0, 8, 9, 1, 2], [6, 7, 2, 1, 9, 5, 3, 4, 8], [1, 9, 8, 3, 4, 2, 5, 6, 7], [8, 5, 9, 0, 0, 1, 4, 2, 3], [4, 2, 6, 8, 5, 3, 7, 9, 1], [7, 1, 3, 9, 2, 4, 8, 5, 6], [9, 6, 1, 5, 3, 7, 2, 8, 4], [2, 8, 7, 4, 1, 9, 6, 3, 5], [3, 4, 5, 2, 8, 6, 1, 7, 9]],
   mkGrid9 ([] : List ℤ) [[[], [], [], [6, 7], [6, 7], [], [], [], []], [[], [], [], [], [], [], [], [], []], [[], [], [], [], [], [], [], [], []], [[], [], [], [6, 7], [6, 7], [], [], [], []], [[], [], [], [], [], [], [], [], []], [[], [1], [1, 3], [2, 4, 6, 9], [2, 6], [4, 6, 9], [6, 8], [5, 8], [5, 6]], [[2, 3, 9], [1, 4, 6, 8], [1, 3, 5, 7], [2, 4, 5, 6, 7, 9], [1, 2, 3, 6, 7, 8], [4, 6, 7, 9], [1, 2, 6, 8], [3, 5, 7, 8], [4, 5, 6, 9]], [[2, 3, 9], [1, 4, 6, 8], [1, 3, 5, 7], [2, 4, 5, 6, 7, 9], [1, 2, 3, 6, 7, 8], [4, 6, 7, 9], [1, 2, 6, 8], [3, 5, 7, 8], [4, 5, 6, 9]], [[2, 3, 9], [1, 4, 6, 8], [1, 3, 5, 7], [2, 4, 5, 6, 7, 9], [1, 2, 3, 6, 7, 8], [4, 6, 7, 9], [1, 2, 6, 8], [3, 5, 7, 8], [4, 5, 6, 9]]],
   ([] : List TraceEntry)⟩

/-- Intermediate solver state of a staged evaluation. -/
def ev_S40 : SolverState :=
  ⟨mkGrid9 (0 : ℤ) [[5, 3, 4, 0, 0, 8, 9, 1, 2], [6, 7, 2, 1, 9, 5, 3, 4, 8], [1, 9, 8, 3, 4, 2, 5, 6, 7], [8, 5, 9, 0, 0, 1, 4, 2, 3], [4, 2, 6, 8, 5, 3, 7, 9, 1], [7, 1, 3, 9, 2, 4, 8, 5, 6], [9, 6, 1, 5, 3, 7, 2, 8, 4], [2, 8, 7, 4, 1, 9, 6, 3, 5], [3, 4, 5, 2, 8, 6, 1, 7, 9]],
   mkGrid9 ([] : List ℤ) [[[], [], [], [6, 7], [6, 7], [], [], [], []], [[], [], [], [], [], [], [], [], []], [[], [], [], [], [], [], [], [], []], [[], [], [], [6, 7], [6, 7], [], [], [], []], [[], [], [], [], [], [], [], [], []], [[], [], [], [], [], [], [], [], []], [[], [], [], [], [], [], [2], [8], [4]], [[2, 3], [4, 8], [5, 7], [2, 4, 6], [1, 6, 8], [6, 9], [1, 2, 6], [3, 7, 8], [4, 5, 9]], [[2, 3], [4, 8], [5, 7], [2, 4, 6], [1, 6, 8], [6, 9], [1, 2, 6], [3, 7, 8], [4, 5, 9]]],
   ([] : List TraceEntry)⟩

/-- Intermediate solver state of a staged evaluation. -/
def ev_S42 : SolverState :=
  ⟨mkGrid9 (0 : ℤ) [[5, 3, 4, 0, 0, 8, 9, 1, 2], [6, 7, 2, 1, 9, 5, 3, 4, 8], [1, 9, 8, 3, 4, 2, 5, 6, 7], [8, 5, 9, 0, 0, 1, 4, 2, 3], [4, 2, 6, 8, 5, 3, 7, 9, 1], [7, 1, 3, 9, 2, 4, 8, 5, 6], [9, 6, 1, 5, 3, 7, 2, 8, 4], [2, 8, 7, 4, 1, 9, 6, 3, 5], [3, 4, 5, 2, 8, 6, 1, 7, 9]],
   mkGrid9 ([] : List ℤ) [[[], [], [], [6, 7], [6, 7], [], [], [], []], [[], [], [], [], [], [], [], [], []], [[], [], [], [], [], [], [], [], []], [[], [], [], [6, 7], [6, 7], [], [], [], []], [[], [], [], [], [], [], [], [], []], [[], [], [], [], [], [], [], [], []], [[], [], [], [], [], [], [], [], []], [[], [], [], [], [], [], [], [], []], [[], [], [5], [2, 6], [6, 8], [6], [1], [7], [9]]],
   ([] : List TraceEntry)⟩

/-- Intermediate solver state of a staged evaluation. -/
def ev_S44 : SolverState :=
  ⟨mkGrid9 (0 : ℤ) [[5, 3, 4, 0, 0, 8, 9, 1, 2], [6, 7, 2, 1, 9, 5, 3, 4, 8], [1, 9, 8, 3, 4, 2, 5, 6, 7], [8, 5, 9, 0, 0, 1, 4, 2, 3], [4, 2, 6, 8, 5, 3, 7, 9, 1], [7, 1, 3, 9, 2, 4, 8, 5, 6], [9, 6, 1, 5, 3, 7, 2, 8, 4], [2, 8, 7, 4, 1, 9, 6, 3, 5], [3, 4, 5, 2, 8, 6, 1, 7, 9]],
   mkGrid9 ([] : List ℤ) [[[], [], [], [6, 7], [6, 7], [], [], [], []], [[], [], [], [], [], [], [], [], []], [[], [], [], [], [], [], [], [], []], [[], [], [], [6, 7], [6, 7], [], [], [], []], [[], [], [], [], [], [], [], [], []], [[], [], [], [], [], [], [], [], []], [[], [], [], [], [], [], [], [], []], [[], [], [], [], [], [], [], [], []], [[], [], [], [], [], [], [], [], []]],
   ([] : List TraceEntry)⟩

/-- Intermediate solver state of a staged evaluation. -/
def ev_S62 : SolverState :=
  ⟨mkGrid9 (0 : ℤ) [[5, 3, 4, 6, 0, 8, 9, 1, 2], [6, 7, 2, 1, 9, 5, 3, 4, 8], [1, 9, 8, 3, 4, 2, 5, 6, 7], [8, 5, 9, 0, 0, 1, 4, 2, 3], [4, 2, 6, 8, 5, 3, 7, 9, 1], [7, 1, 3, 9, 2, 4, 8, 5, 6], [9, 6, 1, 5, 3, 7, 2, 8, 4], [2, 8, 7, 4, 1, 9, 6, 3, 5], [3, 4, 5, 2, 8, 6, 1, 7, 9]],
   mkGrid9 ([] : List ℤ) [[[], [], [], [], [7], [], [], [], []], [[], [], [], [], [], [], [], [], []], [[], [], [], [], [], [], [], [], []], [[], [], [], [7], [6, 7], [], [], [], []], [[], [], [], [], [], [], [], [], []], [[], [], [], [], [], [], [], [], []], [[], [], [], [], [], [], [], [], []], [[], [], [], [], [], [], [], [], []], [[], [], [], [], [], [], [], [], []]],
   ([] : List TraceEntry)⟩

/-- Intermediate solver state of a staged evaluation. -/
def ev_S64 : SolverState :=
  ⟨mkGrid9 (0 : ℤ) [[5, 3, 4, 6, 7, 8, 9, 1, 2], [6, 7, 2, 1, 9, 5, 3, 4, 8], [1, 9, 8, 3, 4, 2, 5, 6, 7], [8, 5, 9, 7, 6, 1, 4, 2, 3], [4, 2, 6, 8, 5, 3, 7, 9, 1], [7, 1, 3, 9, 2, 4, 8, 5, 6], [9, 6, 1, 5, 3, 7, 2, 8, 4], [2, 8, 7, 4, 1, 9, 6, 3, 5], [3, 4, 5, 2, 8, 6, 1, 7, 9]],
   mkGrid9 ([] : List ℤ) [[[], [], [], [], [], [], [], [], []], [[], [], [], [], [], [], [], [], []], [[], [], [], [], [], [], [], [], []], [[], [], [], [], [], [], [], [], []], [[], [], [], [], [], [], [], [], []], [[], [], [], [], [], [], [], [], []], [[], [], [], [], [], [], [], [], []], [[], [], [], [], [], [], [], [], []], [[], [], [], [], [], [], [], [], []]],
   ([⟨"Naked Single", 0, 4, 7, "Only possible value for cell (1, 5)"⟩, ⟨"Naked Single", 3, 3, 7, "Only possible value for cell (4, 4)"⟩, ⟨"Naked Single", 3, 4, 6, "Only possible value for cell (4, 5)"⟩] : List TraceEntry)⟩

/-- Intermediate solver state of a staged evaluation. -/
def ev_S86 : SolverState :=
  ⟨mkGrid9 (0 : ℤ) [[5, 0, 4, 0, 0, 8, 0, 1, 0], [6, 7, 0, 1, 9, 5, 0, 4, 8], [1, 9, 8, 0, 0, 0, 5, 0, 0], [0, 5, 9, 7, 6, 1, 4, 2, 0], [0, 0, 0, 8, 5, 3, 7, 9, 1], [0, 1, 0, 9, 2, 4, 0, 5, 6], [9, 0, 0, 5, 3, 0, 2, 0, 0], [2, 8, 7, 0, 1, 0, 0, 3, 0], [3, 4, 5, 0, 0, 0, 0, 0, 0]],
   mkGrid9 ([] : List ℤ) [[[], [2, 3], [], [2, 3, 6, 7], [2, 3, 6, 7], [], [2, 3, 6, 7, 9], [], [2, 3, 6, 7, 9]], [[], [], [2, 3], [], [], [], [2, 3], [], []], [[], [], [], [2, 3, 4, 6, 7], [2, 3, 4, 6, 7], [2, 3, 4, 6, 7], [2, 3, 5, 6, 7], [2, 3, 5, 6, 7], [2, 3, 5, 6, 7]], [[2, 3, 4, 7, 8, 9], [1, 2, 3, 4, 5, 6, 8], [1, 2, 3, 5, 6, 7, 9], [2, 3, 4, 5, 6, 7, 8, 9], [1, 2, 3, 4, 5, 6, 7, 8], [1, 2, 3, 4, 6, 7, 9], [1, 2, 3, 4, 5, 6, 7, 8, 9], [2, 3, 5, 6, 7, 8, 9], [1, 2, 3, 4, 5, 6, 7, 9]], [[2, 3, 4, 7, 8, 9], [1, 2, 3, 4, 5, 6, 8], [1, 2, 3, 5, 6, 7, 9], [2, 3, 4, 5, 6, 7, 8, 9], [1, 2, 3, 4, 5, 6, 7, 8], [1, 2, 3, 4, 6, 7, 9], [1, 2, 3, 4, 5, 6, 7, 8, 9], [2, 3, 5, 6, 7, 8, 9], [1, 2, 3, 4, 5, 6, 7, 9]], [[2, 3, 4, 7, 8, 9], [1, 2, 3, 4, 5, 6, 8], [1, 2, 3, 5, 6, 7, 9], [2, 3, 4, 5, 6, 7, 8, 9], [1, 2, 3, 4, 5, 6, 7, 8], [1, 2, 3, 4, 6, 7, 9], [1, 2, 3, 4, 5, 6, 7, 8, 9], [2, 3, 5, 6, 7, 8, 9], [1, 2, 3, 4, 5, 6, 7, 9]], [[2, 3, 4, 7, 8, 9], [1, 2, 3, 4, 5, 6, 8], [1, 2, 3, 5, 6, 7, 9], [2, 3, 4, 5, 6, 7, 8, 9], [1, 2, 3, 4, 5, 6, 7, 8], [1, 2, 3, 4, 6, 7, 9], [1, 2, 3, 4, 5, 6, 7, 8, 9], [2, 3, 5, 6, 7, 8, 9], [1, 2, 3, 4, 5, 6, 7, 9]], [[2, 3, 4, 7, 8, 9], [1, 2, 3, 4, 5, 6, 8], [1, 2, 3, 5, 6, 7, 9], [2, 3, 4, 5, 6, 7, 8, 9], [1, 2, 3, 4, 5, 6, 7, 8], [1, 2, 3, 4, 6, 7, 9], [1, 2, 3, 4, 5, 6, 7, 8, 9], [2, 3, 5, 6, 7, 8, 9], [1, 2, 3, 4, 5, 6, 7, 9]], [[2, 3, 4, 7, 8, 9], [1, 2, 3, 4, 5, 6, 8], [1, 2, 3, 5, 6, 7, 9], [2, 3, 4, 5, 6, 7, 8, 9], [1, 2, 3, 4, 5, 6, 7, 8], [1, 2, 3, 4, 6, 7, 9], [1, 2, 3, 4, 5, 6, 7, 8, 9], [2, 3, 5, 6, 7, 8, 9], [1, 2, 3, 4, 5, 6, 7, 9]]],
   ([] : List TraceEntry)⟩

/-- Intermediate solver state of a staged evaluation. -/
def ev_S88 : SolverState :=
  ⟨mkGrid9 (0 : ℤ) [[5, 0, 4, 0, 0, 8, 0, 1, 0], [6, 7, 0, 1, 9, 5, 0, 4, 8], [1, 9, 8, 0, 0, 0, 5, 0, 0], [0, 5, 9, 7, 6, 1, 4, 2, 0], [0, 0, 0, 8, 5, 3, 7, 9, 1], [0, 1, 0, 9, 2, 4, 0, 5, 6], [9, 0, 0, 5, 3, 0, 2, 0, 0], [2, 8, 7, 0, 1, 0, 0, 3, 0], [3, 4, 5, 0, 0, 0, 0, 0, 0]],
   mkGrid9 ([] : List ℤ) [[[], [2, 3], [], [2, 3, 6], [2, 3, 7], [], [2, 3, 6, 9], [], [2, 3, 6, 7, 9]], [[], [], [2, 3], [], [], [], [2, 3], [], []], [[], [], [], [2, 3, 4, 6], [2, 3, 4, 7], [2, 4, 6, 7], [], [3, 6, 7], [2, 3, 6, 7]], [[3, 8], [], [], [], [], [], [], [], [3]], [[2, 4], [2, 4, 6], [2, 6], [], [], [], [], [], []], [[2, 3, 4, 7, 8], [1, 2, 3, 4, 6, 8], [1, 2, 3, 6, 7], [2, 4, 9], [2, 4], [2, 4, 9], [3, 6, 8], [3, 5, 6, 8], [3, 5, 6]], [[2, 3, 4, 7, 8, 9], [1, 2, 3, 4, 6, 8], [1, 2, 3, 5, 6, 7], [2, 3, 4, 5, 6, 9], [1, 2, 3, 4, 7, 8], [2, 4, 6, 7, 9], [1, 2, 3, 6, 8, 9], [3, 5, 6, 7, 8], [2, 3, 4, 5, 6, 7, 9]], [[2, 3, 4, 7, 8, 9], [1, 2, 3, 4, 6, 8], [1, 2, 3, 5, 6, 7], [2, 3, 4, 5, 6, 9], [1, 2, 3, 4, 7, 8], [2, 4, 6, 7, 9], [1, 2, 3, 6, 8, 9], [3, 5, 6, 7, 8], [2, 3, 4, 5, 6, 7, 9]], [[2, 3, 4, 7, 8, 9], [1, 2, 3, 4, 6, 8], [1, 2, 3, 5, 6, 7], [2, 3, 4, 5, 6, 9], [1, 2, 3, 4, 7, 8], [2, 4, 6, 7, 9], [1, 2, 3, 6, 8, 9], [3, 5, 6, 7, 8], [2, 3, 4, 5, 6, 7, 9]]],
   ([] : List TraceEntry)⟩

/-- Intermediate solver state of a staged evaluation. -/
def ev_S90 : SolverState :=
  ⟨mkGrid9 (0 : ℤ) [[5, 0, 4, 0, 0, 8, 0, 1, 0], [6, 7, 0, 1, 9, 5, 0, 4, 8], [1, 9, 8, 0, 0, 0, 5, 0, 0], [0, 5, 9, 7, 6, 1, 4, 2, 0], [0, 0, 0, 8, 5, 3, 7, 9, 1], [0, 1, 0, 9, 2, 4, 0, 5, 6], [9, 0, 0, 5, 3, 0, 2, 0, 0], [2, 8, 7, 0, 1, 0, 0, 3, 0], [3, 4, 5, 0, 0, 0, 0, 0, 0]],
   mkGrid9 ([] : List ℤ) [[[], [2, 3], [], [2, 3, 6], [7], [], [3, 6, 9], [], [2, 3, 7, 9]], [[], [], [2, 3], [], [], [], [3], [], []], [[], [], [], [2, 3, 4, 6], [4, 7], [2, 6, 7], [], [3, 6, 7], [2, 3, 7]], [[3, 8], [], [], [], [], [], [], [], [3]], [[4], [2, 4, 6], [2, 6], [], [], [], [], [], []], [[3, 7, 8], [], [3], [], [], [], [3, 8], [], []], [[], [4, 6], [1, 6], [], [], [6, 7], [], [6, 7, 8], [4, 7]], [[], [], [], [4, 6], [], [6, 9], [3, 6, 9], [3, 6], [3, 4, 5, 9]], [[3, 4], [3, 4, 6], [1, 3, 5, 6], [2, 4, 6], [4, 7, 8], [2, 6, 7, 9], [1, 3, 6, 8, 9], [3, 6, 7, 8], [3, 4, 5, 7, 9]]],
   ([] : List TraceEntry)⟩

/-- Intermediate solver state of a staged evaluation. -/
def ev_S92 : SolverState :=
  ⟨mkGrid9 (0 : ℤ) [[5, 0, 4, 0, 0, 8, 0, 1, 0], [6, 7, 0, 1, 9, 5, 0, 4, 8], [1, 9, 8, 0, 0, 0, 5, 0, 0], [0, 5, 9, 7, 6, 1, 4, 2, 0], [0, 0, 0, 8, 5, 3, 7, 9, 1], [0, 1, 0, 9, 2, 4, 0, 5, 6], [9, 0, 0, 5, 3, 0, 2, 0, 0], [2, 8, 7, 0, 1, 0, 0, 3, 0], [3, 4, 5, 0, 0, 0, 0, 0, 0]],
   mkGrid9 ([] : List ℤ) [[[], [2, 3], [], [2, 3, 6], [7], [], [3, 6, 9], [], [2, 3, 7, 9]], [[], [], [2, 3], [], [], [], [3], [], []], [[], [], [], [2, 3, 4, 6], [4, 7], [2, 6, 7], [], [6, 7], [2, 3, 7]], [[8], [], [], [], [], [], [], [], [3]], [[4], [2, 6], [2, 6], [], [], [], [], [], []], [[7, 8], [], [3], [], [], [], [3, 8], [], []], [[], [6], [1, 6], [], [], [6, 7], [], [6, 7, 8], [4, 7]], [[], [], [], [4, 6], [], [6, 9], [6, 9], [], [4, 5, 9]], [[], [], [], [2, 6], [7, 8], [2, 6, 7, 9], [1, 6, 8, 9], [6, 7, 8], [7, 9]]],
   ([] : List TraceEntry)⟩

/-- Intermediate solver state of a staged evaluation. -/
def ev_S96 : SolverState :=
  ⟨mkGrid9 (0 : ℤ) [[5, 0, 4, 0, 7, 8, 0, 1, 0], [6, 7, 0, 1, 9, 5, 3, 4, 8], [1, 9, 8, 0, 4, 0, 5, 0, 0], [8, 5, 9, 7, 6, 1, 4, 2, 3], [4, 0, 0, 8, 5, 3, 7, 9, 1], [7, 1, 3, 9, 2, 4, 8, 5, 6], [9, 6, 1, 5, 3, 7, 2, 8, 4], [2, 8, 7, 0, 1, 0, 0, 3, 0], [3, 4, 5, 0, 8, 0, 0, 0, 0]],
   mkGrid9 ([] : List ℤ) [[[], [2, 3], [], [2, 3, 6], [], [], [6, 9], [], [2, 9]], [[], [], [2], [], [], [], [], [], []], [[], [], [], [2, 3, 6], [], [2, 6], [], [6, 7], [2, 7]], [[], [], [], [], [], [], [], [], []], [[], [2], [2, 6], [], [], [], [], [], []], [[], [], [], [], [], [], [], [], []], [[], [], [], [], [], [], [], [], []], [[], [], [], [4, 6], [], [6, 9], [6, 9], [], [5, 9]], [[], [], [], [2, 6], [], [2, 6, 9], [1, 6, 9], [6, 7], [7, 9]]],
   ([⟨"Naked Single", 0, 4, 7, "Only possible value for cell (1, 5)"⟩, ⟨"Naked Single", 1, 6, 3, "Only possible value for cell (2, 7)"⟩, ⟨"Naked Single", 2, 4, 4, "Only possible value for cell (3, 5)"⟩, ⟨"Naked Single", 3, 0, 8, "Only possible value for cell (4, 1)"⟩, ⟨"Naked Single", 3, 8, 3, "Only possible value for cell (4, 9)"⟩, ⟨"Naked Single", 4, 0, 4, "Only possible value for cell (5, 1)"⟩, ⟨"Naked Single", 5, 0, 7, "Only possible value for cell (6, 1)"⟩, ⟨"Naked Single", 5, 2, 3, "Only possible value for cell (6, 3)"⟩, ⟨"Naked Single", 5, 6, 8, "Only possible value for cell (6, 7)"⟩, ⟨"Naked Single", 6, 1, 6, "Only possible value for cell (7, 2)"⟩, ⟨"Naked Single", 6, 2, 1, "Only possible value for cell (7, 3)"⟩, ⟨"Naked Single", 6, 5, 7, "Only possible value for cell (7, 6)"⟩, ⟨"Naked Single", 6, 7, 8, "Only possible value for cell (7, 8)"⟩, ⟨"Naked Single", 6, 8, 4, "Only possible value for cell (7, 9)"⟩, ⟨"Naked Single", 8, 4, 8, "Only possible value for cell (9, 5)"⟩] : List TraceEntry)⟩

/-- Intermediate solver state of a staged evaluation. -/
def ev_S97 : SolverState :=
  ⟨mkGrid9 (0 : ℤ) [[5, 0, 4, 0, 7, 8, 0, 1, 0], [6, 7, 0, 1, 9, 5, 3, 4, 8], [1, 9, 8, 0, 4, 0, 5, 0, 0], [8, 5, 9, 7, 6, 1, 4, 2, 3], [4, 0, 0, 8, 5, 3, 7, 9, 1], [7, 1, 3, 9, 2, 4, 8, 5, 6], [9, 6, 1, 5, 3, 7, 2, 0, 0], [2, 8, 7, 0, 1, 0, 0, 3, 0], [3, 4, 5, 0, 0, 0, 0, 0, 0]],
   mkGrid9 ([] : List ℤ) [[[], [2, 3], [], [2, 3, 6], [], [], [6, 9], [], [2, 9]], [[], [], [2], [], [], [], [], [], []], [[], [], [], [2, 3, 6], [], [2, 6], [], [6, 7], [2, 7]], [[], [], [], [], [], [], [], [], []], [[], [2], [2, 6], [], [], [], [], [], []], [[], [], [], [], [], [], [], [], []], [[], [], [], [], [], [], [], [8], [4]], [[], [], [], [4, 6], [], [6, 9], [6, 9], [], [4, 5, 9]], [[], [], [], [2, 6], [8], [2, 6, 9], [1, 6, 9], [6, 7, 8], [7, 9]]],
   ([⟨"Naked Single", 0, 4, 7, "Only possible value for cell (1, 5)"⟩, ⟨"Naked Single", 1, 6, 3, "Only possible value for cell (2, 7)"⟩, ⟨"Naked Single", 2, 4, 4, "Only possible value for cell (3, 5)"⟩, ⟨"Naked Single", 3, 0, 8, "Only possible value for cell (4, 1)"⟩, ⟨"Naked Single", 3, 8, 3, "Only possible value for cell (4, 9)"⟩, ⟨"Naked Single", 4, 0, 4, "Only possible value for cell (5, 1)"⟩, ⟨"Naked Single", 5, 0, 7, "Only possible value for cell (6, 1)"⟩, ⟨"Naked Single", 5, 2, 3, "Only possible value for cell (6, 3)"⟩, ⟨"Naked Single", 5, 6, 8, "Only possible value for cell (6, 7)"⟩, ⟨"Naked Single", 6, 1, 6, "Only possible value for cell (7, 2)"⟩, ⟨"Naked Single", 6, 2, 1, "Only possible value for cell (7, 3)"⟩, ⟨"Naked Single", 6, 5, 7, "Only possible value for cell (7, 6)"⟩] : List TraceEntry)⟩

/-- Intermediate solver state of a staged evaluation. -/
def ev_S101 : SolverState :=
  ⟨mkGrid9 (0 : ℤ) [[5, 0, 4, 0, 7, 8, 0, 1, 0], [6, 7, 2, 1, 9, 5, 3, 4, 8], [1, 9, 8, 3, 4, 0, 5, 0, 0], [8, 5, 9, 7, 6, 1, 4, 2, 3], [4, 2, 6, 8, 5, 3, 7, 9, 1], [7, 1, 3, 9, 2, 4, 8, 5, 6], [9, 6, 1, 5, 3, 7, 2, 8, 4], [2, 8, 7, 4, 1, 0, 0, 3, 5], [3, 4, 5, 0, 8, 0, 1, 0, 0]],
   mkGrid9 ([] : List ℤ) [[[], [3], [], [2, 6], [], [], [6, 9], [], [2, 9]], [[], [], [], [], [], [], [], [], []], [[], [], [], [], [], [2, 6], [], [6, 7], [2, 7]], [[], [], [], [], [], [], [], [], []], [[], [], [], [], [], [], [], [], []], [[], [], [], [], [], [], [], [], []], [[], [], [], [], [], [], [], [], []], [[], [], [], [], [], [6, 9], [6, 9], [], []], [[], [], [], [2, 6], [], [2, 6, 9], [], [6, 7], [7, 9]]],
   ([⟨"Naked Single", 0, 4, 7, "Only possible value for cell (1, 5)"⟩, ⟨"Naked Single", 1, 6, 3, "Only possible value for cell (2, 7)"⟩, ⟨"Naked Single", 2, 4, 4, "Only possible value for cell (3, 5)"⟩, ⟨"Naked Single", 3, 0, 8, "Only possible value for cell (4, 1)"⟩, ⟨"Naked Single", 3, 8, 3, "Only possible value for cell (4, 9)"⟩, ⟨"Naked Single", 4, 0, 4, "Only possible value for cell (5, 1)"⟩, ⟨"Naked Single", 5, 0, 7, "Only possible value for cell (6, 1)"⟩, ⟨"Naked Single", 5, 2, 3, "Only possible value for cell (6, 3)"⟩, ⟨"Naked Single", 5, 6, 8, "Only possible value for cell (6, 7)"⟩, ⟨"Naked Single", 6, 1, 6, "Only possible value for cell (7, 2)"⟩, ⟨"Naked Single", 6, 2, 1, "Only possible value for cell (7, 3)"⟩, ⟨"Naked Single", 6, 5, 7, "Only possible value for cell (7, 6)"⟩, ⟨"Naked Single", 6, 7, 8, "Only possible value for cell (7, 8)"⟩, ⟨"Naked Single", 6, 8, 4, "Only possible value for cell (7, 9)"⟩, ⟨"Naked Single", 8, 4, 8, "Only possible value for cell (9, 5)"⟩, ⟨"Hidden Single (Row)", 1, 2, 2, "2 can only go in this cell in row 2"⟩, ⟨"Hidden Single (Row)", 2, 3, 3, "3 can only go in this cell in row 3"⟩, ⟨"Hidden Single (Row)", 4, 1, 2, "2 can only go in this cell in row 5"⟩, ⟨"Hidden Single (Row)", 4, 2, 6, "6 can only go in this cell in row 5"⟩, ⟨"Hidden Single (Row)", 7, 3, 4, "4 can only go in this cell in row 8"⟩, ⟨"Hidden Single (Row)", 7, 8, 5, "5 can only go in this cell in row 8"⟩, ⟨"Hidden Single (Row)", 8, 6, 1, "1 can only go in this cell in row 9"⟩] : List TraceEntry)⟩

/-- Intermediate solver state of a staged evaluation. -/
def ev_S103 : SolverState :=
  ⟨mkGrid9 (0 : ℤ) [[5, 3, 4, 0, 7, 8, 0, 1, 0], [6, 7, 2, 1, 9, 5, 3, 4, 8], [1, 9, 8, 3, 4, 0, 5, 0, 0], [8, 5, 9, 7, 6, 1, 4, 2, 3], [4, 2, 6, 8, 5, 3, 7, 9, 1], [7, 1, 3, 9, 2, 4, 8, 5, 6], [9, 6, 1, 5, 3, 7, 2, 8, 4], [2, 8, 7, 4, 1, 0, 0, 3, 5], [3, 4, 5, 0, 8, 0, 1, 0, 0]],
   mkGrid9 ([] : List ℤ) [[[], [], [], [2, 6], [], [], [6, 9], [], [2, 9]], [[], [], [], [], [], [], [], [], []], [[], [], [], [], [], [2, 6], [], [6, 7], [2, 7]], [[], [], [], [], [], [], [], [], []], [[], [], [], [], [], [], [], [], []], [[], [], [], [], [], [], [], [], []], [[], [], [], [], [], [], [], [], []], [[], [], [], [], [], [6, 9], [6, 9], [], []], [[], [], [], [2, 6], [], [2, 6, 9], [], [6, 7], [7, 9]]],
   ([⟨"Naked Single", 0, 4, 7, "Only possible value for cell (1, 5)"⟩, ⟨"Naked Single", 1, 6, 3, "Only possible value for cell (2, 7)"⟩, ⟨"Naked Single", 2, 4, 4, "Only possible value for cell (3, 5)"⟩, ⟨"Naked Single", 3, 0, 8, "Only possible value for cell (4, 1)"⟩, ⟨"Naked Single", 3, 8, 3, "Only possible value for cell (4, 9)"⟩, ⟨"Naked Single", 4, 0, 4, "Only possible value for cell (5, 1)"⟩, ⟨"Naked Single", 5, 0, 7, "Only possible value for cell (6, 1)"⟩, ⟨"Naked Single", 5, 2, 3, "Only possible value for cell (6, 3)"⟩, ⟨"Naked Single", 5, 6, 8, "Only possible value for cell (6, 7)"⟩, ⟨"Naked Single", 6, 1, 6, "Only possible value for cell (7, 2)"⟩, ⟨"Naked Single", 6, 2, 1, "Only possible value for cell (7, 3)"⟩, ⟨"Naked Single", 6, 5, 7, "Only possible value for cell (7, 6)"⟩, ⟨"Naked Single", 6, 7, 8, "Only possible value for cell (7, 8)"⟩, ⟨"Naked Single", 6, 8, 4, "Only possible value for cell (7, 9)"⟩, ⟨"Naked Single", 8, 4, 8, "Only possible value for cell (9, 5)"⟩, ⟨"Hidden Single (Row)", 1, 2, 2, "2 can only go in this cell in row 2"⟩, ⟨"Hidden Single (Row)", 2, 3, 3, "3 can only go in this cell in row 3"⟩, ⟨"Hidden Single (Row)", 4, 1, 2, "2 can only go in this cell in row 5"⟩, ⟨"Hidden Single (Row)", 4, 2, 6, "6 can only go in this cell in row 5"⟩, ⟨"Hidden Single (Row)", 7, 3, 4, "4 can only go in this cell in row 8"⟩, ⟨"Hidden Single (Row)", 7, 8, 5, "5 can only go in this cell in row 8"⟩, ⟨"Hidden Single (Row)", 8, 6, 1, "1 can only go in this cell in row 9"⟩, ⟨"Hidden Single (Column)", 0, 1, 3, "3 can only go in this cell in column 2"⟩] : List TraceEntry)⟩

/-- Intermediate solver state of a staged evaluation. -/
def ev_S123 : SolverState :=
  ⟨mkGrid9 (0 : ℤ) [[5, 3, 4, 2, 7, 8, 0, 1, 0], [6, 7, 2, 1, 9, 5, 3, 4, 8], [1, 9, 8, 3, 4, 0, 5, 0, 0], [8, 5, 9, 7, 6, 1, 4, 2, 3], [4, 2, 6, 8, 5, 3, 7, 9, 1], [7, 1, 3, 9, 2, 4, 8, 5, 6], [9, 6, 1, 5, 3, 7, 2, 8, 4], [2, 8, 7, 4, 1, 0, 0, 3, 5], [3, 4, 5, 0, 8, 0, 1, 0, 0]],
   mkGrid9 ([] : List ℤ) [[[], [], [], [], [], [], [6, 9], [], [9]], [[], [], [], [], [], [], [], [], []], [[], [], [], [], [], [6], [], [6, 7], [2, 7]], [[], [], [], [], [], [], [], [], []], [[], [], [], [], [], [], [], [], []], [[], [], [], [], [], [], [], [], []], [[], [], [], [], [], [], [], [], []], [[], [], [], [], [], [6, 9], [6, 9], [], []], [[], [], [], [6], [], [2, 6, 9], [], [6, 7], [7, 9]]],
   ([⟨"Naked Single", 0, 4, 7, "Only possible value for cell (1, 5)"⟩, ⟨"Naked Single", 1, 6, 3, "Only possible value for cell (2, 7)"⟩, ⟨"Naked Single", 2, 4, 4, "Only possible value for cell (3, 5)"⟩, ⟨"Naked Single", 3, 0, 8, "Only possible value for cell (4, 1)"⟩, ⟨"Naked Single", 3, 8, 3, "Only possible value for cell (4, 9)"⟩, ⟨"Naked Single", 4, 0, 4, "Only possible value for cell (5, 1)"⟩, ⟨"Naked Single", 5, 0, 7, "Only possible value for cell (6, 1)"⟩, ⟨"Naked Single", 5, 2, 3, "Only possible value for cell (6, 3)"⟩, ⟨"Naked Single", 5, 6, 8, "Only possible value for cell (6, 7)"⟩, ⟨"Naked Single", 6, 1, 6, "Only possible value for cell (7, 2)"⟩, ⟨"Naked Single", 6, 2, 1, "Only possible value for cell (7, 3)"⟩, ⟨"Naked Single", 6, 5, 7, "Only possible value for cell (7, 6)"⟩, ⟨"Naked Single", 6, 7, 8, "Only possible value for cell (7, 8)"⟩, ⟨"Naked Single", 6, 8, 4, "Only possible value for cell (7, 9)"⟩, ⟨"Naked Single", 8, 4, 8, "Only possible value for cell (9, 5)"⟩, ⟨"Hidden Single (Row)", 1, 2, 2, "2 can only go in this cell in row 2"⟩, ⟨"Hidden Single (Row)", 2, 3, 3, "3 can only go in this cell in row 3"⟩, ⟨"Hidden Single (Row)", 4, 1, 2, "2 can only go in this cell in row 5"⟩, ⟨"Hidden Single (Row)", 4, 2, 6, "6 can only go in this cell in row 5"⟩, ⟨"Hidden Single (Row)", 7, 3, 4, "4 can only go in this cell in row 8"⟩, ⟨"Hidden Single (Row)", 7, 8, 5, "5 can only go in this cell in row 8"⟩, ⟨"Hidden Single (Row)", 8, 6, 1, "1 can only go in this cell in row 9"⟩, ⟨"Hidden Single (Column)", 0, 1, 3, "3 can only go in this cell in column 2"⟩] : List TraceEntry)⟩

/-- Intermediate solver state of a staged evaluation. -/
def ev_S125 : SolverState :=
  ⟨mkGrid9 (0 : ℤ) [[5, 3, 4, 2, 7, 8, 0, 1, 9], [6, 7, 2, 1, 9, 5, 3, 4, 8], [1, 9, 8, 3, 4, 6, 5, 7, 2], [8, 5, 9, 7, 6, 1, 4, 2, 3], [4, 2, 6, 8, 5, 3, 7, 9, 1], [7, 1, 3, 9, 2, 4, 8, 5, 6], [9, 6, 1, 5, 3, 7, 2, 8, 4], [2, 8, 7, 4, 1, 9, 6, 3, 5], [3, 4, 5, 6, 8, 2, 1, 0, 7]],
   mkGrid9 ([] : List ℤ) [[[], [], [], [], [], [], [], [], []], [[], [], [], [], [], [], [], [], []], [[], [], [], [], [], [], [], [], []], [[], [], [], [], [], [], [], [], []], [[], [], [], [], [], [], [], [], []], [[], [], [], [], [], [], [], [], []], [[], [], [], [], [], [], [], [], []], [[], [], [], [], [], [], [], [], []], [[], [], [], [], [], [], [], [], []]],
   ([⟨"Naked Single", 0, 4, 7, "Only possible value for cell (1, 5)"⟩, ⟨"Naked Single", 1, 6, 3, "Only possible value for cell (2, 7)"⟩, ⟨"Naked Single", 2, 4, 4, "Only possible value for cell (3, 5)"⟩, ⟨"Naked Single", 3, 0, 8, "Only possible value for cell (4, 1)"⟩, ⟨"Naked Single", 3, 8, 3, "Only possible value for cell (4, 9)"⟩, ⟨"Naked Single", 4, 0, 4, "Only possible value for cell (5, 1)"⟩, ⟨"Naked Single", 5, 0, 7, "Only possible value for cell (6, 1)"⟩, ⟨"Naked Single", 5, 2, 3, "Only possible value for cell (6, 3)"⟩, ⟨"Naked Single", 5, 6, 8, "Only possible value for cell (6, 7)"⟩, ⟨"Naked Single", 6, 1, 6, "Only possible value for cell (7, 2)"⟩, ⟨"Naked Single", 6, 2, 1, "Only possible value for cell (7, 3)"⟩, ⟨"Naked Single", 6, 5, 7, "Only possible value for cell (7, 6)"⟩, ⟨"Naked Single", 6, 7, 8, "Only possible value for cell (7, 8)"⟩, ⟨"Naked Single", 6, 8, 4, "Only possible value for cell (7, 9)"⟩, ⟨"Naked Single", 8, 4, 8, "Only possible value for cell (9, 5)"⟩, ⟨"Hidden Single (Row)", 1, 2, 2, "2 can only go in this cell in row 2"⟩, ⟨"Hidden Single (Row)", 2, 3, 3, "3 can only go in this cell in row 3"⟩, ⟨"Hidden Single (Row)", 4, 1, 2, "2 can only go in this cell in row 5"⟩, ⟨"Hidden Single (Row)", 4, 2, 6, "6 can only go in this cell in row 5"⟩, ⟨"Hidden Single (Row)", 7, 3, 4, "4 can only go in this cell in row 8"⟩, ⟨"Hidden Single (Row)", 7, 8, 5, "5 can only go in this cell in row 8"⟩, ⟨"Hidden Single (Row)", 8, 6, 1, "1 can only go in this cell in row 9"⟩, ⟨"Hidden Single (Column)", 0, 1, 3, "3 can only go in this cell in column 2"⟩, ⟨"Naked Single", 0, 8, 9, "Only possible value for cell (1, 9)"⟩, ⟨"Naked Single", 2, 5, 6, "Only possible value for cell (3, 6)"⟩, ⟨"Naked Single", 2, 7, 7, "Only possible value for cell (3, 8)"⟩, ⟨"Naked Single", 2, 8, 2, "Only possible value for cell (3, 9)"⟩, ⟨"Naked Single", 7, 5, 9, "Only possible value for cell (8, 6)"⟩, ⟨"Naked Single", 7, 6, 6, "Only possible value for cell (8, 7)"⟩, ⟨"Naked Single", 8, 3, 6, "Only possible value for cell (9, 4)"⟩, ⟨"Naked Single", 8, 5, 2, "Only possible value for cell (9, 6)"⟩, ⟨"Naked Single", 8, 8, 7, "Only possible value for cell (9, 9)"⟩] : List TraceEntry)⟩

/-- Intermediate solver state of a staged evaluation. -/
def ev_S143 : SolverState :=
  ⟨mkGrid9 (0 : ℤ) [[5, 3, 4, 0, 7, 8, 0, 1, 0], [6, 7, 2, 1, 9, 5, 3, 4, 8], [1, 9, 8, 3, 4, 0, 5, 0, 0], [8, 5, 9, 7, 6, 1, 4, 2, 3], [4, 2, 6, 8, 5, 3, 7, 9, 1], [7, 1, 3, 9, 2, 4, 8, 5, 6], [9, 6, 1, 5, 3, 7, 2, 8, 4], [2, 8, 7, 4, 1, 0, 0, 3, 5], [3, 4, 5, 0, 8, 0, 1, 0, 0]],
   mkGrid9 ([] : List ℤ) [[[], [], [], [2, 6], [], [], [6, 9], [], [2, 9]], [[], [], [], [], [], [], [], [], []], [[], [], [], [], [], [2, 6], [], [6, 7], [2, 7]], [[], [], [], [], [], [], [], [], []], [[], [], [], [], [], [], [], [], []], [[], [], [], [], [], [], [], [], []], [[], [], [], [], [], [], [], [], []], [[], [], [], [], [], [6, 9], [6, 9], [], []], [[], [], [], [2, 6], [], [2, 6, 9], [], [6, 7], [7, 9]]],
   ([⟨"Naked Single", 0, 4, 7, "Only possible value for cell (1, 5)"⟩, ⟨"Naked Single", 1, 6, 3, "Only possible value for cell (2, 7)"⟩, ⟨"Naked Single", 2, 4, 4, "Only possible value for cell (3, 5)"⟩, ⟨"Naked Single", 3, 0, 8, "Only possible value for cell (4, 1)"⟩, ⟨"Naked Single", 3, 8, 3, "Only possible value for cell (4, 9)"⟩, ⟨"Naked Single", 4, 0, 4, "Only possible value for cell (5, 1)"⟩, ⟨"Naked Single", 5, 0, 7, "Only possible value for cell (6, 1)"⟩, ⟨"Naked Single", 5, 2, 3, "Only possible value for cell (6, 3)"⟩, ⟨"Naked Single", 5, 6, 8, "Only possible value for cell (6, 7)"⟩, ⟨"Naked Single", 6, 1, 6, "Only possible value for cell (7, 2)"⟩, ⟨"Naked Single", 6, 2, 1, "Only possible value for cell (7, 3)"⟩, ⟨"Naked Single", 6, 5, 7, "Only possible value for cell (7, 6)"⟩, ⟨"Naked Single", 6, 7, 8, "Only possible value for cell (7, 8)"⟩, ⟨"Naked Single", 6, 8, 4, "Only possible value for cell (7, 9)"⟩, ⟨"Naked Single", 8, 4, 8, "Only possible value for cell (9, 5)"⟩, ⟨"Hidden Single (Row)", 1, 2, 2, "2 can only go in this cell in row 2"⟩, ⟨"Hidden Single (Row)", 2, 3, 3, "3 can only go in this cell in row 3"⟩, ⟨"Hidden Single (Row)", 4, 1, 2, "2 can only go in this cell in row 5"⟩, ⟨"Hidden Single (Row)", 4, 2, 6, "6 can only go in this cell in row 5"⟩, ⟨"Hidden Single (Row)", 7, 3, 4, "4 can only go in this cell in row 8"⟩, ⟨"Hidden Single (Row)", 7, 8, 5, "5 can only go in this cell in row 8"⟩, ⟨"Hidden Single (Row)", 8, 6, 1, "1 can only go in this cell in row 9"⟩, ⟨"Hidden Single (Column)", 0, 1, 3, "3 can only go in this cell in column 2"⟩, ⟨"Naked Single", 0, 8, 9, "Only possible value for cell (1, 9)"⟩, ⟨"Naked Single", 2, 5, 6, "Only possible value for cell (3, 6)"⟩, ⟨"Naked Single", 2, 7, 7, "Only possible value for cell (3, 8)"⟩, ⟨"Naked Single", 2, 8, 2, "Only possible value for cell (3, 9)"⟩, ⟨"Naked Single", 7, 5, 9, "Only possible value for cell (8, 6)"⟩, ⟨"Naked Single", 7, 6, 6, "Only possible value for cell (8, 7)"⟩, ⟨"Naked Single", 8, 3, 6, "Only possible value for cell (9, 4)"⟩, ⟨"Naked Single", 8, 5, 2, "Only possible value for cell (9, 6)"⟩, ⟨"Naked Single", 8, 8, 7, "Only possible value for cell (9, 9)"⟩] : List TraceEntry)⟩

/-- Intermediate solver state of a staged evaluation. -/
def ev_S145 : SolverState :=
  ⟨mkGrid9 (0 : ℤ) [[5, 3, 4, 6, 7, 8, 0, 1, 0], [6, 7, 2, 1, 9, 5, 3, 4, 8], [1, 9, 8, 3, 4, 0, 5, 0, 0], [8, 5, 9, 7, 6, 1, 4, 2, 3], [4, 2, 6, 8, 5, 3, 7, 9, 1], [7, 1, 3, 9, 2, 4, 8, 5, 6], [9, 6, 1, 5, 3, 7, 2, 8, 4], [2, 8, 7, 4, 1, 0, 0, 3, 5], [3, 4, 5, 0, 8, 0, 1, 0, 0]],
   mkGrid9 ([] : List ℤ) [[[], [], [], [], [], [], [9], [], [2, 9]], [[], [], [], [], [], [], [], [], []], [[], [], [], [], [], [2], [], [6, 7], [2, 7]], [[], [], [], [], [], [], [], [], []], [[], [], [], [], [], [], [], [], []], [[], [], [], [], [], [], [], [], []], [[], [], [], [], [], [], [], [], []], [[], [], [], [], [], [6, 9], [6, 9], [], []], [[], [], [], [2], [], [2, 6, 9], [], [6, 7], [7, 9]]],
   ([⟨"Naked Single", 0, 4, 7, "Only possible value for cell (1, 5)"⟩, ⟨"Naked Single", 1, 6, 3, "Only possible value for cell (2, 7)"⟩, ⟨"Naked Single", 2, 4, 4, "Only possible value for cell (3, 5)"⟩, ⟨"Naked Single", 3, 0, 8, "Only possible value for cell (4, 1)"⟩, ⟨"Naked Single", 3, 8, 3, "Only possible value for cell (4, 9)"⟩, ⟨"Naked Single", 4, 0, 4, "Only possible value for cell (5, 1)"⟩, ⟨"Naked Single", 5, 0, 7, "Only possible value for cell (6, 1)"⟩, ⟨"Naked Single", 5, 2, 3, "Only possible value for cell (6, 3)"⟩, ⟨"Naked Single", 5, 6, 8, "Only possible value for cell (6, 7)"⟩, ⟨"Naked Single", 6, 1, 6, "Only possible value for cell (7, 2)"⟩, ⟨"Naked Single", 6, 2, 1, "Only possible value for cell (7, 3)"⟩, ⟨"Naked Single", 6, 5, 7, "Only possible value for cell (7, 6)"⟩, ⟨"Naked Single", 6, 7, 8, "Only possible value for cell (7, 8)"⟩, ⟨"Naked Single", 6, 8, 4, "Only possible value for cell (7, 9)"⟩, ⟨"Naked Single", 8, 4, 8, "Only possible value for cell (9, 5)"⟩, ⟨"Hidden Single (Row)", 1, 2, 2, "2 can only go in this cell in row 2"⟩, ⟨"Hidden Single (Row)", 2, 3, 3, "3 can only go in this cell in row 3"⟩, ⟨"Hidden Single (Row)", 4, 1, 2, "2 can only go in this cell in row 5"⟩, ⟨"Hidden Single (Row)", 4, 2, 6, "6 can only go in this cell in row 5"⟩, ⟨"Hidden Single (Row)", 7, 3, 4, "4 can only go in this cell in row 8"⟩, ⟨"Hidden Single (Row)", 7, 8, 5, "5 can only go in this cell in row 8"⟩, ⟨"Hidden Single (Row)", 8, 6, 1, "1 can only go in this cell in row 9"⟩, ⟨"Hidden Single (Column)", 0, 1, 3, "3 can only go in this cell in column 2"⟩, ⟨"Naked Single", 0, 8, 9, "Only possible value for cell (1, 9)"⟩, ⟨"Naked Single", 2, 5, 6, "Only possible value for cell (3, 6)"⟩, ⟨"Naked Single", 2, 7, 7, "Only possible value for cell (3, 8)"⟩, ⟨"Naked Single", 2, 8, 2, "Only possible value for cell (3, 9)"⟩, ⟨"Naked Single", 7, 5, 9, "Only possible value for cell (8, 6)"⟩, ⟨"Naked Single", 7, 6, 6, "Only possible value for cell (8, 7)"⟩, ⟨"Naked Single", 8, 3, 6, "Only possible value for cell (9, 4)"⟩, ⟨"Naked Single", 8, 5, 2, "Only possible value for cell (9, 6)"⟩, ⟨"Naked Single", 8, 8, 7, "Only possible value for cell (9, 9)"⟩] : List TraceEntry)⟩

/-- Intermediate solver state of a staged evaluation. -/
def ev_S147 : SolverState :=
  ⟨mkGrid9 (0 : ℤ) [[5, 3, 4, 6, 7, 8, 9, 1, 2], [6, 7, 2, 1, 9, 5, 3, 4, 8], [1, 9, 8, 3, 4, 2, 5, 0, 7], [8, 5, 9, 7, 6, 1, 4, 2, 3], [4, 2, 6, 8, 5, 3, 7, 9, 1], [7, 1, 3, 9, 2, 4, 8, 5, 6], [9, 6, 1, 5, 3, 7, 2, 8, 4], [2, 8, 7, 4, 1, 0, 6, 3, 5], [3, 4, 5, 2, 8, 0, 1, 7, 9]],
   mkGrid9 ([] : List ℤ) [[[], [], [], [], [], [], [], [], []], [[], [], [], [], [], [], [], [], []], [[], [], [], [], [], [], [], [6], []], [[], [], [], [], [], [], [], [], []], [[], [], [], [], [], [], [], [], []], [[], [], [], [], [], [], [], [], []], [[], [], [], [], [], [], [], [], []], [[], [], [], [], [], [9], [], [], []], [[], [], [], [], [], [6], [], [], []]],
   ([⟨"Naked Single", 0, 4, 7, "Only possible value for cell (1, 5)"⟩, ⟨"Naked Single", 1, 6, 3, "Only possible value for cell (2, 7)"⟩, ⟨"Naked Single", 2, 4, 4, "Only possible value for cell (3, 5)"⟩, ⟨"Naked Single", 3, 0, 8, "Only possible value for cell (4, 1)"⟩, ⟨"Naked Single", 3, 8, 3, "Only possible value for cell (4, 9)"⟩, ⟨"Naked Single", 4, 0, 4, "Only possible value for cell (5, 1)"⟩, ⟨"Naked Single", 5, 0, 7, "Only possible value for cell (6, 1)"⟩, ⟨"Naked Single", 5, 2, 3, "Only possible value for cell (6, 3)"⟩, ⟨"Naked Single", 5, 6, 8, "Only possible value for cell (6, 7)"⟩, ⟨"Naked Single", 6, 1, 6, "Only possible value for cell (7, 2)"⟩, ⟨"Naked Single", 6, 2, 1, "Only possible value for cell (7, 3)"⟩, ⟨"Naked Single", 6, 5, 7, "Only possible value for cell (7, 6)"⟩, ⟨"Naked Single", 6, 7, 8, "Only possible value for cell (7, 8)"⟩, ⟨"Naked Single", 6, 8, 4, "Only possible value for cell (7, 9)"⟩, ⟨"Naked Single", 8, 4, 8, "Only possible value for cell (9, 5)"⟩, ⟨"Hidden Single (Row)", 1, 2, 2, "2 can only go in this cell in row 2"⟩, ⟨"Hidden Single (Row)", 2, 3, 3, "3 can only go in this cell in row 3"⟩, ⟨"Hidden Single (Row)", 4, 1, 2, "2 can only go in this cell in row 5"⟩, ⟨"Hidden Single (Row)", 4, 2, 6, "6 can only go in this cell in row 5"⟩, ⟨"Hidden Single (Row)", 7, 3, 4, "4 can only go in this cell in row 8"⟩, ⟨"Hidden Single (Row)", 7, 8, 5, "5 can only go in this cell in row 8"⟩, ⟨"Hidden Single (Row)", 8, 6, 1, "1 can only go in this cell in row 9"⟩, ⟨"Hidden Single (Column)", 0, 1, 3, "3 can only go in this cell in column 2"⟩, ⟨"Naked Single", 0, 8, 9, "Only possible value for cell (1, 9)"⟩, ⟨"Naked Single", 2, 5, 6, "Only possible value for cell (3, 6)"⟩, ⟨"Naked Single", 2, 7, 7, "Only possible value for cell (3, 8)"⟩, ⟨"Naked Single", 2, 8, 2, "Only possible value for cell (3, 9)"⟩, ⟨"Naked Single", 7, 5, 9, "Only possible value for cell (8, 6)"⟩, ⟨"Naked Single", 7, 6, 6, "Only possible value for cell (8, 7)"⟩, ⟨"Naked Single", 8, 3, 6, "Only possible value for cell (9, 4)"⟩, ⟨"Naked Single", 8, 5, 2, "Only possible value for cell (9, 6)"⟩, ⟨"Naked Single", 8, 8, 7, "Only possible value for cell (9, 9)"⟩, ⟨"Naked Single", 0, 6, 9, "Only possible value for cell (1, 7)"⟩, ⟨"Naked Single", 0, 8, 2, "Only possible value for cell (1, 9)"⟩, ⟨"Naked Single", 2, 5, 2, "Only possible value for cell (3, 6)"⟩, ⟨"Naked Single", 2, 8, 7, "Only possible value for cell (3, 9)"⟩, ⟨"Naked Single", 7, 6, 6, "Only possible value for cell (8, 7)"⟩, ⟨"Naked Single", 8, 3, 2, "Only possible value for cell (9, 4)"⟩, ⟨"Naked Single", 8, 7, 7, "Only possible value for cell (9, 8)"⟩, ⟨"Naked Single", 8, 8, 9, "Only possible value for cell (9, 9)"⟩] : List TraceEntry)⟩

/-- Intermediate solver state of a staged evaluation. -/
def ev_S149 : SolverState :=
  ⟨mkGrid9 (0 : ℤ) [[5, 3, 4, 6, 7, 8, 9, 1, 2], [6, 7, 2, 1, 9, 5, 3, 4, 8], [1, 9, 8, 3, 4, 2, 5, 6, 7], [8, 5, 9, 7, 6, 1, 4, 2, 3], [4, 2, 6, 8, 5, 3, 7, 9, 1], [7, 1, 3, 9, 2, 4, 8, 5, 6], [9, 6, 1, 5, 3, 7, 2, 8, 4], [2, 8, 7, 4, 1, 9, 6, 3, 5], [3, 4, 5, 2, 8, 6, 1, 7, 9]],
   mkGrid9 ([] : List ℤ) [[[], [], [], [], [], [], [], [], []], [[], [], [], [], [], [], [], [], []], [[], [], [], [], [], [], [], [], []], [[], [], [], [], [], [], [], [], []], [[], [], [], [], [], [], [], [], []], [[], [], [], [], [], [], [], [], []], [[], [], [], [], [], [], [], [], []], [[], [], [], [], [], [], [], [], []], [[], [], [], [], [], [], [], [], []]],
   ([⟨"Naked Single", 0, 4, 7, "Only possible value for cell (1, 5)"⟩, ⟨"Naked Single", 1, 6, 3, "Only possible value for cell (2, 7)"⟩, ⟨"Naked Single", 2, 4, 4, "Only possible value for cell (3, 5)"⟩, ⟨"Naked Single", 3, 0, 8, "Only possible value for cell (4, 1)"⟩, ⟨"Naked Single", 3, 8, 3, "Only possible value for cell (4, 9)"⟩, ⟨"Naked Single", 4, 0, 4, "Only possible value for cell (5, 1)"⟩, ⟨"Naked Single", 5, 0, 7, "Only possible value for cell (6, 1)"⟩, ⟨"Naked Single", 5, 2, 3, "Only possible value for cell (6, 3)"⟩, ⟨"Naked Single", 5, 6, 8, "Only possible value for cell (6, 7)"⟩, ⟨"Naked Single", 6, 1, 6, "Only possible value for cell (7, 2)"⟩, ⟨"Naked Single", 6, 2, 1, "Only possible value for cell (7, 3)"⟩, ⟨"Naked Single", 6, 5, 7, "Only possible value for cell (7, 6)"⟩, ⟨"Naked Single", 6, 7, 8, "Only possible value for cell (7, 8)"⟩, ⟨"Naked Single", 6, 8, 4, "Only possible value for cell (7, 9)"⟩, ⟨"Naked Single", 8, 4, 8, "Only possible value for cell (9, 5)"⟩, ⟨"Hidden Single (Row)", 1, 2, 2, "2 can only go in this cell in row 2"⟩, ⟨"Hidden Single (Row)", 2, 3, 3, "3 can only go in this cell in row 3"⟩, ⟨"Hidden Single (Row)", 4, 1, 2, "2 can only go in this cell in row 5"⟩, ⟨"Hidden Single (Row)", 4, 2, 6, "6 can only go in this cell in row 5"⟩, ⟨"Hidden Single (Row)", 7, 3, 4, "4 can only go in this cell in row 8"⟩, ⟨"Hidden Single (Row)", 7, 8, 5, "5 can only go in this cell in row 8"⟩, ⟨"Hidden Single (Row)", 8, 6, 1, "1 can only go in this cell in row 9"⟩, ⟨"Hidden Single (Column)", 0, 1, 3, "3 can only go in this cell in column 2"⟩, ⟨"Naked Single", 0, 8, 9, "Only possible value for cell (1, 9)"⟩, ⟨"Naked Single", 2, 5, 6, "Only possible value for cell (3, 6)"⟩, ⟨"Naked Single", 2, 7, 7, "Only possible value for cell (3, 8)"⟩, ⟨"Naked Single", 2, 8, 2, "Only possible value for cell (3, 9)"⟩, ⟨"Naked Single", 7, 5, 9, "Only possible value for cell (8, 6)"⟩, ⟨"Naked Single", 7, 6, 6, "Only possible value for cell (8, 7)"⟩, ⟨"Naked Single", 8, 3, 6, "Only possible value for cell (9, 4)"⟩, ⟨"Naked Single", 8, 5, 2, "Only possible value for cell (9, 6)"⟩, ⟨"Naked Single", 8, 8, 7, "Only possible value for cell (9, 9)"⟩, ⟨"Naked Single", 0, 6, 9, "Only possible value for cell (1, 7)"⟩, ⟨"Naked Single", 0, 8, 2, "Only possible value for cell (1, 9)"⟩, ⟨"Naked Single", 2, 5, 2, "Only possible value for cell (3, 6)"⟩, ⟨"Naked Single", 2, 8, 7, "Only possible value for cell (3, 9)"⟩, ⟨"Naked Single", 7, 6, 6, "Only possible value for cell (8, 7)"⟩, ⟨"Naked Single", 8, 3, 2, "Only possible value for cell (9, 4)"⟩, ⟨"Naked Single", 8, 7, 7, "Only possible value for cell (9, 8)"⟩, ⟨"Naked Single", 8, 8, 9, "Only possible value for cell (9, 9)"⟩, ⟨"Hidden Single (Row)", 2, 7, 6, "6 can only go in this cell in row 3"⟩, ⟨"Hidden Single (Row)", 7, 5, 9, "9 can only go in this cell in row 8"⟩, ⟨"Hidden Single (Row)", 8, 5, 6, "6 can only go in this cell in row 9"⟩] : List TraceEntry)⟩


/-- A board with a duplicated `1` in row 1 (and in box 1): invalid input. -/
def dupBoard : Board := mkGrid9 (0 : ℤ)
  [[1, 1, 0, 0, 0, 0, 0, 0, 0], [0, 0, 0, 0, 0, 0, 0, 0, 0], [0, 0, 0, 0, 0, 0, 0, 0, 0],
   [0, 0, 0, 0, 0, 0, 0, 0, 0], [0, 0, 0, 0, 0, 0, 0, 0, 0], [0, 0, 0, 0, 0, 0, 0, 0, 0],
   [0, 0, 0, 0, 0, 0, 0, 0, 0], [0, 0, 0, 0, 0, 0, 0, 0, 0], [0, 0, 0, 0, 0, 0, 0, 0, 0]]

/-- The all-empty search state: every cell open, every candidate set `{1..9}`. -/
def freshState : SolverState :=
  ⟨Mathlib.Vector.replicate 9 (Mathlib.Vector.replicate 9 (0 : ℤ)),
   Mathlib.Vector.replicate 9 (Mathlib.Vector.replicate 9 digits), []⟩

/-! ### Grid access lemmas -/

theorem Grid.get_set_same {α : Type} (g : Grid α) (r c : Fin 9) (a : α) :
    (g.set r c a).get r c = a := by
  unfold Grid.get Grid.set
  rw [Mathlib.Vector.get_set_same, Mathlib.Vector.get_set_same]

theorem Grid.get_set_ne {α : Type} (g : Grid α) (r c r' c' : Fin 9) (a : α)
    (h : ¬(r = r' ∧ c = c')) : (g.set r c a).get r' c' = g.get r' c' := by
  unfold Grid.get Grid.set
  by_cases hr : r = r'
  · subst hr
    have hc : c ≠ c' := fun hc => h ⟨rfl, hc⟩
    rw [Mathlib.Vector.get_set_same, Mathlib.Vector.get_set_of_ne hc]
  · rw [Mathlib.Vector.get_set_of_ne hr]

theorem Grid.ext9 {α : Type} {g g' : Grid α}
    (h : ∀ r c, g.get r c = g'.get r c) : g = g' := by
  apply Mathlib.Vector.ext
  intro r
  apply Mathlib.Vector.ext
  intro c
  exact h r c

theorem Grid.get_replicate {α : Type} (a : α) (r c : Fin 9) :
    Grid.get (Mathlib.Vector.replicate 9 (Mathlib.Vector.replicate 9 a)) r c = a := by
  unfold Grid.get
  rw [Mathlib.Vector.get_replicate, Mathlib.Vector.get_replicate]

/-! ### Cell-list and digit facts -/

theorem mem_cols9 : ∀ i : Fin 9, i ∈ cols9 := by decide

theorem cols9_nodup : cols9.Nodup := by decide

theorem mem_allCells : ∀ p : Fin 9 × Fin 9, p ∈ allCells := by decide

theorem allCells_nodup : allCells.Nodup := by decide

theorem mem_digits (v : ℤ) : v ∈ digits ↔ 1 ≤ v ∧ v ≤ 9 := by
  simp only [digits, List.mem_cons, List.not_mem_nil, or_false]
  omega

theorem mem_boxCells (br bc : Fin 3) (p : Fin 9 × Fin 9) :
    p ∈ boxCells br bc ↔ p.1.val / 3 = br.val ∧ p.2.val / 3 = bc.val := by
  revert br bc p
  decide

theorem boxCells_nodup (br bc : Fin 3) : (boxCells br bc).Nodup := by
  revert br bc
  decide

theorem mem_boxCellsOf (r c : Fin 9) (p : Fin 9 × Fin 9) :
    p ∈ boxCellsOf r c ↔ p.1.val / 3 = r.val / 3 ∧ p.2.val / 3 = c.val / 3 := by
  revert r c p
  decide

theorem boxCellsOf_nodup (r c : Fin 9) : (boxCellsOf r c).Nodup := by
  unfold boxCellsOf
  exact boxCells_nodup _ _

theorem mem_rowValuePairs (rv : Fin 9 × ℤ) : rv ∈ rowValuePairs ↔ rv.2 ∈ digits := by
  unfold rowValuePairs
  simp only [List.mem_flatMap, List.mem_map]
  constructor
  · rintro ⟨r, _, v, hv, rfl⟩
    exact hv
  · intro hv
    exact ⟨rv.1, mem_cols9 _, rv.2, hv, rfl⟩

theorem mem_f3 : ∀ i : Fin 3, i ∈ ([0, 1, 2] : List (Fin 3)) := by decide

theorem mem_boxValueTriples (bv : Fin 3 × Fin 3 × ℤ) :
    bv ∈ boxValueTriples ↔ bv.2.2 ∈ digits := by
  unfold boxValueTriples
  simp only [List.mem_flatMap, List.mem_map]
  constructor
  · rintro ⟨br, _, bc, _, v, hv, rfl⟩
    exact hv
  · intro hv
    exact ⟨bv.1, mem_f3 _, bv.2.1, mem_f3 _, bv.2.2, hv, rfl⟩

/-! ### eraseVal lemmas -/

theorem mem_eraseVal (l : List ℤ) (v w : ℤ) : w ∈ eraseVal l v ↔ w ∈ l ∧ w ≠ v := by
  unfold eraseVal
  simp [List.mem_filter]

theorem eraseVal_subset (l : List ℤ) (v w : ℤ) (h : w ∈ eraseVal l v) : w ∈ l :=
  ((mem_eraseVal l v w).mp h).1

theorem eraseVal_idem (l : List ℤ) (v : ℤ) : eraseVal (eraseVal l v) v = eraseVal l v := by
  unfold eraseVal
  rw [List.filter_filter]
  congr 1
  funext x
  simp [Bool.and_self]

theorem eraseVal_pairwise {R : ℤ → ℤ → Prop} {l : List ℤ} (v : ℤ)
    (h : l.Pairwise R) : (eraseVal l v).Pairwise R :=
  List.Pairwise.filter _ h

theorem eraseVal_nil (v : ℤ) : eraseVal [] v = [] := rfl

/-! ### Units and peers -/

/-- Two cells share a row, a column, or a 3x3 box. -/
def sameUnit (r c r' c' : Fin 9) : Prop :=
  r = r' ∨ c = c' ∨ (r.val / 3 = r'.val / 3 ∧ c.val / 3 = c'.val / 3)

instance (r c r' c' : Fin 9) : Decidable (sameUnit r c r' c') := by
  unfold sameUnit
  infer_instance

/-- `(r', c')` is a peer of `(r, c)`: a different cell of one of its
units. -/
def IsPeer (r c r' c' : Fin 9) : Prop :=
  ¬(r = r' ∧ c = c') ∧ sameUnit r c r' c'

instance (r c r' c' : Fin 9) : Decidable (IsPeer r c r' c') := by
  unfold IsPeer
  infer_instance

theorem sameUnit_symm {r c r' c' : Fin 9} (h : sameUnit r c r' c') :
    sameUnit r' c' r c := by
  rcases h with h | h | h
  · exact Or.inl h.symm
  · exact Or.inr (Or.inl h.symm)
  · exact Or.inr (Or.inr ⟨h.1.symm, h.2.symm⟩)

theorem isPeer_symm {r c r' c' : Fin 9} (h : IsPeer r c r' c') : IsPeer r' c' r c := by
  refine ⟨fun hc => h.1 ⟨hc.1.symm, hc.2.symm⟩, sameUnit_symm h.2⟩

/-! ### setCellValue characterization -/

theorem rowFold_get (row : Fin 9) (v : ℤ) (L : List (Fin 9)) :
    ∀ (cs : Cands) (r' c' : Fin 9), L.Nodup →
      Grid.get (L.foldl (fun cs c => Grid.set cs row c (eraseVal (Grid.get cs row c) v)) cs) r' c'
        = if r' = row ∧ c' ∈ L then eraseVal (Grid.get cs r' c') v
          else Grid.get cs r' c' := by
  induction L with
  | nil => intro cs r' c' _; simp
  | cons c L ih =>
    intro cs r' c' hL
    have hcL : c ∉ L := (List.nodup_cons.mp hL).1
    have hL' : L.Nodup := (List.nodup_cons.mp hL).2
    rw [List.foldl_cons, ih _ r' c' hL']
    by_cases h1 : r' = row ∧ c' ∈ L
    · have hne : c' ≠ c := fun h => hcL (h ▸ h1.2)
      rw [if_pos h1, Grid.get_set_ne _ _ _ _ _ _ (fun h => hne h.2.symm),
        if_pos ⟨h1.1, List.mem_cons_of_mem _ h1.2⟩]
    · rw [if_neg h1]
      by_cases h2 : r' = row ∧ c' = c
      · rw [if_pos ⟨h2.1, h2.2 ▸ List.mem_cons_self _ _⟩]
        obtain ⟨hr, hc⟩ := h2
        subst hr
        subst hc
        rw [Grid.get_set_same]
      · have hne : ¬(row = r' ∧ c = c') := by
          intro h
          exact h2 ⟨h.1.symm, h.2.symm⟩
        rw [Grid.get_set_ne _ _ _ _ _ _ hne, if_neg]
        intro h
        rcases List.mem_cons.mp h.2 with h' | h'
        · exact h2 ⟨h.1, h'⟩
        · exact h1 ⟨h.1, h'⟩

theorem colFold_get (col : Fin 9) (v : ℤ) (L : List (Fin 9)) :
    ∀ (cs : Cands) (r' c' : Fin 9), L.Nodup →
      Grid.get (L.foldl (fun cs r => Grid.set cs r col (eraseVal (Grid.get cs r col) v)) cs) r' c'
        = if c' = col ∧ r' ∈ L then eraseVal (Grid.get cs r' c') v
          else Grid.get cs r' c' := by
  induction L with
  | nil => intro cs r' c' _; simp
  | cons r L ih =>
    intro cs r' c' hL
    have hrL : r ∉ L := (List.nodup_cons.mp hL).1
    have hL' : L.Nodup := (List.nodup_cons.mp hL).2
    rw [List.foldl_cons, ih _ r' c' hL']
    by_cases h1 : c' = col ∧ r' ∈ L
    · have hne : r' ≠ r := fun h => hrL (h ▸ h1.2)
      rw [if_pos h1, Grid.get_set_ne _ _ _ _ _ _ (fun h => hne h.1.symm),
        if_pos ⟨h1.1, List.mem_cons_of_mem _ h1.2⟩]
    · rw [if_neg h1]
      by_cases h2 : c' = col ∧ r' = r
      · rw [if_pos ⟨h2.1, h2.2 ▸ List.mem_cons_self _ _⟩]
        obtain ⟨hc, hr⟩ := h2
        subst hc
        subst hr
        rw [Grid.get_set_same]
      · have hne : ¬(r = r' ∧ col = c') := by
          intro h
          exact h2 ⟨h.2.symm, h.1.symm⟩
        rw [Grid.get_set_ne _ _ _ _ _ _ hne, if_neg]
        intro h
        rcases List.mem_cons.mp h.2 with h' | h'
        · exact h2 ⟨h.1, h'⟩
        · exact h1 ⟨h.1, h'⟩

theorem cellFold_get (v : ℤ) (L : List (Fin 9 × Fin 9)) :
    ∀ (cs : Cands) (r' c' : Fin 9), L.Nodup →
      Grid.get (L.foldl (fun cs p => Grid.set cs p.1 p.2 (eraseVal (Grid.get cs p.1 p.2) v)) cs) r' c'
        = if (r', c') ∈ L then eraseVal (Grid.get cs r' c') v
          else Grid.get cs r' c' := by
  induction L with
  | nil => intro cs r' c' _; simp
  | cons q L ih =>
    intro cs r' c' hL
    have hqL : q ∉ L := (List.nodup_cons.mp hL).1
    have hL' : L.Nodup := (List.nodup_cons.mp hL).2
    rw [List.foldl_cons, ih _ r' c' hL']
    by_cases h1 : (r', c') ∈ L
    · have hne : (r', c') ≠ q := fun h => hqL (h ▸ h1)
      rw [if_pos h1, Grid.get_set_ne _ _ _ _ _ _
          (fun h => hne (Prod.ext h.1.symm h.2.symm)),
        if_pos (List.mem_cons_of_mem _ h1)]
    · rw [if_neg h1]
      by_cases h2 : (r', c') = q
      · rw [if_pos (h2 ▸ List.mem_cons_self _ _)]
        have hq1 : q.1 = r' := by rw [← h2]
        have hq2 : q.2 = c' := by rw [← h2]
        rw [show Grid.set cs q.1 q.2 (eraseVal (Grid.get cs q.1 q.2) v)
              = Grid.set cs r' c' (eraseVal (Grid.get cs r' c') v) by rw [hq1, hq2],
          Grid.get_set_same]
      · have hne : ¬(q.1 = r' ∧ q.2 = c') := by
          intro h
          exact h2 (Prod.ext h.1 h.2).symm
        rw [Grid.get_set_ne _ _ _ _ _ _ hne, if_neg]
        intro h
        rcases List.mem_cons.mp h with h' | h'
        · exact h2 h'
        · exact h1 h'

theorem setCellValue_board (st : SolverState) (r c : Fin 9) (v : ℤ) :
    (setCellValue st r c v).board = st.board.set r c v := rfl

theorem setCellValue_steps (st : SolverState) (r c : Fin 9) (v : ℤ) :
    (setCellValue st r c v).steps = st.steps := rfl

theorem setCellValue_board_get (st : SolverState) (r c : Fin 9) (v : ℤ) (r' c' : Fin 9) :
    (setCellValue st r c v).board.get r' c' =
      if r = r' ∧ c = c' then v else st.board.get r' c' := by
  rw [setCellValue_board]
  by_cases h : r = r' ∧ c = c'
  · rw [if_pos h]
    obtain ⟨h1, h2⟩ := h
    subst h1
    subst h2
    exact Grid.get_set_same _ _ _ _
  · rw [if_neg h, Grid.get_set_ne _ _ _ _ _ _ h]

theorem setCellValue_cands_get (st : SolverState) (r c : Fin 9) (v : ℤ) (r' c' : Fin 9) :
    (setCellValue st r c v).cands.get r' c' =
      if r = r' ∧ c = c' then []
      else if sameUnit r c r' c' then eraseVal (st.cands.get r' c') v
      else st.cands.get r' c' := by
  show Grid.get ((boxCellsOf r c).foldl
      (fun cs p => Grid.set cs p.1 p.2 (eraseVal (Grid.get cs p.1 p.2) v))
      (cols9.foldl (fun cs i => Grid.set cs i c (eraseVal (Grid.get cs i c) v))
        (cols9.foldl (fun cs i => Grid.set cs r i (eraseVal (Grid.get cs r i) v))
          (Grid.set st.cands r c [])))) r' c' = _
  rw [cellFold_get _ _ _ r' c' (boxCellsOf_nodup r c),
    colFold_get _ _ _ _ r' c' cols9_nodup,
    rowFold_get _ _ _ _ r' c' cols9_nodup]
  by_cases hown : r = r' ∧ c = c'
  · obtain ⟨h1, h2⟩ := hown
    subst h1
    subst h2
    rw [Grid.get_set_same]
    simp [eraseVal_nil]
  · rw [Grid.get_set_ne _ _ _ _ _ _ hown, if_neg hown]
    by_cases hr : r' = r
    · by_cases hc : c' = c
      · exact absurd ⟨hr.symm, hc.symm⟩ hown
      · have hrow : r' = r ∧ c' ∈ cols9 := ⟨hr, mem_cols9 c'⟩
        have hcol : ¬(c' = c ∧ r' ∈ cols9) := fun h => hc h.1
        have hs : sameUnit r c r' c' := Or.inl hr.symm
        rw [if_pos hrow, if_neg hcol, if_pos hs]
        by_cases hb : (r', c') ∈ boxCellsOf r c
        · rw [if_pos hb, eraseVal_idem]
        · rw [if_neg hb]
    · by_cases hc : c' = c
      · have hrow : ¬(r' = r ∧ c' ∈ cols9) := fun h => hr h.1
        have hcol : c' = c ∧ r' ∈ cols9 := ⟨hc, mem_cols9 r'⟩
        have hs : sameUnit r c r' c' := Or.inr (Or.inl hc.symm)
        rw [if_neg hrow, if_pos hcol, if_pos hs]
        by_cases hb : (r', c') ∈ boxCellsOf r c
        · rw [if_pos hb, eraseVal_idem]
        · rw [if_neg hb]
      · have hrow : ¬(r' = r ∧ c' ∈ cols9) := fun h => hr h.1
        have hcol : ¬(c' = c ∧ r' ∈ cols9) := fun h => hc h.1
        rw [if_neg hrow, if_neg hcol]
        by_cases hb : (r', c') ∈ boxCellsOf r c
        · have hb' := (mem_boxCellsOf r c (r', c')).mp hb
          have hs : sameUnit r c r' c' := Or.inr (Or.inr ⟨hb'.1.symm, hb'.2.symm⟩)
          rw [if_pos hb, if_pos hs]
        · have hs : ¬ sameUnit r c r' c' := by
            intro h
            rcases h with h | h | h
            · exact hr h.symm
            · exact hc h.symm
            · exact hb ((mem_boxCellsOf r c (r', c')).mpr ⟨h.1.symm, h.2.symm⟩)
          rw [if_neg hb, if_neg hs]

theorem setCellValue_cands_mem (st : SolverState) (r c : Fin 9) (v : ℤ) (r' c' : Fin 9)
    (w : ℤ) :
    w ∈ (setCellValue st r c v).cands.get r' c' ↔
      ¬(r = r' ∧ c = c') ∧ w ∈ st.cands.get r' c' ∧ (sameUnit r c r' c' → w ≠ v) := by
  rw [setCellValue_cands_get]
  by_cases hown : r = r' ∧ c = c'
  · simp [hown]
  · rw [if_neg hown]
    by_cases hs : sameUnit r c r' c'
    · rw [if_pos hs, mem_eraseVal]
      constructor
      · rintro ⟨h1, h2⟩
        exact ⟨hown, h1, fun _ => h2⟩
      · rintro ⟨_, h1, h2⟩
        exact ⟨h1, h2 hs⟩
    · rw [if_neg hs]
      constructor
      · intro h
        exact ⟨hown, h, fun hs' => absurd hs' hs⟩
      · rintro ⟨_, h, _⟩
        exact h


/-! ### Semantic predicates -/

/-- Every cell value is in `[0, 9]`. -/
def BoardRange (b : Board) : Prop := ∀ r c : Fin 9, 0 ≤ b.get r c ∧ b.get r c ≤ 9

/-- No two peer cells hold the same non-zero value. -/
def NoConflict (b : Board) : Prop :=
  ∀ r c r' c' : Fin 9, IsPeer r c r' c' → b.get r c ≠ 0 → b.get r c ≠ b.get r' c'

/-- Every stored candidate is a digit `1..9`. -/
def CandsDigits (cs : Cands) : Prop := ∀ r c : Fin 9, ∀ v ∈ cs.get r c, v ∈ digits

/-- Every candidate set is strictly ascending (JS `Set` insertion order
after creation from `[1..9]` and deletions only). -/
def CandsSorted (cs : Cands) : Prop := ∀ r c : Fin 9, (cs.get r c).Pairwise (· < ·)

/-- The unconditional candidate-store invariant. -/
def Tidy (cs : Cands) : Prop := CandsDigits cs ∧ CandsSorted cs

/-- Filled cells have an empty candidate set. -/
def CandsClosed (b : Board) (cs : Cands) : Prop :=
  ∀ r c : Fin 9, b.get r c ≠ 0 → cs.get r c = []

/-- No candidate conflicts with an already placed peer value. -/
def CandsSound (b : Board) (cs : Cands) : Prop :=
  ∀ r c : Fin 9, ∀ v ∈ cs.get r c, ∀ r' c' : Fin 9, IsPeer r c r' c' → b.get r' c' ≠ v

/-- The solver invariant tied to a valid board. -/
def Inv (b : Board) (cs : Cands) : Prop :=
  BoardRange b ∧ NoConflict b ∧ CandsClosed b cs ∧ CandsSound b cs

/-- Every row, column and box is a permutation of the digits `1..9`. -/
def IsSolution (sol : Board) : Prop :=
  (∀ r : Fin 9, List.Perm (rowVals sol r) digits) ∧
  (∀ c : Fin 9, List.Perm (colVals sol c) digits) ∧
  (∀ br bc : Fin 3, List.Perm (boxVals sol br bc) digits)

/-- `sol` agrees with every pre-filled cell of `b`. -/
def Extends (b sol : Board) : Prop :=
  ∀ r c : Fin 9, b.get r c ≠ 0 → sol.get r c = b.get r c

/-- The search state still represents the solution `sol`: filled cells
agree with it and each empty cell keeps its `sol` value as a candidate. -/
def Compat (sol : Board) (b : Board) (cs : Cands) : Prop :=
  (∀ r c : Fin 9, b.get r c ≠ 0 → b.get r c = sol.get r c) ∧
  (∀ r c : Fin 9, b.get r c = 0 → sol.get r c ∈ cs.get r c)

instance (b : Board) : Decidable (BoardRange b) := by
  unfold BoardRange
  infer_instance

instance (sol : Board) : Decidable (IsSolution sol) := by
  unfold IsSolution
  infer_instance

instance (b sol : Board) : Decidable (Extends b sol) := by
  unfold Extends
  infer_instance

/-- Number of empty cells of a board. -/
def countZeros (b : Board) : ℕ :=
  (allCells.filter fun p => decide (b.get p.1 p.2 = 0)).length

/-! ### Generic fold lemmas -/

theorem foldl_inv {α ι : Type} (P : α → Prop) (f : α → ι → α) :
    ∀ (L : List ι) (a : α), (∀ a i, i ∈ L → P a → P (f a i)) → P a → P (L.foldl f a) := by
  intro L
  induction L with
  | nil => intro a _ ha; exact ha
  | cons i L ih =>
    intro a hf ha
    exact ih (f a i) (fun a' j hj => hf a' j (List.mem_cons_of_mem _ hj))
      (hf a i (List.mem_cons_self _ _) ha)

theorem foldl_le {α ι : Type} (m : α → ℕ) (f : α → ι → α) :
    ∀ (L : List ι) (a : α), (∀ a i, i ∈ L → m (f a i) ≤ m a) → m (L.foldl f a) ≤ m a := by
  intro L
  induction L with
  | nil => intro a _; exact le_refl _
  | cons i L ih =>
    intro a hf
    exact le_trans
      (ih (f a i) (fun a' j hj => hf a' j (List.mem_cons_of_mem _ hj)))
      (hf a i (List.mem_cons_self _ _))

/-! ### countZeros lemmas -/

theorem allCells_length : allCells.length = 81 := by decide

theorem countZeros_le_81 (b : Board) : countZeros b ≤ 81 := by
  unfold countZeros
  rw [show (81 : ℕ) = allCells.length from allCells_length.symm]
  exact List.length_filter_le _ _

/-- A grid unchanged by writing back the value it holds. -/
theorem Grid.set_get {α : Type} (g : Grid α) (r c : Fin 9) :
    g.set r c (g.get r c) = g := by
  apply Grid.ext9
  intro r' c'
  by_cases h : r = r' ∧ c = c'
  · obtain ⟨h1, h2⟩ := h
    subst h1
    subst h2
    rw [Grid.get_set_same]
  · rw [Grid.get_set_ne _ _ _ _ _ _ h]

theorem countZeros_set_lt (b : Board) (r c : Fin 9) (v : ℤ)
    (h0 : b.get r c = 0) (hv : v ≠ 0) :
    countZeros (b.set r c v) < countZeros b := by
  obtain ⟨L1, L2, hsplit⟩ := List.append_of_mem (mem_allCells (r, c))
  have hnd : (L1 ++ (r, c) :: L2).Nodup := hsplit ▸ allCells_nodup
  have hnotm2 : (r, c) ∉ L2 := (List.nodup_cons.mp (List.nodup_append.mp hnd).2.1).1
  have hnotm1 : (r, c) ∉ L1 := fun hm =>
    (List.nodup_append.mp hnd).2.2 hm (List.mem_cons_self _ _)
  have hoff : ∀ q : Fin 9 × Fin 9, q ≠ (r, c) →
      (b.set r c v).get q.1 q.2 = b.get q.1 q.2 := by
    intro q hq
    apply Grid.get_set_ne
    intro h
    exact hq (by rw [show q = (q.1, q.2) from rfl, ← h.1, ← h.2])
  have hcongr : ∀ L : List (Fin 9 × Fin 9), (r, c) ∉ L →
      (L.filter fun p => decide ((b.set r c v).get p.1 p.2 = 0)).length
        = (L.filter fun p => decide (b.get p.1 p.2 = 0)).length := by
    intro L hL
    congr 1
    apply List.filter_congr
    intro q hq
    rw [hoff q (fun he => hL (he ▸ hq))]
  unfold countZeros
  rw [hsplit]
  rw [List.filter_append, List.filter_append, List.length_append, List.length_append,
    hcongr L1 hnotm1]
  have hc1 : (((r, c) :: L2).filter fun p => decide ((b.set r c v).get p.1 p.2 = 0)).length
      = (L2.filter fun p => decide ((b.set r c v).get p.1 p.2 = 0)).length := by
    rw [List.filter_cons]
    have : (decide ((b.set r c v).get (r, c).1 (r, c).2 = 0)) = false := by
      rw [show ((r, c) : Fin 9 × Fin 9).1 = r from rfl, show ((r, c) : Fin 9 × Fin 9).2 = c from rfl,
        Grid.get_set_same]
      simpa using hv
    rw [this]
    simp
  have hc2 : (((r, c) :: L2).filter fun p => decide (b.get p.1 p.2 = 0)).length
      = (L2.filter fun p => decide (b.get p.1 p.2 = 0)).length + 1 := by
    rw [List.filter_cons]
    have : (decide (b.get (r, c).1 (r, c).2 = 0)) = true := by
      rw [show ((r, c) : Fin 9 × Fin 9).1 = r from rfl, show ((r, c) : Fin 9 × Fin 9).2 = c from rfl,
        h0]
      simp
    rw [this]
    simp [Nat.add_comm]
  rw [hc1, hc2, hcongr L2 hnotm2]
  omega

theorem countZeros_set_le (b : Board) (r c : Fin 9) (v : ℤ) (h0 : b.get r c = 0) :
    countZeros (b.set r c v) ≤ countZeros b := by
  by_cases hv : v = 0
  · subst hv
    rw [← h0, Grid.set_get]
  · exact le_of_lt (countZeros_set_lt b r c v h0 hv)


/-! ### Validity bridge -/

theorem digits_nodup : digits.Nodup := by decide

theorem map_ne_of_nodup {ι β : Type} {f : ι → β} {L : List ι} (h : (L.map f).Nodup)
    {a b : ι} (ha : a ∈ L) (hb : b ∈ L) (hab : a ≠ b) : f a ≠ f b :=
  (List.pairwise_map.mp h).forall (fun _ _ hxy => hxy.symm) ha hb hab

theorem filter_of_map {ι β : Type} (f : ι → β) (p : β → Bool) :
    ∀ L : List ι, (L.map f).filter p = (L.filter fun a => p (f a)).map f := by
  intro L
  induction L with
  | nil => rfl
  | cons a L ih =>
    rw [List.map_cons, List.filter_cons, List.filter_cons]
    by_cases hp : p (f a) = true
    · rw [hp]
      simp [ih]
    · rw [Bool.eq_false_iff.mpr hp]
      simp [ih]

theorem dupFree_cons (seen : List ℤ) (x : ℤ) (rest : List ℤ) :
    dupFree seen (x :: rest) =
      if x ≠ 0 then (if x ∈ seen then false else dupFree (x :: seen) rest)
      else dupFree seen rest := rfl

theorem dupFree_iff : ∀ (l seen : List ℤ), dupFree seen l = true ↔
    ((∀ x ∈ l, x ≠ 0 → x ∉ seen) ∧ (l.filter fun x => decide (x ≠ 0)).Nodup) := by
  intro l
  induction l with
  | nil =>
    intro seen
    simp [dupFree]
  | cons x rest ih =>
    intro seen
    by_cases hx : x = 0
    · have hstep : dupFree seen (x :: rest) = dupFree seen rest := by
        rw [dupFree_cons, if_neg (not_not_intro hx)]
      have hfil : ((x :: rest).filter fun y => decide (y ≠ 0))
          = rest.filter fun y => decide (y ≠ 0) := by
        rw [List.filter_cons]
        simp [hx]
      rw [hstep, hfil, ih seen]
      constructor
      · rintro ⟨h1, h2⟩
        refine ⟨?_, h2⟩
        intro y hy hy0
        rcases List.mem_cons.mp hy with h | h
        · exact absurd (h ▸ hx) hy0
        · exact h1 y h hy0
      · rintro ⟨h1, h2⟩
        exact ⟨fun y hy hy0 => h1 y (List.mem_cons_of_mem _ hy) hy0, h2⟩
    · have hfil : ((x :: rest).filter fun y => decide (y ≠ 0))
          = x :: rest.filter fun y => decide (y ≠ 0) := by
        rw [List.filter_cons]
        simp [hx]
      by_cases hm : x ∈ seen
      · have hstep : dupFree seen (x :: rest) = false := by
          rw [dupFree_cons, if_pos hx, if_pos hm]
        rw [hstep, hfil]
        constructor
        · intro h
          exact absurd h (by simp)
        · rintro ⟨h1, _⟩
          exact absurd hm (h1 x (List.mem_cons_self _ _) hx)
      · have hstep : dupFree seen (x :: rest) = dupFree (x :: seen) rest := by
          rw [dupFree_cons, if_pos hx, if_neg hm]
        rw [hstep, hfil, ih (x :: seen), List.nodup_cons]
        constructor
        · rintro ⟨h1, h2⟩
          refine ⟨?_, ?_, h2⟩
          · intro y hy hy0
            rcases List.mem_cons.mp hy with h | h
            · exact h ▸ hm
            · exact fun hc => (h1 y h hy0) (List.mem_cons_of_mem _ hc)
          · intro hc
            rcases List.mem_filter.mp hc with ⟨hxr, _⟩
            exact (h1 x hxr hx) (List.mem_cons_self _ _)
        · rintro ⟨h1, h2, h3⟩
          refine ⟨?_, h3⟩
          intro y hy hy0
          intro hc
          rcases List.mem_cons.mp hc with h | h
          · exact h2 (h ▸ List.mem_filter.mpr ⟨hy, by simpa using hy0⟩)
          · exact (h1 y (List.mem_cons_of_mem _ hy) hy0) h

theorem dupFree_map_false {ι : Type} (f : ι → ℤ) (L : List ι) (a b : ι)
    (ha : a ∈ L) (hb : b ∈ L) (hab : a ≠ b) (h0 : f a ≠ 0) (heq : f a = f b) :
    dupFree [] (L.map f) = false := by
  by_contra hc
  have htrue : dupFree [] (L.map f) = true := by
    cases h : dupFree [] (L.map f)
    · exact absurd h hc
    · rfl
  have hnd := ((dupFree_iff (L.map f) []).mp htrue).2
  rw [filter_of_map] at hnd
  exact map_ne_of_nodup hnd
    (List.mem_filter.mpr ⟨ha, by simpa using h0⟩)
    (List.mem_filter.mpr ⟨hb, by simpa using (heq ▸ h0)⟩) hab heq

theorem isValidBoard_parts (b : Board) (h : isValidBoard b = true) :
    BoardRange b ∧ (∀ r : Fin 9, dupFree [] (rowVals b r) = true) ∧
      (∀ c : Fin 9, dupFree [] (colVals b c) = true) ∧
      (∀ br bc : Fin 3, dupFree [] (boxVals b br bc) = true) := by
  unfold isValidBoard at h
  rw [Bool.and_eq_true, Bool.and_eq_true, Bool.and_eq_true] at h
  obtain ⟨⟨⟨h1, h2⟩, h3⟩, h4⟩ := h
  refine ⟨?_, ?_, ?_, ?_⟩
  · intro r c
    have := List.all_eq_true.mp h1 (r, c) (mem_allCells _)
    simpa using this
  · intro r
    exact List.all_eq_true.mp h2 r (mem_cols9 r)
  · intro c
    exact List.all_eq_true.mp h3 c (mem_cols9 c)
  · intro br bc
    exact List.all_eq_true.mp (List.all_eq_true.mp h4 br (mem_f3 br)) bc (mem_f3 bc)

theorem mem_own_boxCells (r c : Fin 9) : (r, c) ∈ boxCells (boxOf r) (boxOf c) :=
  (mem_boxCells _ _ _).mpr ⟨rfl, rfl⟩

theorem valid_noConflict (b : Board) (h : isValidBoard b = true) : NoConflict b := by
  obtain ⟨_, hrows, hcols, hboxes⟩ := isValidBoard_parts b h
  intro r c r' c' hp h0 heq
  have hner : ¬(r = r' ∧ c = c') := hp.1
  rcases hp.2 with hu | hu | hu
  · have hcc : c ≠ c' := fun hc => hner ⟨hu, hc⟩
    subst hu
    have := dupFree_map_false (fun j => b.get r j) cols9 c c'
      (mem_cols9 c) (mem_cols9 c') hcc h0 heq
    rw [show (cols9.map fun j => b.get r j) = rowVals b r from rfl] at this
    rw [hrows r] at this
    exact absurd this (by simp)
  · have hrr : r ≠ r' := fun hr => hner ⟨hr, hu⟩
    subst hu
    have := dupFree_map_false (fun i => b.get i c) cols9 r r'
      (mem_cols9 r) (mem_cols9 r') hrr h0 heq
    rw [show (cols9.map fun i => b.get i c) = colVals b c from rfl] at this
    rw [hcols c] at this
    exact absurd this (by simp)
  · have hmem' : (r', c') ∈ boxCells (boxOf r) (boxOf c) := by
      rw [mem_boxCells]
      exact ⟨hu.1.symm, hu.2.symm⟩
    have hpair : ((r, c) : Fin 9 × Fin 9) ≠ (r', c') := by
      intro hc
      exact hner ⟨congrArg Prod.fst hc, congrArg Prod.snd hc⟩
    have := dupFree_map_false (fun p => b.get p.1 p.2) (boxCells (boxOf r) (boxOf c))
      (r, c) (r', c') (mem_own_boxCells r c) hmem' hpair h0 heq
    rw [show ((boxCells (boxOf r) (boxOf c)).map fun p => b.get p.1 p.2)
        = boxVals b (boxOf r) (boxOf c) from rfl] at this
    rw [hboxes _ _] at this
    exact absurd this (by simp)

/-! ### Solution-board facts -/

theorem sol_val_mem_digits {sol : Board} (hsol : IsSolution sol) (r c : Fin 9) :
    sol.get r c ∈ digits := by
  have hm : sol.get r c ∈ rowVals sol r := List.mem_map.mpr ⟨c, mem_cols9 c, rfl⟩
  exact (hsol.1 r).mem_iff.mp hm

theorem sol_ne_of_peer {sol : Board} (hsol : IsSolution sol) {r c r' c' : Fin 9}
    (hp : IsPeer r c r' c') : sol.get r c ≠ sol.get r' c' := by
  have hner : ¬(r = r' ∧ c = c') := hp.1
  rcases hp.2 with hu | hu | hu
  · have hcc : c ≠ c' := fun hc => hner ⟨hu, hc⟩
    have hnd : (rowVals sol r).Nodup := ((hsol.1 r).nodup_iff).mpr digits_nodup
    subst hu
    exact map_ne_of_nodup hnd (mem_cols9 c) (mem_cols9 c') hcc
  · have hrr : r ≠ r' := fun hr => hner ⟨hr, hu⟩
    have hnd : (colVals sol c).Nodup := ((hsol.2.1 c).nodup_iff).mpr digits_nodup
    subst hu
    exact map_ne_of_nodup hnd (mem_cols9 r) (mem_cols9 r') hrr
  · have hmem' : (r', c') ∈ boxCells (boxOf r) (boxOf c) := by
      rw [mem_boxCells]
      exact ⟨hu.1.symm, hu.2.symm⟩
    have hpair : ((r, c) : Fin 9 × Fin 9) ≠ (r', c') := by
      intro hc
      exact hner ⟨congrArg Prod.fst hc, congrArg Prod.snd hc⟩
    have hnd : (boxVals sol (boxOf r) (boxOf c)).Nodup :=
      ((hsol.2.2 _ _).nodup_iff).mpr digits_nodup
    exact map_ne_of_nodup hnd (mem_own_boxCells r c) hmem' hpair

theorem sol_exists_in_row {sol : Board} (hsol : IsSolution sol) (r : Fin 9) {v : ℤ}
    (hv : v ∈ digits) : ∃ c : Fin 9, sol.get r c = v := by
  have hm : v ∈ rowVals sol r := (hsol.1 r).mem_iff.mpr hv
  obtain ⟨c, _, hc⟩ := List.mem_map.mp hm
  exact ⟨c, hc⟩

theorem sol_exists_in_col {sol : Board} (hsol : IsSolution sol) (c : Fin 9) {v : ℤ}
    (hv : v ∈ digits) : ∃ r : Fin 9, sol.get r c = v := by
  have hm : v ∈ colVals sol c := (hsol.2.1 c).mem_iff.mpr hv
  obtain ⟨r, _, hr⟩ := List.mem_map.mp hm
  exact ⟨r, hr⟩

theorem sol_exists_in_box {sol : Board} (hsol : IsSolution sol) (br bc : Fin 3) {v : ℤ}
    (hv : v ∈ digits) : ∃ p, p ∈ boxCells br bc ∧ sol.get p.1 p.2 = v := by
  have hm : v ∈ boxVals sol br bc := (hsol.2.2 br bc).mem_iff.mpr hv
  obtain ⟨p, hp, hpv⟩ := List.mem_map.mp hm
  exact ⟨p, hp, hpv⟩


/-! ### initializeCandidates characterization -/

theorem initStep_board (st : SolverState) (p : Fin 9 × Fin 9) :
    (initStep st p).board = st.board := by
  unfold initStep
  by_cases h : st.board.get p.1 p.2 ≠ 0
  · rw [if_pos h, setCellValue_board, Grid.set_get]
  · rw [if_neg h]

theorem initStep_steps (st : SolverState) (p : Fin 9 × Fin 9) :
    (initStep st p).steps = st.steps := by
  unfold initStep
  by_cases h : st.board.get p.1 p.2 ≠ 0
  · rw [if_pos h, setCellValue_steps]
  · rw [if_neg h]

theorem foldl_initStep_board : ∀ (L : List (Fin 9 × Fin 9)) (st : SolverState),
    (L.foldl initStep st).board = st.board := by
  intro L
  induction L with
  | nil => intro st; rfl
  | cons p L ih =>
    intro st
    rw [List.foldl_cons, ih, initStep_board]

theorem foldl_initStep_steps : ∀ (L : List (Fin 9 × Fin 9)) (st : SolverState),
    (L.foldl initStep st).steps = st.steps := by
  intro L
  induction L with
  | nil => intro st; rfl
  | cons p L ih =>
    intro st
    rw [List.foldl_cons, ih, initStep_steps]

theorem initializeCandidates_board (b : Board) : (initializeCandidates b).board = b := by
  unfold initializeCandidates
  rw [foldl_initStep_board]

theorem initializeCandidates_steps (b : Board) : (initializeCandidates b).steps = [] := by
  unfold initializeCandidates
  rw [foldl_initStep_steps]

theorem sameUnit_refl (r c : Fin 9) : sameUnit r c r c := Or.inl rfl

theorem initFold (b : Board) : ∀ (L : List (Fin 9 × Fin 9)) (st : SolverState),
    st.board = b → ∀ r c : Fin 9,
      (L.foldl initStep st).cands.get r c =
        if b.get r c ≠ 0 ∧ (r, c) ∈ L then []
        else (st.cands.get r c).filter fun v =>
          decide (∀ q ∈ L, b.get q.1 q.2 ≠ 0 → sameUnit q.1 q.2 r c →
            q ≠ (r, c) → v ≠ b.get q.1 q.2) := by
  intro L
  induction L with
  | nil =>
    intro st hst r c
    rw [List.foldl_nil, if_neg (by simp)]
    symm
    apply List.filter_eq_self.mpr
    intro v _
    simp
  | cons q L ih =>
    intro st hst r c
    rw [List.foldl_cons]
    by_cases hq : b.get q.1 q.2 ≠ 0
    · have hstep : initStep st q = setCellValue st q.1 q.2 (b.get q.1 q.2) := by
        unfold initStep
        rw [hst, if_pos hq]
      have hb' : (initStep st q).board = b := by rw [initStep_board, hst]
      rw [ih (initStep st q) hb' r c, hstep]
      by_cases hown : q.1 = r ∧ q.2 = c
      · have hqrc : q = (r, c) := by
          rw [show q = (q.1, q.2) from rfl, hown.1, hown.2]
        have hbrc : b.get r c ≠ 0 := by rw [← hown.1, ← hown.2]; exact hq
        rw [setCellValue_cands_get, if_pos hown, List.filter_nil, ite_self,
          if_pos ⟨hbrc, hqrc ▸ List.mem_cons_self _ _⟩]
      · have hqne : q ≠ (r, c) := fun he => hown ⟨congrArg Prod.fst he, congrArg Prod.snd he⟩
        rw [setCellValue_cands_get, if_neg hown]
        by_cases hin : b.get r c ≠ 0 ∧ (r, c) ∈ L
        · rw [if_pos hin, if_pos ⟨hin.1, List.mem_cons_of_mem _ hin.2⟩]
        · have hin' : ¬(b.get r c ≠ 0 ∧ (r, c) ∈ q :: L) := by
            rintro ⟨h1, h2⟩
            rcases List.mem_cons.mp h2 with h | h
            · exact hqne h.symm
            · exact hin ⟨h1, h⟩
          rw [if_neg hin, if_neg hin']
          by_cases hsu : sameUnit q.1 q.2 r c
          · rw [if_pos hsu]
            unfold eraseVal
            rw [List.filter_filter]
            apply List.filter_congr
            intro v _
            rw [Bool.eq_iff_iff]
            simp only [Bool.and_eq_true, decide_eq_true_eq]
            rw [List.forall_mem_cons]
            constructor
            · rintro ⟨h1, h2⟩
              exact ⟨fun _ _ _ => h2, h1⟩
            · rintro ⟨h1, h2⟩
              exact ⟨h2, h1 hq hsu hqne⟩
          · rw [if_neg hsu]
            apply List.filter_congr
            intro v _
            rw [Bool.eq_iff_iff]
            simp only [decide_eq_true_eq]
            rw [List.forall_mem_cons]
            constructor
            · intro h2
              exact ⟨fun _ hsu' => absurd hsu' hsu, h2⟩
            · rintro ⟨_, h2⟩
              exact h2
    · have hstep : initStep st q = st := by
        unfold initStep
        rw [hst, if_neg hq]
      rw [hstep] at *
      rw [ih st hst r c]
      have hqz : b.get q.1 q.2 = 0 := not_not.mp hq
      by_cases hin : b.get r c ≠ 0 ∧ (r, c) ∈ L
      · rw [if_pos hin, if_pos ⟨hin.1, List.mem_cons_of_mem _ hin.2⟩]
      · have hin' : ¬(b.get r c ≠ 0 ∧ (r, c) ∈ q :: L) := by
          rintro ⟨h1, h2⟩
          rcases List.mem_cons.mp h2 with h | h
          · have e1 : q.1 = r := by rw [← h]
            have e2 : q.2 = c := by rw [← h]
            exact hq (by rw [e1, e2]; exact h1)
          · exact hin ⟨h1, h⟩
        rw [if_neg hin, if_neg hin']
        apply List.filter_congr
        intro v _
        rw [Bool.eq_iff_iff]
        simp only [decide_eq_true_eq]
        rw [List.forall_mem_cons]
        constructor
        · intro h2
          exact ⟨fun hq0 => absurd hqz hq0, h2⟩
        · rintro ⟨_, h2⟩
          exact h2

theorem init_cands_get (b : Board) (r c : Fin 9) :
    (initializeCandidates b).cands.get r c =
      if b.get r c ≠ 0 then []
      else digits.filter fun v =>
        decide (∀ q ∈ allCells, b.get q.1 q.2 ≠ 0 → sameUnit q.1 q.2 r c →
          q ≠ (r, c) → v ≠ b.get q.1 q.2) := by
  unfold initializeCandidates
  rw [initFold b allCells _ rfl r c]
  have hcs : Grid.get
      (Mathlib.Vector.replicate 9 (Mathlib.Vector.replicate 9 digits) : Cands) r c
        = digits := Grid.get_replicate _ _ _
  by_cases h : b.get r c ≠ 0
  · rw [if_pos ⟨h, mem_allCells _⟩, if_pos h]
  · rw [if_neg (fun hc => h hc.1), if_neg h, hcs]

theorem init_cands_mem (b : Board) (r c : Fin 9) (v : ℤ) :
    v ∈ (initializeCandidates b).cands.get r c ↔
      b.get r c = 0 ∧ v ∈ digits ∧
        ∀ r' c' : Fin 9, IsPeer r c r' c' → b.get r' c' ≠ v := by
  rw [init_cands_get]
  by_cases h : b.get r c ≠ 0
  · rw [if_pos h]
    simp only [List.not_mem_nil, false_iff]
    rintro ⟨h0, _⟩
    exact h h0
  · rw [if_neg h]
    have h0 : b.get r c = 0 := not_not.mp h
    rw [List.mem_filter]
    constructor
    · rintro ⟨hd, hcond⟩
      have hcond' := of_decide_eq_true hcond
      refine ⟨h0, hd, ?_⟩
      intro r' c' hp heq
      have hsu : sameUnit r' c' r c := sameUnit_symm hp.2
      have hne : ((r', c') : Fin 9 × Fin 9) ≠ (r, c) := by
        intro he
        exact hp.1 ⟨(congrArg Prod.fst he).symm, (congrArg Prod.snd he).symm⟩
      have hb0 : b.get r' c' ≠ 0 := by
        rw [heq]
        have := (mem_digits v).mp hd
        omega
      exact (hcond' (r', c') (mem_allCells _) hb0 hsu hne) heq.symm
    · rintro ⟨_, hd, hpeers⟩
      refine ⟨hd, decide_eq_true ?_⟩
      intro q _ hq0 hsu hne hv
      have hp : IsPeer r c q.1 q.2 := by
        refine ⟨?_, sameUnit_symm hsu⟩
        intro he
        exact hne (by rw [show q = (q.1, q.2) from rfl, he.1, he.2])
      exact hpeers q.1 q.2 hp hv.symm

theorem digits_sorted : digits.Pairwise (· < ·) := by decide

theorem init_tidy (b : Board) : Tidy (initializeCandidates b).cands := by
  constructor
  · intro r c v hv
    rw [init_cands_get] at hv
    by_cases h : b.get r c ≠ 0
    · rw [if_pos h] at hv
      exact absurd hv (List.not_mem_nil _)
    · rw [if_neg h] at hv
      exact (List.mem_filter.mp hv).1
  · intro r c
    rw [init_cands_get]
    by_cases h : b.get r c ≠ 0
    · rw [if_pos h]
      exact List.Pairwise.nil
    · rw [if_neg h]
      exact List.Pairwise.filter _ digits_sorted

theorem init_inv (b : Board) (hv : isValidBoard b = true) :
    Inv b (initializeCandidates b).cands := by
  obtain ⟨hrange, _, _, _⟩ := isValidBoard_parts b hv
  refine ⟨hrange, valid_noConflict b hv, ?_, ?_⟩
  · intro r c h0
    rw [init_cands_get, if_pos h0]
  · intro r c v hvm r' c' hp
    intro heq
    exact (((init_cands_mem b r c v).mp hvm).2.2 r' c' hp) heq

theorem init_compat {sol : Board} (b : Board) (hsol : IsSolution sol)
    (hext : Extends b sol) : Compat sol b (initializeCandidates b).cands := by
  constructor
  · intro r c h0
    exact (hext r c h0).symm
  · intro r c h0
    rw [init_cands_mem]
    refine ⟨h0, sol_val_mem_digits hsol r c, ?_⟩
    intro r' c' hp heq
    by_cases hz : b.get r' c' = 0
    · rw [hz] at heq
      have := (mem_digits _).mp (sol_val_mem_digits hsol r c)
      omega
    · have h1 : sol.get r' c' = b.get r' c' := hext r' c' hz
      have h2 : sol.get r' c' ≠ sol.get r c := sol_ne_of_peer hsol (isPeer_symm hp)
      rw [h1] at h2
      exact h2 heq


/-! ### Assignment preservation -/

/-- The full invariant of a search state. -/
def StInv (st : SolverState) : Prop := Inv st.board st.cands ∧ Tidy st.cands

/-- The state still represents `sol`. -/
def StCompat (sol : Board) (st : SolverState) : Prop := Compat sol st.board st.cands

theorem assign_tidy (st : SolverState) (r c : Fin 9) (v : ℤ)
    (ht : Tidy st.cands) : Tidy (setCellValue st r c v).cands := by
  constructor
  · intro a b w hw
    exact ht.1 a b w ((setCellValue_cands_mem st r c v a b w).mp hw).2.1
  · intro a b
    rw [setCellValue_cands_get]
    by_cases h1 : r = a ∧ c = b
    · rw [if_pos h1]
      exact List.Pairwise.nil
    · rw [if_neg h1]
      by_cases h2 : sameUnit r c a b
      · rw [if_pos h2]
        exact eraseVal_pairwise _ (ht.2 a b)
      · rw [if_neg h2]
        exact ht.2 a b

theorem assign_inv (st : SolverState) (r c : Fin 9) (v : ℤ)
    (hI : Inv st.board st.cands) (h0 : st.board.get r c = 0)
    (hv : v ∈ st.cands.get r c) (hd : v ∈ digits) :
    Inv (setCellValue st r c v).board (setCellValue st r c v).cands := by
  obtain ⟨hbr, hnc, hcc, hcs⟩ := hI
  have hv19 := (mem_digits v).mp hd
  refine ⟨?_, ?_, ?_, ?_⟩
  · intro a b
    rw [setCellValue_board_get]
    by_cases h : r = a ∧ c = b
    · rw [if_pos h]
      omega
    · rw [if_neg h]
      exact hbr a b
  · intro a b a' b' hp
    simp only [setCellValue_board_get]
    by_cases h1 : r = a ∧ c = b
    · rw [if_pos h1]
      by_cases h2 : r = a' ∧ c = b'
      · intro _ _
        exact hp.1 ⟨h1.1.symm.trans h2.1, h1.2.symm.trans h2.2⟩
      · rw [if_neg h2]
        intro _ heq
        have hpeer : IsPeer r c a' b' := by
          refine ⟨h2, ?_⟩
          have := hp.2
          rw [← h1.1, ← h1.2] at this
          exact this
        exact hcs r c v hv a' b' hpeer heq.symm
    · rw [if_neg h1]
      by_cases h2 : r = a' ∧ c = b'
      · rw [if_pos h2]
        intro hz heq
        have hpeer : IsPeer r c a b := by
          refine ⟨h1, ?_⟩
          have := sameUnit_symm hp.2
          rw [← h2.1, ← h2.2] at this
          exact this
        exact hcs r c v hv a b hpeer heq
      · rw [if_neg h2]
        exact hnc a b a' b' hp
  · intro a b
    rw [setCellValue_board_get, setCellValue_cands_get]
    by_cases h : r = a ∧ c = b
    · rw [if_pos h, if_pos h]
      intro _
      rfl
    · rw [if_neg h, if_neg h]
      intro hz
      have hold : st.cands.get a b = [] := hcc a b hz
      by_cases h2 : sameUnit r c a b
      · rw [if_pos h2, hold]
        rfl
      · rw [if_neg h2, hold]
  · intro a b w hw a' b' hp
    have hm := (setCellValue_cands_mem st r c v a b w).mp hw
    rw [setCellValue_board_get]
    by_cases h2 : r = a' ∧ c = b'
    · rw [if_pos h2]
      have hsu : sameUnit r c a b := by
        have := sameUnit_symm hp.2
        rw [← h2.1, ← h2.2] at this
        exact this
      exact fun he => (hm.2.2 hsu) he.symm
    · rw [if_neg h2]
      exact hcs a b w hm.2.1 a' b' hp

theorem assign_compat {sol : Board} (hsol : IsSolution sol) (st : SolverState)
    (r c : Fin 9) (hveq : sol.get r c ≠ 0)
    (hC : Compat sol st.board st.cands) :
    Compat sol (setCellValue st r c (sol.get r c)).board
      (setCellValue st r c (sol.get r c)).cands := by
  obtain ⟨hc1, hc2⟩ := hC
  constructor
  · intro a b
    rw [setCellValue_board_get]
    by_cases h : r = a ∧ c = b
    · rw [if_pos h, h.1, h.2]
      intro _
      rfl
    · rw [if_neg h]
      exact hc1 a b
  · intro a b
    rw [setCellValue_board_get]
    by_cases h : r = a ∧ c = b
    · rw [if_pos h]
      intro hz
      exact absurd hz hveq
    · rw [if_neg h]
      intro hz
      rw [setCellValue_cands_mem]
      refine ⟨h, hc2 a b hz, ?_⟩
      intro hsu
      have hpeer : IsPeer a b r c := ⟨fun he => h ⟨he.1.symm, he.2.symm⟩, sameUnit_symm hsu⟩
      exact sol_ne_of_peer hsol hpeer


/-! ### Rule-step dispatch equations -/

theorem nakedStep_eq_assign (acc : SolverState × Bool) (p : Fin 9 × Fin 9)
    (hc : acc.1.board.get p.1 p.2 = 0 ∧ (acc.1.cands.get p.1 p.2).length = 1) :
    nakedStep acc p =
      (⟨(setCellValue acc.1 p.1 p.2 ((acc.1.cands.get p.1 p.2).headD 0)).board,
        (setCellValue acc.1 p.1 p.2 ((acc.1.cands.get p.1 p.2).headD 0)).cands,
        (setCellValue acc.1 p.1 p.2 ((acc.1.cands.get p.1 p.2).headD 0)).steps ++
          [⟨"Naked Single", p.1, p.2, (acc.1.cands.get p.1 p.2).headD 0,
            "Only possible value for cell (" ++ toString (p.1.val + 1) ++ ", " ++
              toString (p.2.val + 1) ++ ")"⟩]⟩, true) := by
  simp only [nakedStep]
  rw [if_pos hc]

theorem nakedStep_eq_skip (acc : SolverState × Bool) (p : Fin 9 × Fin 9)
    (hc : ¬(acc.1.board.get p.1 p.2 = 0 ∧ (acc.1.cands.get p.1 p.2).length = 1)) :
    nakedStep acc p = acc := by
  simp only [nakedStep]
  rw [if_neg hc]

theorem hiddenRowStep_eq_single (acc : SolverState × Bool) (rv : Fin 9 × ℤ) (col : Fin 9)
    (hpc : (cols9.filter fun c =>
        decide (acc.1.board.get rv.1 c = 0 ∧ rv.2 ∈ acc.1.cands.get rv.1 c)) = [col]) :
    hiddenRowStep acc rv =
      (⟨(setCellValue acc.1 rv.1 col rv.2).board,
        (setCellValue acc.1 rv.1 col rv.2).cands,
        (setCellValue acc.1 rv.1 col rv.2).steps ++
          [⟨"Hidden Single (Row)", rv.1, col, rv.2,
            toString rv.2 ++ " can only go in this cell in row " ++
              toString (rv.1.val + 1)⟩]⟩, true) := by
  simp only [hiddenRowStep]
  rw [hpc]

theorem hiddenRowStep_eq_nil (acc : SolverState × Bool) (rv : Fin 9 × ℤ)
    (hpc : (cols9.filter fun c =>
        decide (acc.1.board.get rv.1 c = 0 ∧ rv.2 ∈ acc.1.cands.get rv.1 c)) = []) :
    hiddenRowStep acc rv = acc := by
  simp only [hiddenRowStep]
  rw [hpc]

theorem hiddenRowStep_eq_multi (acc : SolverState × Bool) (rv : Fin 9 × ℤ)
    (c1 c2 : Fin 9) (t : List (Fin 9))
    (hpc : (cols9.filter fun c =>
        decide (acc.1.board.get rv.1 c = 0 ∧ rv.2 ∈ acc.1.cands.get rv.1 c))
      = c1 :: c2 :: t) :
    hiddenRowStep acc rv = acc := by
  simp only [hiddenRowStep]
  rw [hpc]

theorem hiddenColStep_eq_single (acc : SolverState × Bool) (cv : Fin 9 × ℤ) (row : Fin 9)
    (hpc : (cols9.filter fun r =>
        decide (acc.1.board.get r cv.1 = 0 ∧ cv.2 ∈ acc.1.cands.get r cv.1)) = [row]) :
    hiddenColStep acc cv =
      (⟨(setCellValue acc.1 row cv.1 cv.2).board,
        (setCellValue acc.1 row cv.1 cv.2).cands,
        (setCellValue acc.1 row cv.1 cv.2).steps ++
          [⟨"Hidden Single (Column)", row, cv.1, cv.2,
            toString cv.2 ++ " can only go in this cell in column " ++
              toString (cv.1.val + 1)⟩]⟩, true) := by
  simp only [hiddenColStep]
  rw [hpc]

theorem hiddenColStep_eq_nil (acc : SolverState × Bool) (cv : Fin 9 × ℤ)
    (hpc : (cols9.filter fun r =>
        decide (acc.1.board.get r cv.1 = 0 ∧ cv.2 ∈ acc.1.cands.get r cv.1)) = []) :
    hiddenColStep acc cv = acc := by
  simp only [hiddenColStep]
  rw [hpc]

theorem hiddenColStep_eq_multi (acc : SolverState × Bool) (cv : Fin 9 × ℤ)
    (r1 r2 : Fin 9) (t : List (Fin 9))
    (hpc : (cols9.filter fun r =>
        decide (acc.1.board.get r cv.1 = 0 ∧ cv.2 ∈ acc.1.cands.get r cv.1))
      = r1 :: r2 :: t) :
    hiddenColStep acc cv = acc := by
  simp only [hiddenColStep]
  rw [hpc]

theorem hiddenBoxStep_eq_single (acc : SolverState × Bool) (bv : Fin 3 × Fin 3 × ℤ)
    (p : Fin 9 × Fin 9)
    (hpc : ((boxCells bv.1 bv.2.1).filter fun q =>
        decide (acc.1.board.get q.1 q.2 = 0 ∧ bv.2.2 ∈ acc.1.cands.get q.1 q.2)) = [p]) :
    hiddenBoxStep acc bv =
      (⟨(setCellValue acc.1 p.1 p.2 bv.2.2).board,
        (setCellValue acc.1 p.1 p.2 bv.2.2).cands,
        (setCellValue acc.1 p.1 p.2 bv.2.2).steps ++
          [⟨"Hidden Single (Box)", p.1, p.2, bv.2.2,
            toString bv.2.2 ++ " can only go in this cell in box " ++
              toString (bv.1.val + 1) ++ "-" ++ toString (bv.2.1.val + 1)⟩]⟩, true) := by
  simp only [hiddenBoxStep]
  rw [hpc]

theorem hiddenBoxStep_eq_nil (acc : SolverState × Bool) (bv : Fin 3 × Fin 3 × ℤ)
    (hpc : ((boxCells bv.1 bv.2.1).filter fun q =>
        decide (acc.1.board.get q.1 q.2 = 0 ∧ bv.2.2 ∈ acc.1.cands.get q.1 q.2)) = []) :
    hiddenBoxStep acc bv = acc := by
  simp only [hiddenBoxStep]
  rw [hpc]

theorem hiddenBoxStep_eq_multi (acc : SolverState × Bool) (bv : Fin 3 × Fin 3 × ℤ)
    (p1 p2 : Fin 9 × Fin 9) (t : List (Fin 9 × Fin 9))
    (hpc : ((boxCells bv.1 bv.2.1).filter fun q =>
        decide (acc.1.board.get q.1 q.2 = 0 ∧ bv.2.2 ∈ acc.1.cands.get q.1 q.2))
      = p1 :: p2 :: t) :
    hiddenBoxStep acc bv = acc := by
  simp only [hiddenBoxStep]
  rw [hpc]

theorem elimAt_eq_hit (acc : SolverState × Bool) (r c : Fin 9) (value : ℤ)
    (h : value ∈ acc.1.cands.get r c) :
    elimAt acc r c value =
      (⟨acc.1.board, acc.1.cands.set r c (eraseVal (acc.1.cands.get r c) value),
        acc.1.steps⟩, true) := by
  simp only [elimAt]
  rw [if_pos h]

theorem elimAt_eq_miss (acc : SolverState × Bool) (r c : Fin 9) (value : ℤ)
    (h : value ∉ acc.1.cands.get r c) :
    elimAt acc r c value = acc := by
  simp only [elimAt]
  rw [if_neg h]


/-! ### Naked/hidden step preservation -/

theorem headD_mem_of_length_one {l : List ℤ} (h : l.length = 1) : l.headD 0 ∈ l := by
  obtain ⟨v, hv⟩ := List.length_eq_one.mp h
  rw [hv]
  exact List.mem_singleton.mpr rfl

theorem nakedStep_t9 (Z : ℕ) (acc : SolverState × Bool) (p : Fin 9 × Fin 9)
    (h : Tidy acc.1.cands ∧ countZeros acc.1.board ≤ Z) :
    Tidy (nakedStep acc p).1.cands ∧ countZeros (nakedStep acc p).1.board ≤ Z := by
  by_cases hc : acc.1.board.get p.1 p.2 = 0 ∧ (acc.1.cands.get p.1 p.2).length = 1
  · rw [nakedStep_eq_assign acc p hc]
    refine ⟨assign_tidy _ _ _ _ h.1, ?_⟩
    show countZeros (setCellValue acc.1 p.1 p.2 _).board ≤ Z
    rw [setCellValue_board]
    exact le_trans (countZeros_set_le _ _ _ _ hc.1) h.2
  · rw [nakedStep_eq_skip acc p hc]
    exact h

theorem nakedStep_stinv (acc : SolverState × Bool) (p : Fin 9 × Fin 9)
    (h : StInv acc.1) : StInv (nakedStep acc p).1 := by
  by_cases hc : acc.1.board.get p.1 p.2 = 0 ∧ (acc.1.cands.get p.1 p.2).length = 1
  · rw [nakedStep_eq_assign acc p hc]
    have hmem := headD_mem_of_length_one hc.2
    exact ⟨assign_inv acc.1 p.1 p.2 _ h.1 hc.1 hmem (h.2.1 p.1 p.2 _ hmem),
      assign_tidy _ _ _ _ h.2⟩
  · rw [nakedStep_eq_skip acc p hc]
    exact h

theorem nakedStep_compat {sol : Board} (hsol : IsSolution sol)
    (acc : SolverState × Bool) (p : Fin 9 × Fin 9)
    (h : StInv acc.1 ∧ StCompat sol acc.1) :
    StInv (nakedStep acc p).1 ∧ StCompat sol (nakedStep acc p).1 := by
  refine ⟨nakedStep_stinv acc p h.1, ?_⟩
  by_cases hc : acc.1.board.get p.1 p.2 = 0 ∧ (acc.1.cands.get p.1 p.2).length = 1
  · rw [nakedStep_eq_assign acc p hc]
    have hsolm : sol.get p.1 p.2 ∈ acc.1.cands.get p.1 p.2 := h.2.2 p.1 p.2 hc.1
    have hveq : (acc.1.cands.get p.1 p.2).headD 0 = sol.get p.1 p.2 := by
      obtain ⟨v, hv⟩ := List.length_eq_one.mp hc.2
      rw [hv] at hsolm ⊢
      exact (List.mem_singleton.mp hsolm).symm
    have hnz : sol.get p.1 p.2 ≠ 0 := by
      have := (mem_digits _).mp (sol_val_mem_digits hsol p.1 p.2)
      omega
    show StCompat sol (setCellValue acc.1 p.1 p.2 ((acc.1.cands.get p.1 p.2).headD 0))
    rw [hveq]
    exact assign_compat hsol acc.1 p.1 p.2 hnz h.2
  · rw [nakedStep_eq_skip acc p hc]
    exact h.2


theorem filter_single_mem {α : Type} {f : α → Bool} {L : List α} {x : α}
    (h : L.filter f = [x]) : x ∈ L ∧ f x = true := by
  have hx : x ∈ L.filter f := by
    rw [h]
    exact List.mem_singleton.mpr rfl
  exact ⟨(List.mem_filter.mp hx).1, (List.mem_filter.mp hx).2⟩

theorem digit_ne_zero {v : ℤ} (h : v ∈ digits) : v ≠ 0 := by
  have := (mem_digits v).mp h
  omega

theorem hiddenRowStep_t9 (Z : ℕ) (acc : SolverState × Bool) (rv : Fin 9 × ℤ)
    (h : Tidy acc.1.cands ∧ countZeros acc.1.board ≤ Z) :
    Tidy (hiddenRowStep acc rv).1.cands ∧ countZeros (hiddenRowStep acc rv).1.board ≤ Z := by
  rcases hpc : (cols9.filter fun c =>
      decide (acc.1.board.get rv.1 c = 0 ∧ rv.2 ∈ acc.1.cands.get rv.1 c)) with _ | ⟨col, rest⟩
  · rw [hiddenRowStep_eq_nil acc rv hpc]
    exact h
  · rcases rest with _ | ⟨c2, t⟩
    · rw [hiddenRowStep_eq_single acc rv col hpc]
      have hcond := of_decide_eq_true (filter_single_mem hpc).2
      refine ⟨assign_tidy _ _ _ _ h.1, ?_⟩
      show countZeros (setCellValue acc.1 rv.1 col rv.2).board ≤ Z
      rw [setCellValue_board]
      exact le_trans (countZeros_set_le _ _ _ _ hcond.1) h.2
    · rw [hiddenRowStep_eq_multi acc rv col c2 t hpc]
      exact h

theorem hiddenRowStep_stinv (acc : SolverState × Bool) (rv : Fin 9 × ℤ)
    (hd : rv.2 ∈ digits) (h : StInv acc.1) : StInv (hiddenRowStep acc rv).1 := by
  rcases hpc : (cols9.filter fun c =>
      decide (acc.1.board.get rv.1 c = 0 ∧ rv.2 ∈ acc.1.cands.get rv.1 c)) with _ | ⟨col, rest⟩
  · rw [hiddenRowStep_eq_nil acc rv hpc]
    exact h
  · rcases rest with _ | ⟨c2, t⟩
    · rw [hiddenRowStep_eq_single acc rv col hpc]
      have hcond := of_decide_eq_true (filter_single_mem hpc).2
      exact ⟨assign_inv acc.1 rv.1 col rv.2 h.1 hcond.1 hcond.2 hd,
        assign_tidy _ _ _ _ h.2⟩
    · rw [hiddenRowStep_eq_multi acc rv col c2 t hpc]
      exact h

theorem hiddenRowStep_compat {sol : Board} (hsol : IsSolution sol)
    (acc : SolverState × Bool) (rv : Fin 9 × ℤ) (hd : rv.2 ∈ digits)
    (h : StInv acc.1 ∧ StCompat sol acc.1) :
    StInv (hiddenRowStep acc rv).1 ∧ StCompat sol (hiddenRowStep acc rv).1 := by
  refine ⟨hiddenRowStep_stinv acc rv hd h.1, ?_⟩
  rcases hpc : (cols9.filter fun c =>
      decide (acc.1.board.get rv.1 c = 0 ∧ rv.2 ∈ acc.1.cands.get rv.1 c)) with _ | ⟨col, rest⟩
  · rw [hiddenRowStep_eq_nil acc rv hpc]
    exact h.2
  · rcases rest with _ | ⟨c2, t⟩
    · rw [hiddenRowStep_eq_single acc rv col hpc]
      have hcond := of_decide_eq_true (filter_single_mem hpc).2
      obtain ⟨cstar, hcs⟩ := sol_exists_in_row hsol rv.1 hd
      have hz : acc.1.board.get rv.1 cstar = 0 := by
        by_contra hnz
        have hbe : acc.1.board.get rv.1 cstar = rv.2 := by
          rw [h.2.1 rv.1 cstar hnz, hcs]
        have hne : col ≠ cstar := by
          intro he
          rw [he] at hcond
          rw [hcond.1] at hbe
          exact digit_ne_zero hd hbe.symm
        have hpeer : IsPeer rv.1 col rv.1 cstar := ⟨fun hp => hne hp.2, Or.inl rfl⟩
        exact (h.1.1.2.2.2 rv.1 col rv.2 hcond.2 rv.1 cstar hpeer) hbe
      have hcsm : cstar ∈ cols9.filter fun c =>
          decide (acc.1.board.get rv.1 c = 0 ∧ rv.2 ∈ acc.1.cands.get rv.1 c) :=
        List.mem_filter.mpr ⟨mem_cols9 _,
          decide_eq_true ⟨hz, hcs ▸ h.2.2 rv.1 cstar hz⟩⟩
      rw [hpc] at hcsm
      have heq : cstar = col := List.mem_singleton.mp hcsm
      have hveq : sol.get rv.1 col = rv.2 := by
        rw [← heq]
        exact hcs
      have hnz : sol.get rv.1 col ≠ 0 := by
        rw [hveq]
        exact digit_ne_zero hd
      show StCompat sol (setCellValue acc.1 rv.1 col rv.2)
      rw [← hveq]
      exact assign_compat hsol acc.1 rv.1 col hnz h.2
    · rw [hiddenRowStep_eq_multi acc rv col c2 t hpc]
      exact h.2

theorem hiddenColStep_t9 (Z : ℕ) (acc : SolverState × Bool) (cv : Fin 9 × ℤ)
    (h : Tidy acc.1.cands ∧ countZeros acc.1.board ≤ Z) :
    Tidy (hiddenColStep acc cv).1.cands ∧ countZeros (hiddenColStep acc cv).1.board ≤ Z := by
  rcases hpc : (cols9.filter fun r =>
      decide (acc.1.board.get r cv.1 = 0 ∧ cv.2 ∈ acc.1.cands.get r cv.1)) with _ | ⟨row, rest⟩
  · rw [hiddenColStep_eq_nil acc cv hpc]
    exact h
  · rcases rest with _ | ⟨r2, t⟩
    · rw [hiddenColStep_eq_single acc cv row hpc]
      have hcond := of_decide_eq_true (filter_single_mem hpc).2
      refine ⟨assign_tidy _ _ _ _ h.1, ?_⟩
      show countZeros (setCellValue acc.1 row cv.1 cv.2).board ≤ Z
      rw [setCellValue_board]
      exact le_trans (countZeros_set_le _ _ _ _ hcond.1) h.2
    · rw [hiddenColStep_eq_multi acc cv row r2 t hpc]
      exact h

theorem hiddenColStep_stinv (acc : SolverState × Bool) (cv : Fin 9 × ℤ)
    (hd : cv.2 ∈ digits) (h : StInv acc.1) : StInv (hiddenColStep acc cv).1 := by
  rcases hpc : (cols9.filter fun r =>
      decide (acc.1.board.get r cv.1 = 0 ∧ cv.2 ∈ acc.1.cands.get r cv.1)) with _ | ⟨row, rest⟩
  · rw [hiddenColStep_eq_nil acc cv hpc]
    exact h
  · rcases rest with _ | ⟨r2, t⟩
    · rw [hiddenColStep_eq_single acc cv row hpc]
      have hcond := of_decide_eq_true (filter_single_mem hpc).2
      exact ⟨assign_inv acc.1 row cv.1 cv.2 h.1 hcond.1 hcond.2 hd,
        assign_tidy _ _ _ _ h.2⟩
    · rw [hiddenColStep_eq_multi acc cv row r2 t hpc]
      exact h

theorem hiddenColStep_compat {sol : Board} (hsol : IsSolution sol)
    (acc : SolverState × Bool) (cv : Fin 9 × ℤ) (hd : cv.2 ∈ digits)
    (h : StInv acc.1 ∧ StCompat sol acc.1) :
    StInv (hiddenColStep acc cv).1 ∧ StCompat sol (hiddenColStep acc cv).1 := by
  refine ⟨hiddenColStep_stinv acc cv hd h.1, ?_⟩
  rcases hpc : (cols9.filter fun r =>
      decide (acc.1.board.get r cv.1 = 0 ∧ cv.2 ∈ acc.1.cands.get r cv.1)) with _ | ⟨row, rest⟩
  · rw [hiddenColStep_eq_nil acc cv hpc]
    exact h.2
  · rcases rest with _ | ⟨r2, t⟩
    · rw [hiddenColStep_eq_single acc cv row hpc]
      have hcond := of_decide_eq_true (filter_single_mem hpc).2
      obtain ⟨rstar, hcs⟩ := sol_exists_in_col hsol cv.1 hd
      have hz : acc.1.board.get rstar cv.1 = 0 := by
        by_contra hnz
        have hbe : acc.1.board.get rstar cv.1 = cv.2 := by
          rw [h.2.1 rstar cv.1 hnz, hcs]
        have hne : row ≠ rstar := by
          intro he
          rw [he] at hcond
          rw [hcond.1] at hbe
          exact digit_ne_zero hd hbe.symm
        have hpeer : IsPeer row cv.1 rstar cv.1 := ⟨fun hp => hne hp.1, Or.inr (Or.inl rfl)⟩
        exact (h.1.1.2.2.2 row cv.1 cv.2 hcond.2 rstar cv.1 hpeer) hbe
      have hcsm : rstar ∈ cols9.filter fun r =>
          decide (acc.1.board.get r cv.1 = 0 ∧ cv.2 ∈ acc.1.cands.get r cv.1) :=
        List.mem_filter.mpr ⟨mem_cols9 _,
          decide_eq_true ⟨hz, hcs ▸ h.2.2 rstar cv.1 hz⟩⟩
      rw [hpc] at hcsm
      have heq : rstar = row := List.mem_singleton.mp hcsm
      have hveq : sol.get row cv.1 = cv.2 := by
        rw [← heq]
        exact hcs
      have hnz : sol.get row cv.1 ≠ 0 := by
        rw [hveq]
        exact digit_ne_zero hd
      show StCompat sol (setCellValue acc.1 row cv.1 cv.2)
      rw [← hveq]
      exact assign_compat hsol acc.1 row cv.1 hnz h.2
    · rw [hiddenColStep_eq_multi acc cv row r2 t hpc]
      exact h.2

theorem sameUnit_of_same_box {p q : Fin 9 × Fin 9} {br bc : Fin 3}
    (hp : p ∈ boxCells br bc) (hq : q ∈ boxCells br bc) :
    sameUnit p.1 p.2 q.1 q.2 := by
  have h1 := (mem_boxCells br bc p).mp hp
  have h2 := (mem_boxCells br bc q).mp hq
  exact Or.inr (Or.inr ⟨h1.1.trans h2.1.symm, h1.2.trans h2.2.symm⟩)

theorem hiddenBoxStep_t9 (Z : ℕ) (acc : SolverState × Bool) (bv : Fin 3 × Fin 3 × ℤ)
    (h : Tidy acc.1.cands ∧ countZeros acc.1.board ≤ Z) :
    Tidy (hiddenBoxStep acc bv).1.cands ∧ countZeros (hiddenBoxStep acc bv).1.board ≤ Z := by
  rcases hpc : ((boxCells bv.1 bv.2.1).filter fun q =>
      decide (acc.1.board.get q.1 q.2 = 0 ∧ bv.2.2 ∈ acc.1.cands.get q.1 q.2))
    with _ | ⟨p, rest⟩
  · rw [hiddenBoxStep_eq_nil acc bv hpc]
    exact h
  · rcases rest with _ | ⟨p2, t⟩
    · rw [hiddenBoxStep_eq_single acc bv p hpc]
      have hcond := of_decide_eq_true (filter_single_mem hpc).2
      refine ⟨assign_tidy _ _ _ _ h.1, ?_⟩
      show countZeros (setCellValue acc.1 p.1 p.2 bv.2.2).board ≤ Z
      rw [setCellValue_board]
      exact le_trans (countZeros_set_le _ _ _ _ hcond.1) h.2
    · rw [hiddenBoxStep_eq_multi acc bv p p2 t hpc]
      exact h

theorem hiddenBoxStep_stinv (acc : SolverState × Bool) (bv : Fin 3 × Fin 3 × ℤ)
    (hd : bv.2.2 ∈ digits) (h : StInv acc.1) : StInv (hiddenBoxStep acc bv).1 := by
  rcases hpc : ((boxCells bv.1 bv.2.1).filter fun q =>
      decide (acc.1.board.get q.1 q.2 = 0 ∧ bv.2.2 ∈ acc.1.cands.get q.1 q.2))
    with _ | ⟨p, rest⟩
  · rw [hiddenBoxStep_eq_nil acc bv hpc]
    exact h
  · rcases rest with _ | ⟨p2, t⟩
    · rw [hiddenBoxStep_eq_single acc bv p hpc]
      have hcond := of_decide_eq_true (filter_single_mem hpc).2
      exact ⟨assign_inv acc.1 p.1 p.2 bv.2.2 h.1 hcond.1 hcond.2 hd,
        assign_tidy _ _ _ _ h.2⟩
    · rw [hiddenBoxStep_eq_multi acc bv p p2 t hpc]
      exact h

theorem hiddenBoxStep_compat {sol : Board} (hsol : IsSolution sol)
    (acc : SolverState × Bool) (bv : Fin 3 × Fin 3 × ℤ) (hd : bv.2.2 ∈ digits)
    (h : StInv acc.1 ∧ StCompat sol acc.1) :
    StInv (hiddenBoxStep acc bv).1 ∧ StCompat sol (hiddenBoxStep acc bv).1 := by
  refine ⟨hiddenBoxStep_stinv acc bv hd h.1, ?_⟩
  rcases hpc : ((boxCells bv.1 bv.2.1).filter fun q =>
      decide (acc.1.board.get q.1 q.2 = 0 ∧ bv.2.2 ∈ acc.1.cands.get q.1 q.2))
    with _ | ⟨p, rest⟩
  · rw [hiddenBoxStep_eq_nil acc bv hpc]
    exact h.2
  · rcases rest with _ | ⟨p2, t⟩
    · rw [hiddenBoxStep_eq_single acc bv p hpc]
      have hcond := of_decide_eq_true (filter_single_mem hpc).2
      have hpmem : p ∈ boxCells bv.1 bv.2.1 := (filter_single_mem hpc).1
      obtain ⟨pstar, hpsmem, hcs⟩ := sol_exists_in_box hsol bv.1 bv.2.1 hd
      have hz : acc.1.board.get pstar.1 pstar.2 = 0 := by
        by_contra hnz
        have hbe : acc.1.board.get pstar.1 pstar.2 = bv.2.2 := by
          rw [h.2.1 pstar.1 pstar.2 hnz, hcs]
        have hne : ¬(p.1 = pstar.1 ∧ p.2 = pstar.2) := by
          rintro ⟨h1, h2⟩
          rw [← h1, ← h2] at hbe
          rw [hcond.1] at hbe
          exact digit_ne_zero hd hbe.symm
        have hpeer : IsPeer p.1 p.2 pstar.1 pstar.2 :=
          ⟨hne, sameUnit_of_same_box hpmem hpsmem⟩
        exact (h.1.1.2.2.2 p.1 p.2 bv.2.2 hcond.2 pstar.1 pstar.2 hpeer) hbe
      have hcsm : pstar ∈ (boxCells bv.1 bv.2.1).filter fun q =>
          decide (acc.1.board.get q.1 q.2 = 0 ∧ bv.2.2 ∈ acc.1.cands.get q.1 q.2) :=
        List.mem_filter.mpr ⟨hpsmem,
          decide_eq_true ⟨hz, hcs ▸ h.2.2 pstar.1 pstar.2 hz⟩⟩
      rw [hpc] at hcsm
      have heq : pstar = p := List.mem_singleton.mp hcsm
      have hveq : sol.get p.1 p.2 = bv.2.2 := by
        rw [← heq]
        exact hcs
      have hnz : sol.get p.1 p.2 ≠ 0 := by
        rw [hveq]
        exact digit_ne_zero hd
      show StCompat sol (setCellValue acc.1 p.1 p.2 bv.2.2)
      rw [← hveq]
      exact assign_compat hsol acc.1 p.1 p.2 hnz h.2
    · rw [hiddenBoxStep_eq_multi acc bv p p2 t hpc]
      exact h.2


/-! ### Elimination preservation -/

theorem elimAt_board (acc : SolverState × Bool) (r c : Fin 9) (value : ℤ) :
    (elimAt acc r c value).1.board = acc.1.board := by
  by_cases h : value ∈ acc.1.cands.get r c
  · rw [elimAt_eq_hit acc r c value h]
  · rw [elimAt_eq_miss acc r c value h]

theorem elimAt_cands_get (acc : SolverState × Bool) (r c : Fin 9) (value : ℤ)
    (a b : Fin 9) :
    (elimAt acc r c value).1.cands.get a b =
      if value ∈ acc.1.cands.get r c ∧ r = a ∧ c = b
      then eraseVal (acc.1.cands.get a b) value
      else acc.1.cands.get a b := by
  by_cases h : value ∈ acc.1.cands.get r c
  · rw [elimAt_eq_hit acc r c value h]
    by_cases h2 : r = a ∧ c = b
    · rw [if_pos ⟨h, h2⟩]
      show Grid.get (acc.1.cands.set r c _) a b = _
      obtain ⟨e1, e2⟩ := h2
      subst e1
      subst e2
      rw [Grid.get_set_same]
    · rw [if_neg (fun hx => h2 hx.2)]
      show Grid.get (acc.1.cands.set r c _) a b = _
      rw [Grid.get_set_ne _ _ _ _ _ _ h2]
  · rw [elimAt_eq_miss acc r c value h, if_neg (fun hx => h hx.1)]

theorem elimAt_tidy (acc : SolverState × Bool) (r c : Fin 9) (value : ℤ)
    (h : Tidy acc.1.cands) : Tidy (elimAt acc r c value).1.cands := by
  constructor
  · intro a b w hw
    rw [elimAt_cands_get] at hw
    by_cases hx : value ∈ acc.1.cands.get r c ∧ r = a ∧ c = b
    · rw [if_pos hx] at hw
      exact h.1 a b w (eraseVal_subset _ _ _ hw)
    · rw [if_neg hx] at hw
      exact h.1 a b w hw
  · intro a b
    rw [elimAt_cands_get]
    by_cases hx : value ∈ acc.1.cands.get r c ∧ r = a ∧ c = b
    · rw [if_pos hx]
      exact eraseVal_pairwise _ (h.2 a b)
    · rw [if_neg hx]
      exact h.2 a b

theorem elimAt_stinv (acc : SolverState × Bool) (r c : Fin 9) (value : ℤ)
    (h : StInv acc.1) : StInv (elimAt acc r c value).1 := by
  obtain ⟨⟨hbr, hnc, hcc, hcs⟩, ht⟩ := h
  refine ⟨⟨?_, ?_, ?_, ?_⟩, elimAt_tidy acc r c value ht⟩
  · intro a b
    rw [elimAt_board]
    exact hbr a b
  · intro a b a' b' hp
    rw [elimAt_board]
    exact hnc a b a' b' hp
  · intro a b
    rw [elimAt_board, elimAt_cands_get]
    intro hz
    by_cases hx : value ∈ acc.1.cands.get r c ∧ r = a ∧ c = b
    · rw [if_pos hx, hcc a b hz]
      rfl
    · rw [if_neg hx]
      exact hcc a b hz
  · intro a b w hw a' b' hp
    rw [elimAt_board]
    rw [elimAt_cands_get] at hw
    by_cases hx : value ∈ acc.1.cands.get r c ∧ r = a ∧ c = b
    · rw [if_pos hx] at hw
      exact hcs a b w (eraseVal_subset _ _ _ hw) a' b' hp
    · rw [if_neg hx] at hw
      exact hcs a b w hw a' b' hp

theorem elimAt_compat {sol : Board} (acc : SolverState × Bool) (r c : Fin 9) (value : ℤ)
    (hguard : acc.1.board.get r c = 0 → sol.get r c ≠ value)
    (h : StCompat sol acc.1) : StCompat sol (elimAt acc r c value).1 := by
  obtain ⟨hc1, hc2⟩ := h
  constructor
  · intro a b
    rw [elimAt_board]
    exact hc1 a b
  · intro a b hz
    rw [elimAt_board] at hz
    rw [elimAt_cands_get]
    by_cases hx : value ∈ acc.1.cands.get r c ∧ r = a ∧ c = b
    · rw [if_pos hx]
      rw [mem_eraseVal]
      refine ⟨hc2 a b hz, ?_⟩
      obtain ⟨_, e1, e2⟩ := hx
      subst e1
      subst e2
      exact hguard hz
    · rw [if_neg hx]
      exact hc2 a b hz

/-! ### Pointing pairs and box/line reduction: structural preservation -/

theorem elimFold_P (P : SolverState → Prop) (value : ℤ) (g : Fin 9 → Fin 9 × Fin 9)
    (hP : ∀ (a : SolverState × Bool) (r c : Fin 9), P a.1 → P (elimAt a r c value).1) :
    ∀ (L : List (Fin 9)) (a : SolverState × Bool), P a.1 →
      P ((L.foldl (fun a i => elimAt a (g i).1 (g i).2 value) a)).1 := by
  intro L a h
  exact foldl_inv (fun x => P x.1) _ L a (fun x i _ hx => hP x (g i).1 (g i).2 hx) h

theorem pointingStep_P (P : SolverState → Prop) (acc : SolverState × Bool)
    (bv : Fin 3 × Fin 3 × ℤ)
    (hP : ∀ (a : SolverState × Bool) (r c : Fin 9), P a.1 → P (elimAt a r c bv.2.2).1)
    (h : P acc.1) : P (pointingStep acc bv).1 := by
  simp only [pointingStep]
  by_cases hlen : 2 ≤ ((boxCells bv.1 bv.2.1).filter fun p =>
      decide (acc.1.board.get p.1 p.2 = 0 ∧ bv.2.2 ∈ acc.1.cands.get p.1 p.2)).length ∧
      ((boxCells bv.1 bv.2.1).filter fun p =>
        decide (acc.1.board.get p.1 p.2 = 0 ∧ bv.2.2 ∈ acc.1.cands.get p.1 p.2)).length ≤ 3
  · rw [if_pos hlen]
    have hfold1 : ∀ (row : Fin 9) (L : List (Fin 9)) (a : SolverState × Bool), P a.1 →
        P ((L.foldl (fun a c => elimAt a row c bv.2.2) a)).1 := by
      intro row L a ha
      exact foldl_inv (fun x => P x.1) _ L a (fun x i _ hx => hP x row i hx) ha
    have hfold2 : ∀ (col : Fin 9) (L : List (Fin 9)) (a : SolverState × Bool), P a.1 →
        P ((L.foldl (fun a r => elimAt a r col bv.2.2) a)).1 := by
      intro col L a ha
      exact foldl_inv (fun x => P x.1) _ L a (fun x i _ hx => hP x i col hx) ha
    rcases hrows : ((((boxCells bv.1 bv.2.1).filter fun p =>
        decide (acc.1.board.get p.1 p.2 = 0 ∧ bv.2.2 ∈ acc.1.cands.get p.1 p.2)).map
          Prod.fst).dedup) with _ | ⟨row, _ | ⟨x2, t2⟩⟩ <;>
      rcases hcols : ((((boxCells bv.1 bv.2.1).filter fun p =>
        decide (acc.1.board.get p.1 p.2 = 0 ∧ bv.2.2 ∈ acc.1.cands.get p.1 p.2)).map
          Prod.snd).dedup) with _ | ⟨col, _ | ⟨y2, u2⟩⟩ <;>
      simp only [hrows, hcols] <;>
      first
        | exact h
        | exact hfold1 _ _ _ h
        | exact hfold2 _ _ _ h
        | exact hfold2 _ _ _ (hfold1 _ _ _ h)
  · rw [if_neg hlen]
    exact h

theorem boxLineRowStep_P (P : SolverState → Prop) (acc : SolverState × Bool)
    (rv : Fin 9 × ℤ)
    (hP : ∀ (a : SolverState × Bool) (r c : Fin 9), P a.1 → P (elimAt a r c rv.2).1)
    (h : P acc.1) : P (boxLineRowStep acc rv).1 := by
  simp only [boxLineRowStep]
  rcases hbw : (((cols9.filter fun c =>
      decide (acc.1.board.get rv.1 c = 0 ∧ rv.2 ∈ acc.1.cands.get rv.1 c)).map
        fun c => c.val / 3).dedup) with _ | ⟨boxCol, _ | ⟨x2, t2⟩⟩ <;>
    simp only [hbw]
  · exact h
  · exact foldl_inv (fun x => P x.1) _ _ acc (fun x (p : Fin 9 × Fin 9) _ hx => hP x p.1 p.2 hx) h
  · exact h

theorem boxLineColStep_P (P : SolverState → Prop) (acc : SolverState × Bool)
    (cv : Fin 9 × ℤ)
    (hP : ∀ (a : SolverState × Bool) (r c : Fin 9), P a.1 → P (elimAt a r c cv.2).1)
    (h : P acc.1) : P (boxLineColStep acc cv).1 := by
  simp only [boxLineColStep]
  rcases hbw : (((cols9.filter fun r =>
      decide (acc.1.board.get r cv.1 = 0 ∧ cv.2 ∈ acc.1.cands.get r cv.1)).map
        fun r => r.val / 3).dedup) with _ | ⟨boxRow, _ | ⟨x2, t2⟩⟩ <;>
    simp only [hbw]
  · exact h
  · exact foldl_inv (fun x => P x.1) _ _ acc (fun x (p : Fin 9 × Fin 9) _ hx => hP x p.1 p.2 hx) h
  · exact h


theorem elimFold_compat_row {sol : Board} (value : ℤ) (row : Fin 9) (L : List (Fin 9))
    (hsafe : ∀ c ∈ L, sol.get row c ≠ value) (a : SolverState × Bool)
    (h : StCompat sol a.1) :
    StCompat sol ((L.foldl (fun a c => elimAt a row c value) a)).1 :=
  foldl_inv (fun x => StCompat sol x.1) _ L a
    (fun x c hc hx => elimAt_compat x row c value (fun _ => hsafe c hc) hx) h

theorem elimFold_compat_col {sol : Board} (value : ℤ) (col : Fin 9) (L : List (Fin 9))
    (hsafe : ∀ r ∈ L, sol.get r col ≠ value) (a : SolverState × Bool)
    (h : StCompat sol a.1) :
    StCompat sol ((L.foldl (fun a r => elimAt a r col value) a)).1 :=
  foldl_inv (fun x => StCompat sol x.1) _ L a
    (fun x r hr hx => elimAt_compat x r col value (fun _ => hsafe r hr) hx) h

theorem pointingStep_compat {sol : Board} (hsol : IsSolution sol)
    (acc : SolverState × Bool) (bv : Fin 3 × Fin 3 × ℤ) (hd : bv.2.2 ∈ digits)
    (h : StInv acc.1 ∧ StCompat sol acc.1) :
    StInv (pointingStep acc bv).1 ∧ StCompat sol (pointingStep acc bv).1 := by
  refine ⟨pointingStep_P StInv acc bv (fun a r c => elimAt_stinv a r c bv.2.2) h.1, ?_⟩
  simp only [pointingStep]
  by_cases hlen : 2 ≤ ((boxCells bv.1 bv.2.1).filter fun p =>
      decide (acc.1.board.get p.1 p.2 = 0 ∧ bv.2.2 ∈ acc.1.cands.get p.1 p.2)).length ∧
      ((boxCells bv.1 bv.2.1).filter fun p =>
        decide (acc.1.board.get p.1 p.2 = 0 ∧ bv.2.2 ∈ acc.1.cands.get p.1 p.2)).length ≤ 3
  · rw [if_pos hlen]
    have hne_nil : ((boxCells bv.1 bv.2.1).filter fun p =>
        decide (acc.1.board.get p.1 p.2 = 0 ∧ bv.2.2 ∈ acc.1.cands.get p.1 p.2)) ≠ [] := by
      intro he
      rw [he] at hlen
      simp at hlen
    obtain ⟨q0, hq0⟩ := List.exists_mem_of_ne_nil _ hne_nil
    have hq0c := of_decide_eq_true (List.mem_filter.mp hq0).2
    have hq0box : q0 ∈ boxCells bv.1 bv.2.1 := (List.mem_filter.mp hq0).1
    obtain ⟨pstar, hps, hcs⟩ := sol_exists_in_box hsol bv.1 bv.2.1 hd
    have hz : acc.1.board.get pstar.1 pstar.2 = 0 := by
      by_contra hnz
      have hbe : acc.1.board.get pstar.1 pstar.2 = bv.2.2 := by
        rw [h.2.1 _ _ hnz, hcs]
      have hne : ¬(q0.1 = pstar.1 ∧ q0.2 = pstar.2) := by
        rintro ⟨e1, e2⟩
        rw [← e1, ← e2] at hbe
        rw [hq0c.1] at hbe
        exact digit_ne_zero hd hbe.symm
      exact (h.1.1.2.2.2 q0.1 q0.2 bv.2.2 hq0c.2 pstar.1 pstar.2
        ⟨hne, sameUnit_of_same_box hq0box hps⟩) hbe
    have hpsmemF : pstar ∈ ((boxCells bv.1 bv.2.1).filter fun p =>
        decide (acc.1.board.get p.1 p.2 = 0 ∧ bv.2.2 ∈ acc.1.cands.get p.1 p.2)) :=
      List.mem_filter.mpr ⟨hps, decide_eq_true ⟨hz, hcs ▸ h.2.2 pstar.1 pstar.2 hz⟩⟩
    have hrowsafe : ∀ row : Fin 9,
        (∀ q ∈ ((boxCells bv.1 bv.2.1).filter fun p =>
          decide (acc.1.board.get p.1 p.2 = 0 ∧ bv.2.2 ∈ acc.1.cands.get p.1 p.2)),
            q.1 = row) →
        ∀ c ∈ (cols9.filter fun c => decide (c.val / 3 ≠ bv.2.1.val)),
          sol.get row c ≠ bv.2.2 := by
      intro row hall c hcL hval
      have hc3 : c.val / 3 ≠ bv.2.1.val := of_decide_eq_true (List.mem_filter.mp hcL).2
      have hpr : pstar.1 = row := hall pstar hpsmemF
      have hpc3 : pstar.2.val / 3 = bv.2.1.val := ((mem_boxCells _ _ _).mp hps).2
      by_cases he : pstar.2 = c
      · exact hc3 (he ▸ hpc3)
      · have hpeer : IsPeer row c pstar.1 pstar.2 :=
          ⟨fun hx => he hx.2.symm, Or.inl hpr.symm⟩
        exact (sol_ne_of_peer hsol hpeer) (by rw [hval, hcs])
    have hcolsafe : ∀ col : Fin 9,
        (∀ q ∈ ((boxCells bv.1 bv.2.1).filter fun p =>
          decide (acc.1.board.get p.1 p.2 = 0 ∧ bv.2.2 ∈ acc.1.cands.get p.1 p.2)),
            q.2 = col) →
        ∀ r ∈ (cols9.filter fun r => decide (r.val / 3 ≠ bv.1.val)),
          sol.get r col ≠ bv.2.2 := by
      intro col hall r hrL hval
      have hr3 : r.val / 3 ≠ bv.1.val := of_decide_eq_true (List.mem_filter.mp hrL).2
      have hpcq : pstar.2 = col := hall pstar hpsmemF
      have hpr3 : pstar.1.val / 3 = bv.1.val := ((mem_boxCells _ _ _).mp hps).1
      by_cases he : pstar.1 = r
      · exact hr3 (he ▸ hpr3)
      · have hpeer : IsPeer r col pstar.1 pstar.2 :=
          ⟨fun hx => he hx.1.symm, Or.inr (Or.inl hpcq.symm)⟩
        exact (sol_ne_of_peer hsol hpeer) (by rw [hval, hcs])
    have hallrow : ∀ row : Fin 9,
        ((((boxCells bv.1 bv.2.1).filter fun p =>
          decide (acc.1.board.get p.1 p.2 = 0 ∧ bv.2.2 ∈ acc.1.cands.get p.1 p.2)).map
            Prod.fst).dedup) = [row] →
        ∀ q ∈ ((boxCells bv.1 bv.2.1).filter fun p =>
          decide (acc.1.board.get p.1 p.2 = 0 ∧ bv.2.2 ∈ acc.1.cands.get p.1 p.2)),
            q.1 = row := by
      intro row hdd q hq
      have hm : q.1 ∈ ((((boxCells bv.1 bv.2.1).filter fun p =>
          decide (acc.1.board.get p.1 p.2 = 0 ∧ bv.2.2 ∈ acc.1.cands.get p.1 p.2)).map
            Prod.fst).dedup) := List.mem_dedup.mpr (List.mem_map.mpr ⟨q, hq, rfl⟩)
      rw [hdd] at hm
      exact List.mem_singleton.mp hm
    have hallcol : ∀ col : Fin 9,
        ((((boxCells bv.1 bv.2.1).filter fun p =>
          decide (acc.1.board.get p.1 p.2 = 0 ∧ bv.2.2 ∈ acc.1.cands.get p.1 p.2)).map
            Prod.snd).dedup) = [col] →
        ∀ q ∈ ((boxCells bv.1 bv.2.1).filter fun p =>
          decide (acc.1.board.get p.1 p.2 = 0 ∧ bv.2.2 ∈ acc.1.cands.get p.1 p.2)),
            q.2 = col := by
      intro col hdd q hq
      have hm : q.2 ∈ ((((boxCells bv.1 bv.2.1).filter fun p =>
          decide (acc.1.board.get p.1 p.2 = 0 ∧ bv.2.2 ∈ acc.1.cands.get p.1 p.2)).map
            Prod.snd).dedup) := List.mem_dedup.mpr (List.mem_map.mpr ⟨q, hq, rfl⟩)
      rw [hdd] at hm
      exact List.mem_singleton.mp hm
    rcases hrows : ((((boxCells bv.1 bv.2.1).filter fun p =>
        decide (acc.1.board.get p.1 p.2 = 0 ∧ bv.2.2 ∈ acc.1.cands.get p.1 p.2)).map
          Prod.fst).dedup) with _ | ⟨row, _ | ⟨x2, t2⟩⟩
    · rcases hcols : ((((boxCells bv.1 bv.2.1).filter fun p =>
          decide (acc.1.board.get p.1 p.2 = 0 ∧ bv.2.2 ∈ acc.1.cands.get p.1 p.2)).map
            Prod.snd).dedup) with _ | ⟨col, _ | ⟨y2, u2⟩⟩ <;> simp only [hrows, hcols]
      · exact h.2
      · exact elimFold_compat_col bv.2.2 col _ (hcolsafe col (hallcol col hcols)) acc h.2
      · exact h.2
    · rcases hcols : ((((boxCells bv.1 bv.2.1).filter fun p =>
          decide (acc.1.board.get p.1 p.2 = 0 ∧ bv.2.2 ∈ acc.1.cands.get p.1 p.2)).map
            Prod.snd).dedup) with _ | ⟨col, _ | ⟨y2, u2⟩⟩ <;> simp only [hrows, hcols]
      · exact elimFold_compat_row bv.2.2 row _ (hrowsafe row (hallrow row hrows)) acc h.2
      · exact elimFold_compat_col bv.2.2 col _ (hcolsafe col (hallcol col hcols)) _
          (elimFold_compat_row bv.2.2 row _ (hrowsafe row (hallrow row hrows)) acc h.2)
      · exact elimFold_compat_row bv.2.2 row _ (hrowsafe row (hallrow row hrows)) acc h.2
    · rcases hcols : ((((boxCells bv.1 bv.2.1).filter fun p =>
          decide (acc.1.board.get p.1 p.2 = 0 ∧ bv.2.2 ∈ acc.1.cands.get p.1 p.2)).map
            Prod.snd).dedup) with _ | ⟨col, _ | ⟨y2, u2⟩⟩ <;> simp only [hrows, hcols]
      · exact h.2
      · exact elimFold_compat_col bv.2.2 col _ (hcolsafe col (hallcol col hcols)) acc h.2
      · exact h.2
  · rw [if_neg hlen]
    exact h.2


theorem boxLineRowStep_compat {sol : Board} (hsol : IsSolution sol)
    (acc : SolverState × Bool) (rv : Fin 9 × ℤ) (hd : rv.2 ∈ digits)
    (h : StInv acc.1 ∧ StCompat sol acc.1) :
    StInv (boxLineRowStep acc rv).1 ∧ StCompat sol (boxLineRowStep acc rv).1 := by
  refine ⟨boxLineRowStep_P StInv acc rv (fun a r c => elimAt_stinv a r c rv.2) h.1, ?_⟩
  simp only [boxLineRowStep]
  rcases hbw : (((cols9.filter fun c =>
      decide (acc.1.board.get rv.1 c = 0 ∧ rv.2 ∈ acc.1.cands.get rv.1 c)).map
        fun c => c.val / 3).dedup) with _ | ⟨boxCol, _ | ⟨x2, t2⟩⟩ <;> simp only [hbw]
  · exact h.2
  · have hallbox : ∀ c ∈ (cols9.filter fun c =>
        decide (acc.1.board.get rv.1 c = 0 ∧ rv.2 ∈ acc.1.cands.get rv.1 c)),
        c.val / 3 = boxCol := by
      intro c hc
      have hm : c.val / 3 ∈ (((cols9.filter fun c =>
          decide (acc.1.board.get rv.1 c = 0 ∧ rv.2 ∈ acc.1.cands.get rv.1 c)).map
            fun c => c.val / 3).dedup) := List.mem_dedup.mpr (List.mem_map.mpr ⟨c, hc, rfl⟩)
      rw [hbw] at hm
      exact List.mem_singleton.mp hm
    have hne_nil : (cols9.filter fun c =>
        decide (acc.1.board.get rv.1 c = 0 ∧ rv.2 ∈ acc.1.cands.get rv.1 c)) ≠ [] := by
      intro he
      rw [he] at hbw
      simp at hbw
    obtain ⟨c0, hc0⟩ := List.exists_mem_of_ne_nil _ hne_nil
    have hc0cond := of_decide_eq_true (List.mem_filter.mp hc0).2
    have hboxle : boxCol ≤ 2 := by
      have h1 := hallbox c0 hc0
      have h2 := c0.isLt
      omega
    obtain ⟨cstar, hcs⟩ := sol_exists_in_row hsol rv.1 hd
    have hz : acc.1.board.get rv.1 cstar = 0 := by
      by_contra hnz
      have hbe : acc.1.board.get rv.1 cstar = rv.2 := by
        rw [h.2.1 _ _ hnz, hcs]
      have hne : c0 ≠ cstar := by
        intro he
        rw [he] at hc0cond
        rw [hc0cond.1] at hbe
        exact digit_ne_zero hd hbe.symm
      exact (h.1.1.2.2.2 rv.1 c0 rv.2 hc0cond.2 rv.1 cstar
        ⟨fun hx => hne hx.2, Or.inl rfl⟩) hbe
    have hcsmem : cstar ∈ (cols9.filter fun c =>
        decide (acc.1.board.get rv.1 c = 0 ∧ rv.2 ∈ acc.1.cands.get rv.1 c)) :=
      List.mem_filter.mpr ⟨mem_cols9 _, decide_eq_true ⟨hz, hcs ▸ h.2.2 rv.1 cstar hz⟩⟩
    have hcs3 : cstar.val / 3 = boxCol := hallbox cstar hcsmem
    have hsafe : ∀ p ∈ ((boxCells (boxOf rv.1)
          ⟨boxCol % 3, Nat.mod_lt _ (by omega)⟩).filter fun p => decide (p.1 ≠ rv.1)),
        sol.get p.1 p.2 ≠ rv.2 := by
      intro p hp hval
      have hpbox := (List.mem_filter.mp hp).1
      have hpne : p.1 ≠ rv.1 := of_decide_eq_true (List.mem_filter.mp hp).2
      have hrcmem : ((rv.1, cstar) : Fin 9 × Fin 9) ∈ boxCells (boxOf rv.1)
          ⟨boxCol % 3, Nat.mod_lt _ (by omega)⟩ := by
        rw [mem_boxCells]
        refine ⟨rfl, ?_⟩
        show cstar.val / 3 = boxCol % 3
        rw [Nat.mod_eq_of_lt (by omega : boxCol < 3)]
        exact hcs3
      have hpeer : IsPeer p.1 p.2 rv.1 cstar :=
        ⟨fun hx => hpne hx.1, sameUnit_of_same_box hpbox hrcmem⟩
      exact (sol_ne_of_peer hsol hpeer) (by rw [hval, hcs])
    exact foldl_inv (fun x => StCompat sol x.1) _ _ acc
      (fun x (p : Fin 9 × Fin 9) hpL hx =>
        elimAt_compat x p.1 p.2 rv.2 (fun _ => hsafe p hpL) hx) h.2
  · exact h.2

theorem boxLineColStep_compat {sol : Board} (hsol : IsSolution sol)
    (acc : SolverState × Bool) (cv : Fin 9 × ℤ) (hd : cv.2 ∈ digits)
    (h : StInv acc.1 ∧ StCompat sol acc.1) :
    StInv (boxLineColStep acc cv).1 ∧ StCompat sol (boxLineColStep acc cv).1 := by
  refine ⟨boxLineColStep_P StInv acc cv (fun a r c => elimAt_stinv a r c cv.2) h.1, ?_⟩
  simp only [boxLineColStep]
  rcases hbw : (((cols9.filter fun r =>
      decide (acc.1.board.get r cv.1 = 0 ∧ cv.2 ∈ acc.1.cands.get r cv.1)).map
        fun r => r.val / 3).dedup) with _ | ⟨boxRow, _ | ⟨x2, t2⟩⟩ <;> simp only [hbw]
  · exact h.2
  · have hallbox : ∀ r ∈ (cols9.filter fun r =>
        decide (acc.1.board.get r cv.1 = 0 ∧ cv.2 ∈ acc.1.cands.get r cv.1)),
        r.val / 3 = boxRow := by
      intro r hr
      have hm : r.val / 3 ∈ (((cols9.filter fun r =>
          decide (acc.1.board.get r cv.1 = 0 ∧ cv.2 ∈ acc.1.cands.get r cv.1)).map
            fun r => r.val / 3).dedup) := List.mem_dedup.mpr (List.mem_map.mpr ⟨r, hr, rfl⟩)
      rw [hbw] at hm
      exact List.mem_singleton.mp hm
    have hne_nil : (cols9.filter fun r =>
        decide (acc.1.board.get r cv.1 = 0 ∧ cv.2 ∈ acc.1.cands.get r cv.1)) ≠ [] := by
      intro he
      rw [he] at hbw
      simp at hbw
    obtain ⟨r0, hr0⟩ := List.exists_mem_of_ne_nil _ hne_nil
    have hr0cond := of_decide_eq_true (List.mem_filter.mp hr0).2
    have hboxle : boxRow ≤ 2 := by
      have h1 := hallbox r0 hr0
      have h2 := r0.isLt
      omega
    obtain ⟨rstar, hcs⟩ := sol_exists_in_col hsol cv.1 hd
    have hz : acc.1.board.get rstar cv.1 = 0 := by
      by_contra hnz
      have hbe : acc.1.board.get rstar cv.1 = cv.2 := by
        rw [h.2.1 _ _ hnz, hcs]
      have hne : r0 ≠ rstar := by
        intro he
        rw [he] at hr0cond
        rw [hr0cond.1] at hbe
        exact digit_ne_zero hd hbe.symm
      exact (h.1.1.2.2.2 r0 cv.1 cv.2 hr0cond.2 rstar cv.1
        ⟨fun hx => hne hx.1, Or.inr (Or.inl rfl)⟩) hbe
    have hrsmem : rstar ∈ (cols9.filter fun r =>
        decide (acc.1.board.get r cv.1 = 0 ∧ cv.2 ∈ acc.1.cands.get r cv.1)) :=
      List.mem_filter.mpr ⟨mem_cols9 _, decide_eq_true ⟨hz, hcs ▸ h.2.2 rstar cv.1 hz⟩⟩
    have hrs3 : rstar.val / 3 = boxRow := hallbox rstar hrsmem
    have hsafe : ∀ p ∈ ((boxCells ⟨boxRow % 3, Nat.mod_lt _ (by omega)⟩
          (boxOf cv.1)).filter fun p => decide (p.2 ≠ cv.1)),
        sol.get p.1 p.2 ≠ cv.2 := by
      intro p hp hval
      have hpbox := (List.mem_filter.mp hp).1
      have hpne : p.2 ≠ cv.1 := of_decide_eq_true (List.mem_filter.mp hp).2
      have hrcmem : ((rstar, cv.1) : Fin 9 × Fin 9) ∈ boxCells
          ⟨boxRow % 3, Nat.mod_lt _ (by omega)⟩ (boxOf cv.1) := by
        rw [mem_boxCells]
        refine ⟨?_, rfl⟩
        show rstar.val / 3 = boxRow % 3
        rw [Nat.mod_eq_of_lt (by omega : boxRow < 3)]
        exact hrs3
      have hpeer : IsPeer p.1 p.2 rstar cv.1 :=
        ⟨fun hx => hpne hx.2, sameUnit_of_same_box hpbox hrcmem⟩
      exact (sol_ne_of_peer hsol hpeer) (by rw [hval, hcs])
    exact foldl_inv (fun x => StCompat sol x.1) _ _ acc
      (fun x (p : Fin 9 × Fin 9) hpL hx =>
        elimAt_compat x p.1 p.2 cv.2 (fun _ => hsafe p hpL) hx) h.2
  · exact h.2


/-! ### Phase and propagation preservation -/

theorem elimAt_t9 (Z : ℕ) (value : ℤ) (a : SolverState × Bool) (r c : Fin 9)
    (h : Tidy a.1.cands ∧ countZeros a.1.board ≤ Z) :
    Tidy (elimAt a r c value).1.cands ∧ countZeros (elimAt a r c value).1.board ≤ Z := by
  refine ⟨elimAt_tidy a r c value h.1, ?_⟩
  rw [elimAt_board]
  exact h.2

theorem solveNakedSingles_t9 (Z : ℕ) (st : SolverState)
    (h : Tidy st.cands ∧ countZeros st.board ≤ Z) :
    Tidy (solveNakedSingles st).1.cands ∧ countZeros (solveNakedSingles st).1.board ≤ Z := by
  unfold solveNakedSingles
  exact foldl_inv (fun a : SolverState × Bool => Tidy a.1.cands ∧ countZeros a.1.board ≤ Z) nakedStep allCells
    (st, false) (fun a p _ => nakedStep_t9 Z a p) h

theorem solveNakedSingles_stinv (st : SolverState) (h : StInv st) :
    StInv (solveNakedSingles st).1 := by
  unfold solveNakedSingles
  exact foldl_inv (fun a : SolverState × Bool => StInv a.1) nakedStep allCells (st, false)
    (fun a p _ => nakedStep_stinv a p) h

theorem solveNakedSingles_compat {sol : Board} (hsol : IsSolution sol) (st : SolverState)
    (h : StInv st ∧ StCompat sol st) :
    StInv (solveNakedSingles st).1 ∧ StCompat sol (solveNakedSingles st).1 := by
  unfold solveNakedSingles
  exact foldl_inv (fun a : SolverState × Bool => StInv a.1 ∧ StCompat sol a.1) nakedStep allCells (st, false)
    (fun a p _ => nakedStep_compat hsol a p) h

theorem solveHiddenSingles_t9 (Z : ℕ) (st : SolverState)
    (h : Tidy st.cands ∧ countZeros st.board ≤ Z) :
    Tidy (solveHiddenSingles st).1.cands ∧
      countZeros (solveHiddenSingles st).1.board ≤ Z := by
  unfold solveHiddenSingles hiddenSinglesBoxes hiddenSinglesCols hiddenSinglesRows
  have h1 := foldl_inv (fun a : SolverState × Bool => Tidy a.1.cands ∧ countZeros a.1.board ≤ Z)
    hiddenRowStep rowValuePairs (st, false) (fun a rv _ => hiddenRowStep_t9 Z a rv) h
  have h2 := foldl_inv (fun a : SolverState × Bool => Tidy a.1.cands ∧ countZeros a.1.board ≤ Z)
    hiddenColStep rowValuePairs _ (fun a cv _ => hiddenColStep_t9 Z a cv) h1
  exact foldl_inv (fun a : SolverState × Bool => Tidy a.1.cands ∧ countZeros a.1.board ≤ Z)
    hiddenBoxStep boxValueTriples _ (fun a bv _ => hiddenBoxStep_t9 Z a bv) h2

theorem solveHiddenSingles_stinv (st : SolverState) (h : StInv st) :
    StInv (solveHiddenSingles st).1 := by
  unfold solveHiddenSingles hiddenSinglesBoxes hiddenSinglesCols hiddenSinglesRows
  have h1 := foldl_inv (fun a : SolverState × Bool => StInv a.1) hiddenRowStep rowValuePairs (st, false)
    (fun a rv hm => hiddenRowStep_stinv a rv ((mem_rowValuePairs rv).mp hm)) h
  have h2 := foldl_inv (fun a : SolverState × Bool => StInv a.1) hiddenColStep rowValuePairs _
    (fun a cv hm => hiddenColStep_stinv a cv ((mem_rowValuePairs cv).mp hm)) h1
  exact foldl_inv (fun a : SolverState × Bool => StInv a.1) hiddenBoxStep boxValueTriples _
    (fun a bv hm => hiddenBoxStep_stinv a bv ((mem_boxValueTriples bv).mp hm)) h2

theorem solveHiddenSingles_compat {sol : Board} (hsol : IsSolution sol)
    (st : SolverState) (h : StInv st ∧ StCompat sol st) :
    StInv (solveHiddenSingles st).1 ∧ StCompat sol (solveHiddenSingles st).1 := by
  unfold solveHiddenSingles hiddenSinglesBoxes hiddenSinglesCols hiddenSinglesRows
  have h1 := foldl_inv (fun a : SolverState × Bool => StInv a.1 ∧ StCompat sol a.1) hiddenRowStep
    rowValuePairs (st, false)
    (fun a rv hm => hiddenRowStep_compat hsol a rv ((mem_rowValuePairs rv).mp hm)) h
  have h2 := foldl_inv (fun a : SolverState × Bool => StInv a.1 ∧ StCompat sol a.1) hiddenColStep
    rowValuePairs _
    (fun a cv hm => hiddenColStep_compat hsol a cv ((mem_rowValuePairs cv).mp hm)) h1
  exact foldl_inv (fun a : SolverState × Bool => StInv a.1 ∧ StCompat sol a.1) hiddenBoxStep
    boxValueTriples _
    (fun a bv hm => hiddenBoxStep_compat hsol a bv ((mem_boxValueTriples bv).mp hm)) h2

theorem solvePointingPairs_t9 (Z : ℕ) (st : SolverState)
    (h : Tidy st.cands ∧ countZeros st.board ≤ Z) :
    Tidy (solvePointingPairs st).1.cands ∧
      countZeros (solvePointingPairs st).1.board ≤ Z := by
  unfold solvePointingPairs
  exact foldl_inv (fun a : SolverState × Bool => Tidy a.1.cands ∧ countZeros a.1.board ≤ Z) pointingStep
    boxValueTriples (st, false)
    (fun a bv _ ha => pointingStep_P
      (fun s : SolverState => Tidy s.cands ∧ countZeros s.board ≤ Z) a bv
      (fun x r c => elimAt_t9 Z bv.2.2 x r c) ha) h

theorem solvePointingPairs_stinv (st : SolverState) (h : StInv st) :
    StInv (solvePointingPairs st).1 := by
  unfold solvePointingPairs
  exact foldl_inv (fun a : SolverState × Bool => StInv a.1) pointingStep boxValueTriples (st, false)
    (fun a bv _ ha => pointingStep_P StInv a bv
      (fun x r c => elimAt_stinv x r c bv.2.2) ha) h

theorem solvePointingPairs_compat {sol : Board} (hsol : IsSolution sol)
    (st : SolverState) (h : StInv st ∧ StCompat sol st) :
    StInv (solvePointingPairs st).1 ∧ StCompat sol (solvePointingPairs st).1 := by
  unfold solvePointingPairs
  exact foldl_inv (fun a : SolverState × Bool => StInv a.1 ∧ StCompat sol a.1) pointingStep boxValueTriples
    (st, false)
    (fun a bv hm => pointingStep_compat hsol a bv ((mem_boxValueTriples bv).mp hm)) h

theorem solveBoxLineReduction_t9 (Z : ℕ) (st : SolverState)
    (h : Tidy st.cands ∧ countZeros st.board ≤ Z) :
    Tidy (solveBoxLineReduction st).1.cands ∧
      countZeros (solveBoxLineReduction st).1.board ≤ Z := by
  unfold solveBoxLineReduction boxLineCols boxLineRows
  have h1 := foldl_inv (fun a : SolverState × Bool => Tidy a.1.cands ∧ countZeros a.1.board ≤ Z)
    boxLineRowStep rowValuePairs (st, false)
    (fun a rv _ ha => boxLineRowStep_P
      (fun s : SolverState => Tidy s.cands ∧ countZeros s.board ≤ Z) a rv
      (fun x r c => elimAt_t9 Z rv.2 x r c) ha) h
  exact foldl_inv (fun a : SolverState × Bool => Tidy a.1.cands ∧ countZeros a.1.board ≤ Z)
    boxLineColStep rowValuePairs _
    (fun a cv _ ha => boxLineColStep_P
      (fun s : SolverState => Tidy s.cands ∧ countZeros s.board ≤ Z) a cv
      (fun x r c => elimAt_t9 Z cv.2 x r c) ha) h1

theorem solveBoxLineReduction_stinv (st : SolverState) (h : StInv st) :
    StInv (solveBoxLineReduction st).1 := by
  unfold solveBoxLineReduction boxLineCols boxLineRows
  have h1 := foldl_inv (fun a : SolverState × Bool => StInv a.1) boxLineRowStep rowValuePairs (st, false)
    (fun a rv _ ha => boxLineRowStep_P StInv a rv
      (fun x r c => elimAt_stinv x r c rv.2) ha) h
  exact foldl_inv (fun a : SolverState × Bool => StInv a.1) boxLineColStep rowValuePairs _
    (fun a cv _ ha => boxLineColStep_P StInv a cv
      (fun x r c => elimAt_stinv x r c cv.2) ha) h1

theorem solveBoxLineReduction_compat {sol : Board} (hsol : IsSolution sol)
    (st : SolverState) (h : StInv st ∧ StCompat sol st) :
    StInv (solveBoxLineReduction st).1 ∧ StCompat sol (solveBoxLineReduction st).1 := by
  unfold solveBoxLineReduction boxLineCols boxLineRows
  have h1 := foldl_inv (fun a : SolverState × Bool => StInv a.1 ∧ StCompat sol a.1) boxLineRowStep
    rowValuePairs (st, false)
    (fun a rv hm => boxLineRowStep_compat hsol a rv ((mem_rowValuePairs rv).mp hm)) h
  exact foldl_inv (fun a : SolverState × Bool => StInv a.1 ∧ StCompat sol a.1) boxLineColStep
    rowValuePairs _
    (fun a cv hm => boxLineColStep_compat hsol a cv ((mem_rowValuePairs cv).mp hm)) h1

theorem propagateOnce_eq (st : SolverState) :
    propagateOnce st =
      ((solveBoxLineReduction
          (solvePointingPairs (solveHiddenSingles (solveNakedSingles st).1).1).1).1,
        (solveNakedSingles st).2
          || (solveHiddenSingles (solveNakedSingles st).1).2
          || (solvePointingPairs (solveHiddenSingles (solveNakedSingles st).1).1).2
          || (solveBoxLineReduction
                (solvePointingPairs (solveHiddenSingles (solveNakedSingles st).1).1).1).2) := rfl

theorem propagateOnce_fst (st : SolverState) :
    (propagateOnce st).1 =
      (solveBoxLineReduction
        (solvePointingPairs (solveHiddenSingles (solveNakedSingles st).1).1).1).1 := by
  conv_lhs => rw [propagateOnce_eq, pair_fst]

theorem propagateOnce_t9 (Z : ℕ) (st : SolverState)
    (h : Tidy st.cands ∧ countZeros st.board ≤ Z) :
    Tidy (propagateOnce st).1.cands ∧ countZeros (propagateOnce st).1.board ≤ Z := by
  rw [propagateOnce_fst]
  exact solveBoxLineReduction_t9 Z _ (solvePointingPairs_t9 Z _
    (solveHiddenSingles_t9 Z _ (solveNakedSingles_t9 Z _ h)))

theorem propagateOnce_stinv (st : SolverState) (h : StInv st) :
    StInv (propagateOnce st).1 := by
  rw [propagateOnce_fst]
  exact solveBoxLineReduction_stinv _ (solvePointingPairs_stinv _
    (solveHiddenSingles_stinv _ (solveNakedSingles_stinv _ h)))

theorem propagateOnce_compat {sol : Board} (hsol : IsSolution sol) (st : SolverState)
    (h : StInv st ∧ StCompat sol st) :
    StInv (propagateOnce st).1 ∧ StCompat sol (propagateOnce st).1 := by
  rw [propagateOnce_fst]
  exact solveBoxLineReduction_compat hsol _ (solvePointingPairs_compat hsol _
    (solveHiddenSingles_compat hsol _ (solveNakedSingles_compat hsol _ h)))

theorem propagateLoop_t9 (Z : ℕ) : ∀ (fuel : ℕ) (st : SolverState),
    Tidy st.cands ∧ countZeros st.board ≤ Z →
    Tidy (propagateLoop fuel st).cands ∧ countZeros (propagateLoop fuel st).board ≤ Z := by
  intro fuel
  induction fuel with
  | zero => intro st h; exact h
  | succ n ih =>
    intro st h
    rw [propagateLoop_succ]
    by_cases hb : (propagateOnce st).2 = true
    · rw [if_pos hb]
      exact ih _ (propagateOnce_t9 Z st h)
    · rw [if_neg hb]
      exact propagateOnce_t9 Z st h

theorem propagateLoop_stinv : ∀ (fuel : ℕ) (st : SolverState), StInv st →
    StInv (propagateLoop fuel st) := by
  intro fuel
  induction fuel with
  | zero => intro st h; exact h
  | succ n ih =>
    intro st h
    rw [propagateLoop_succ]
    by_cases hb : (propagateOnce st).2 = true
    · rw [if_pos hb]
      exact ih _ (propagateOnce_stinv st h)
    · rw [if_neg hb]
      exact propagateOnce_stinv st h

theorem propagateLoop_compat {sol : Board} (hsol : IsSolution sol) :
    ∀ (fuel : ℕ) (st : SolverState), StInv st ∧ StCompat sol st →
    StInv (propagateLoop fuel st) ∧ StCompat sol (propagateLoop fuel st) := by
  intro fuel
  induction fuel with
  | zero => intro st h; exact h
  | succ n ih =>
    intro st h
    rw [propagateLoop_succ]
    by_cases hb : (propagateOnce st).2 = true
    · rw [if_pos hb]
      exact ih _ (propagateOnce_compat hsol st h)
    · rw [if_neg hb]
      exact propagateOnce_compat hsol st h

theorem constraintPropagation_t9 (Z : ℕ) (st : SolverState)
    (h : Tidy st.cands ∧ countZeros st.board ≤ Z) :
    Tidy (constraintPropagation st).cands ∧
      countZeros (constraintPropagation st).board ≤ Z :=
  propagateLoop_t9 Z 730 st h

theorem constraintPropagation_stinv (st : SolverState) (h : StInv st) :
    StInv (constraintPropagation st) :=
  propagateLoop_stinv 730 st h

theorem constraintPropagation_compat {sol : Board} (hsol : IsSolution sol)
    (st : SolverState) (h : StInv st ∧ StCompat sol st) :
    StInv (constraintPropagation st) ∧ StCompat sol (constraintPropagation st) :=
  propagateLoop_compat hsol 730 st h


/-! ### mrvScan characterization -/

theorem mrvScan_cons (st : SolverState) (p : Fin 9 × Fin 9) (rest : List (Fin 9 × Fin 9))
    (m : ℕ) (best : Option (Fin 9 × Fin 9)) :
    mrvScan st (p :: rest) m best =
      if st.board.get p.1 p.2 = 0 then
        (if (st.cands.get p.1 p.2).length = 0 then none
         else if (st.cands.get p.1 p.2).length < m then
           mrvScan st rest (st.cands.get p.1 p.2).length (some p)
         else mrvScan st rest m best)
      else mrvScan st rest m best := rfl

theorem mrvScan_none (st : SolverState) : ∀ (L : List (Fin 9 × Fin 9)) (m : ℕ)
    (best : Option (Fin 9 × Fin 9)), mrvScan st L m best = none →
    ∃ p ∈ L, st.board.get p.1 p.2 = 0 ∧ (st.cands.get p.1 p.2).length = 0 := by
  intro L
  induction L with
  | nil =>
    intro m best h
    exact absurd h (by simp [mrvScan])
  | cons p rest ih =>
    intro m best h
    rw [mrvScan_cons] at h
    by_cases hz : st.board.get p.1 p.2 = 0
    · rw [if_pos hz] at h
      by_cases hn : (st.cands.get p.1 p.2).length = 0
      · exact ⟨p, List.mem_cons_self _ _, hz, hn⟩
      · rw [if_neg hn] at h
        by_cases hlt : (st.cands.get p.1 p.2).length < m
        · rw [if_pos hlt] at h
          obtain ⟨q, hq, hq2⟩ := ih _ _ h
          exact ⟨q, List.mem_cons_of_mem _ hq, hq2⟩
        · rw [if_neg hlt] at h
          obtain ⟨q, hq, hq2⟩ := ih _ _ h
          exact ⟨q, List.mem_cons_of_mem _ hq, hq2⟩
    · rw [if_neg hz] at h
      obtain ⟨q, hq, hq2⟩ := ih _ _ h
      exact ⟨q, List.mem_cons_of_mem _ hq, hq2⟩

theorem mrvScan_best_some (st : SolverState) : ∀ (L : List (Fin 9 × Fin 9)) (m : ℕ)
    (q : Fin 9 × Fin 9), mrvScan st L m (some q) ≠ some none := by
  intro L
  induction L with
  | nil =>
    intro m q h
    exact absurd (Option.some_injective _ h) (by simp)
  | cons p rest ih =>
    intro m q h
    rw [mrvScan_cons] at h
    by_cases hz : st.board.get p.1 p.2 = 0
    · rw [if_pos hz] at h
      by_cases hn : (st.cands.get p.1 p.2).length = 0
      · rw [if_pos hn] at h
        exact absurd h (by simp)
      · rw [if_neg hn] at h
        by_cases hlt : (st.cands.get p.1 p.2).length < m
        · rw [if_pos hlt] at h
          exact ih _ _ h
        · rw [if_neg hlt] at h
          exact ih _ _ h
    · rw [if_neg hz] at h
      exact ih _ _ h

theorem mrvScan_some_none (st : SolverState) : ∀ (L : List (Fin 9 × Fin 9)) (m : ℕ),
    (∀ p ∈ L, st.board.get p.1 p.2 = 0 → (st.cands.get p.1 p.2).length < m) →
    mrvScan st L m none = some none → ∀ p ∈ L, st.board.get p.1 p.2 ≠ 0 := by
  intro L
  induction L with
  | nil =>
    intro m _ _ p hp
    exact absurd hp (List.not_mem_nil _)
  | cons p rest ih =>
    intro m hbound h q hq
    rw [mrvScan_cons] at h
    by_cases hz : st.board.get p.1 p.2 = 0
    · rw [if_pos hz] at h
      by_cases hn : (st.cands.get p.1 p.2).length = 0
      · rw [if_pos hn] at h
        exact absurd h (by simp)
      · rw [if_neg hn, if_pos (hbound p (List.mem_cons_self _ _) hz)] at h
        exact absurd h (mrvScan_best_some st rest _ p)
    · rw [if_neg hz] at h
      rcases List.mem_cons.mp hq with he | he
      · rw [he]
        exact hz
      · exact ih m (fun x hx => hbound x (List.mem_cons_of_mem _ hx)) h q he

theorem mrvScan_some_some (st : SolverState) : ∀ (L : List (Fin 9 × Fin 9)) (m : ℕ)
    (best : Option (Fin 9 × Fin 9)) (q : Fin 9 × Fin 9),
    mrvScan st L m best = some (some q) →
    (q ∈ L ∧ st.board.get q.1 q.2 = 0 ∧ st.cands.get q.1 q.2 ≠ []) ∨ best = some q := by
  intro L
  induction L with
  | nil =>
    intro m best q h
    exact Or.inr (Option.some_injective _ h)
  | cons p rest ih =>
    intro m best q h
    rw [mrvScan_cons] at h
    by_cases hz : st.board.get p.1 p.2 = 0
    · rw [if_pos hz] at h
      by_cases hn : (st.cands.get p.1 p.2).length = 0
      · rw [if_pos hn] at h
        exact absurd h (by simp)
      · rw [if_neg hn] at h
        by_cases hlt : (st.cands.get p.1 p.2).length < m
        · rw [if_pos hlt] at h
          rcases ih _ _ _ h with h1 | h1
          · exact Or.inl ⟨List.mem_cons_of_mem _ h1.1, h1.2⟩
          · have hpq : p = q := Option.some_injective _ h1
            subst hpq
            refine Or.inl ⟨List.mem_cons_self _ _, hz, ?_⟩
            intro he
            rw [he] at hn
            exact hn rfl
        · rw [if_neg hlt] at h
          rcases ih _ _ _ h with h1 | h1
          · exact Or.inl ⟨List.mem_cons_of_mem _ h1.1, h1.2⟩
          · exact Or.inr h1
    · rw [if_neg hz] at h
      rcases ih _ _ _ h with h1 | h1
      · exact Or.inl ⟨List.mem_cons_of_mem _ h1.1, h1.2⟩
      · exact Or.inr h1

/-! ### Totality of the backtracking search -/

theorem tidy_len_le {cs : Cands} (ht : Tidy cs) (r c : Fin 9) :
    (cs.get r c).length ≤ 9 := by
  have hnd : (cs.get r c).Nodup := (ht.2 r c).imp (fun h => ne_of_lt h)
  have hsub : cs.get r c ⊆ digits := fun v hv => ht.1 r c v hv
  have := (hnd.subperm hsub).length_le
  simpa using this

theorem tryValues_cons_none (rec : SolverState → Option (SolverState × Bool))
    (r c : Fin 9) (st : SolverState) (value : ℤ) (rest : List ℤ)
    (h : rec (setCellValue st r c value) = none) :
    tryValues rec r c st (value :: rest) = none := by
  rw [tryValues_cons, h]

theorem countZeros_scv_lt (st : SolverState) (r c : Fin 9) (v : ℤ)
    (h0 : st.board.get r c = 0) (hd : v ∈ digits) :
    countZeros (setCellValue st r c v).board < countZeros st.board := by
  rw [setCellValue_board]
  exact countZeros_set_lt _ _ _ _ h0 (digit_ne_zero hd)

theorem tryValues_isSome (n : ℕ) (r c : Fin 9) (st1 : SolverState)
    (hrec : ∀ st' : SolverState, Tidy st'.cands → countZeros st'.board < n →
      (swb n st').isSome)
    (ht : Tidy st1.cands) (h0 : st1.board.get r c = 0)
    (hcnt : countZeros st1.board ≤ n) :
    ∀ (l : List ℤ) (stc : SolverState), stc.board = st1.board → stc.cands = st1.cands →
      l ⊆ st1.cands.get r c → (tryValues (swb n) r c stc l).isSome := by
  intro l
  induction l with
  | nil =>
    intro stc _ _ _
    rw [tryValues_nil]
    rfl
  | cons v rest ih =>
    intro stc hb hc hsub
    have hv : v ∈ st1.cands.get r c := hsub (List.mem_cons_self _ _)
    have hvd : v ∈ digits := ht.1 r c v hv
    have htc : Tidy stc.cands := by
      rw [hc]
      exact ht
    have h0c : stc.board.get r c = 0 := by
      rw [hb]
      exact h0
    have hcnt' : countZeros (setCellValue stc r c v).board < n := by
      have := countZeros_scv_lt stc r c v h0c hvd
      rw [setCellValue_board, hb] at this ⊢
      omega
    have htrial := hrec (setCellValue stc r c v) (assign_tidy _ _ _ _ htc) hcnt'
    obtain ⟨res, hres⟩ := Option.isSome_iff_exists.mp htrial
    obtain ⟨st2, flag⟩ := res
    cases flag
    · rw [tryValues_cons_failed _ _ _ _ _ _ _ hres]
      exact ih ⟨stc.board, stc.cands, st2.steps⟩ hb hc
        (fun x hx => hsub (List.mem_cons_of_mem _ hx))
    · rw [tryValues_cons_success _ _ _ _ _ _ _ hres]
      rfl

theorem swb_isSome : ∀ (fuel : ℕ) (st : SolverState), Tidy st.cands →
    countZeros st.board < fuel → (swb fuel st).isSome := by
  intro fuel
  induction fuel with
  | zero =>
    intro st _ h
    omega
  | succ n ih =>
    intro st ht hcnt
    rw [swb_succ]
    have ht1 := constraintPropagation_t9 (countZeros st.board) st ⟨ht, le_refl _⟩
    rcases hm : mrvScan (constraintPropagation st) allCells 10 none
      with _ | bo
    · rw [swbBranch_none _ _ hm]
      rfl
    · rcases bo with _ | q
      · rw [swbBranch_solved _ _ hm]
        rfl
      · have hm' : mrvScan (constraintPropagation st) allCells 10 none
            = some (some (q.1, q.2)) := by
          rw [Prod.mk.eta]
          exact hm
        rw [swbBranch_best _ _ q.1 q.2 hm']
        have hq : (q ∈ allCells ∧
            (constraintPropagation st).board.get q.1 q.2 = 0 ∧
            (constraintPropagation st).cands.get q.1 q.2 ≠ []) ∨
            (none : Option (Fin 9 × Fin 9)) = some q :=
          mrvScan_some_some _ allCells 10 none q hm
        rcases hq with ⟨_, hq0, _⟩ | hq
        · exact tryValues_isSome n q.1 q.2 (constraintPropagation st) ih ht1.1 hq0
            (by omega) _ _ rfl rfl (fun x hx => hx)
        · exact absurd hq (by simp)

theorem swb82_isSome (b : Board) : (swb 82 (initializeCandidates b)).isSome := by
  apply swb_isSome 82 (initializeCandidates b) (init_tidy b)
  have := countZeros_le_81 (initializeCandidates b).board
  omega


/-! ### Soundness of the backtracking search -/

theorem stinv_iff_components {st st' : SolverState} (hb : st.board = st'.board)
    (hc : st.cands = st'.cands) (h : StInv st') : StInv st := by
  unfold StInv
  rw [hb, hc]
  exact h

theorem stcompat_iff_components {sol : Board} {st st' : SolverState}
    (hb : st.board = st'.board) (hc : st.cands = st'.cands)
    (h : StCompat sol st') : StCompat sol st := by
  unfold StCompat
  rw [hb, hc]
  exact h

theorem isComplete_of_no_zero {b : Board} (h : ∀ p ∈ allCells, b.get p.1 p.2 ≠ 0) :
    isComplete b = true := by
  unfold isComplete
  apply List.all_eq_true.mpr
  intro p hp
  exact decide_eq_true (h p hp)

theorem tryValues_sound (n : ℕ) (r c : Fin 9) (stp st1 : SolverState)
    (hrec : ∀ (st st' : SolverState), StInv st → swb n st = some (st', true) →
      StInv st' ∧ isComplete st'.board = true)
    (hI : StInv stp) (h0 : stp.board.get r c = 0) :
    ∀ (l : List ℤ) (stc : SolverState), stc.board = stp.board → stc.cands = stp.cands →
      l ⊆ stp.cands.get r c →
      tryValues (swb n) r c stc l = some (st1, true) →
      StInv st1 ∧ isComplete st1.board = true := by
  intro l
  induction l with
  | nil =>
    intro stc _ _ _ heq
    rw [tryValues_nil] at heq
    have h2 : false = true := congrArg Prod.snd (Option.some_injective _ heq)
    exact absurd h2 (by simp)
  | cons v rest ih =>
    intro stc hb hc hsub heq
    have hv : v ∈ stp.cands.get r c := hsub (List.mem_cons_self _ _)
    have hvd : v ∈ digits := hI.2.1 r c v hv
    have hIc : StInv stc := stinv_iff_components hb hc hI
    have h0c : stc.board.get r c = 0 := by
      rw [hb]
      exact h0
    have hvc : v ∈ stc.cands.get r c := by
      rw [hc]
      exact hv
    have hItrial : StInv (setCellValue stc r c v) :=
      ⟨assign_inv stc r c v hIc.1 h0c hvc hvd, assign_tidy _ _ _ _ hIc.2⟩
    rcases htr : swb n (setCellValue stc r c v) with _ | res
    · rw [tryValues_cons_none _ _ _ _ _ _ htr] at heq
      exact absurd heq (by simp)
    · obtain ⟨st2, flag⟩ := res
      cases flag
      · rw [tryValues_cons_failed _ _ _ _ _ _ _ htr] at heq
        exact ih ⟨stc.board, stc.cands, st2.steps⟩ hb hc
          (fun x hx => hsub (List.mem_cons_of_mem _ hx)) heq
      · rw [tryValues_cons_success _ _ _ _ _ _ _ htr] at heq
        have he2 : st2 = st1 := congrArg Prod.fst (Option.some_injective _ heq)
        subst he2
        exact hrec _ _ hItrial htr

theorem swb_sound : ∀ (fuel : ℕ) (st st1 : SolverState), StInv st →
    swb fuel st = some (st1, true) → StInv st1 ∧ isComplete st1.board = true := by
  intro fuel
  induction fuel with
  | zero =>
    intro st st1 _ heq
    exact absurd heq (by rw [show swb 0 st = none from rfl]; simp)
  | succ n ih =>
    intro st st1 hI heq
    rw [swb_succ] at heq
    have hI1 : StInv (constraintPropagation st) := constraintPropagation_stinv st hI
    rcases hm : mrvScan (constraintPropagation st) allCells 10 none with _ | bo
    · rw [swbBranch_none _ _ hm] at heq
      have h2 : false = true := congrArg Prod.snd (Option.some_injective _ heq)
      exact absurd h2 (by simp)
    · rcases bo with _ | q
      · rw [swbBranch_solved _ _ hm] at heq
        injection heq with heq2
        injection heq2 with he hf
        subst he
        refine ⟨hI1, isComplete_of_no_zero ?_⟩
        intro p hp
        exact mrvScan_some_none (constraintPropagation st) allCells 10
          (fun x _ _ => lt_of_le_of_lt (tidy_len_le hI1.2 x.1 x.2) (by omega))
          hm p hp
      · have hm' : mrvScan (constraintPropagation st) allCells 10 none
            = some (some (q.1, q.2)) := by
          rw [Prod.mk.eta]
          exact hm
        rw [swbBranch_best _ _ q.1 q.2 hm'] at heq
        have hq : (q ∈ allCells ∧
            (constraintPropagation st).board.get q.1 q.2 = 0 ∧
            (constraintPropagation st).cands.get q.1 q.2 ≠ []) ∨
            (none : Option (Fin 9 × Fin 9)) = some q :=
          mrvScan_some_some _ allCells 10 none q hm
        rcases hq with ⟨_, hq0, _⟩ | hq
        · exact tryValues_sound n q.1 q.2 (constraintPropagation st) st1 ih hI1 hq0
            _ _ rfl rfl (fun x hx => hx) heq
        · exact absurd hq (by simp)

/-! ### Completeness of the backtracking search -/

theorem tryValues_success {sol : Board} (hsol : IsSolution sol) (n : ℕ) (r c : Fin 9)
    (stp : SolverState)
    (hrec : ∀ st : SolverState, StInv st → StCompat sol st →
      countZeros st.board < n → ∃ st', swb n st = some (st', true))
    (hI : StInv stp) (hC : StCompat sol stp) (h0 : stp.board.get r c = 0)
    (hcnt : countZeros stp.board ≤ n) :
    ∀ (l : List ℤ) (stc : SolverState), stc.board = stp.board → stc.cands = stp.cands →
      l ⊆ stp.cands.get r c → sol.get r c ∈ l →
      ∃ st1, tryValues (swb n) r c stc l = some (st1, true) := by
  intro l
  induction l with
  | nil =>
    intro stc _ _ _ hvin
    exact absurd hvin (List.not_mem_nil _)
  | cons v rest ih =>
    intro stc hb hc hsub hvin
    have hv : v ∈ stp.cands.get r c := hsub (List.mem_cons_self _ _)
    have hvd : v ∈ digits := hI.2.1 r c v hv
    have hIc : StInv stc := stinv_iff_components hb hc hI
    have hCc : StCompat sol stc := stcompat_iff_components hb hc hC
    have h0c : stc.board.get r c = 0 := by
      rw [hb]
      exact h0
    have hvc : v ∈ stc.cands.get r c := by
      rw [hc]
      exact hv
    have hItrial : StInv (setCellValue stc r c v) :=
      ⟨assign_inv stc r c v hIc.1 h0c hvc hvd, assign_tidy _ _ _ _ hIc.2⟩
    have hcnt' : countZeros (setCellValue stc r c v).board < n := by
      have h1 := countZeros_scv_lt stc r c v h0c hvd
      have h2 : countZeros stc.board = countZeros stp.board := by rw [hb]
      omega
    have htotal := swb_isSome n (setCellValue stc r c v) hItrial.2 hcnt'
    obtain ⟨res, hres⟩ := Option.isSome_iff_exists.mp htotal
    obtain ⟨st2, flag⟩ := res
    cases flag
    · by_cases hveq : v = sol.get r c
      · exfalso
        have hnz : sol.get r c ≠ 0 := digit_ne_zero (hveq ▸ hvd)
        have hCtrial : StCompat sol (setCellValue stc r c v) := by
          rw [hveq]
          exact assign_compat hsol stc r c hnz hCc
        obtain ⟨st', hst'⟩ := hrec (setCellValue stc r c v) hItrial hCtrial hcnt'
        rw [hres] at hst'
        exact absurd (congrArg Prod.snd (Option.some_injective _ hst')) (by simp)
      · have hvin' : sol.get r c ∈ rest := by
          rcases List.mem_cons.mp hvin with he | he
          · exact absurd he.symm hveq
          · exact he
        rw [tryValues_cons_failed _ _ _ _ _ _ _ hres]
        exact ih ⟨stc.board, stc.cands, st2.steps⟩ hb hc
          (fun x hx => hsub (List.mem_cons_of_mem _ hx)) hvin'
    · exact ⟨st2, tryValues_cons_success _ _ _ _ _ _ _ hres⟩

theorem swb_success {sol : Board} (hsol : IsSolution sol) :
    ∀ (fuel : ℕ) (st : SolverState), StInv st → StCompat sol st →
      countZeros st.board < fuel → ∃ st1, swb fuel st = some (st1, true) := by
  intro fuel
  induction fuel with
  | zero =>
    intro st _ _ h
    omega
  | succ n ih =>
    intro st hI hC hcnt
    have hprop := constraintPropagation_compat hsol st ⟨hI, hC⟩
    have ht9 := constraintPropagation_t9 (countZeros st.board) st ⟨hI.2, le_refl _⟩
    rcases hm : mrvScan (constraintPropagation st) allCells 10 none with _ | bo
    · exfalso
      obtain ⟨p, _, hp0, hplen⟩ := mrvScan_none _ allCells 10 none hm
      have hmem := hprop.2.2 p.1 p.2 hp0
      rw [List.length_eq_zero.mp hplen] at hmem
      exact absurd hmem (List.not_mem_nil _)
    · rcases bo with _ | q
      · refine ⟨constraintPropagation st, ?_⟩
        rw [swb_succ, swbBranch_solved _ _ hm]
      · have hm' : mrvScan (constraintPropagation st) allCells 10 none
            = some (some (q.1, q.2)) := by
          rw [Prod.mk.eta]
          exact hm
        have hq : (q ∈ allCells ∧
            (constraintPropagation st).board.get q.1 q.2 = 0 ∧
            (constraintPropagation st).cands.get q.1 q.2 ≠ []) ∨
            (none : Option (Fin 9 × Fin 9)) = some q :=
          mrvScan_some_some _ allCells 10 none q hm
        rcases hq with ⟨_, hq0, _⟩ | hq
        · have hvm : sol.get q.1 q.2 ∈ (constraintPropagation st).cands.get q.1 q.2 :=
            hprop.2.2 q.1 q.2 hq0
          obtain ⟨st1, hst1⟩ := tryValues_success hsol n q.1 q.2
            (constraintPropagation st) ih hprop.1 hprop.2 hq0 (by omega) _ _ rfl rfl
            (fun x hx => hx) hvm
          refine ⟨st1, ?_⟩
          rw [swb_succ, swbBranch_best _ _ q.1 q.2 hm']
          exact hst1
        · exact absurd hq (by simp)


/-! ### From a complete invariant state to a solved board -/

theorem complete_nonzero {b : Board} (hc : isComplete b = true) (r c : Fin 9) :
    b.get r c ≠ 0 := by
  unfold isComplete at hc
  exact of_decide_eq_true (List.all_eq_true.mp hc (r, c) (mem_allCells _))

theorem unit_perm_digits {l : List ℤ} (hlen : l.length = 9) (hnd : l.Nodup)
    (hsub : l ⊆ digits) : List.Perm l digits := by
  refine (hnd.subperm hsub).perm_of_length_le ?_
  rw [hlen]
  rfl

theorem complete_inv_isSolution {b : Board} {cs : Cands} (hI : Inv b cs)
    (hc : isComplete b = true) : IsSolution b := by
  obtain ⟨hbr, hnc, _, _⟩ := hI
  have hmem : ∀ r c : Fin 9, b.get r c ∈ digits := by
    intro r c
    have h1 := hbr r c
    have h2 := complete_nonzero hc r c
    rw [mem_digits]
    omega
  refine ⟨?_, ?_, ?_⟩
  · intro r
    apply unit_perm_digits
    · rw [show rowVals b r = cols9.map fun c => b.get r c from rfl, List.length_map]
      rfl
    · apply List.Nodup.map_on ?_ cols9_nodup
      intro c1 _ c2 _ hf
      by_contra hne
      exact (hnc r c1 r c2 ⟨fun hx => hne hx.2, Or.inl rfl⟩
        (complete_nonzero hc r c1)) hf
    · intro v hv
      obtain ⟨c, _, hcv⟩ := List.mem_map.mp hv
      rw [← hcv]
      exact hmem r c
  · intro c
    apply unit_perm_digits
    · rw [show colVals b c = cols9.map fun r => b.get r c from rfl, List.length_map]
      rfl
    · apply List.Nodup.map_on ?_ cols9_nodup
      intro r1 _ r2 _ hf
      by_contra hne
      exact (hnc r1 c r2 c ⟨fun hx => hne hx.1, Or.inr (Or.inl rfl)⟩
        (complete_nonzero hc r1 c)) hf
    · intro v hv
      obtain ⟨r, _, hrv⟩ := List.mem_map.mp hv
      rw [← hrv]
      exact hmem r c
  · intro br bc
    apply unit_perm_digits
    · rw [show boxVals b br bc = (boxCells br bc).map fun p => b.get p.1 p.2 from rfl,
        List.length_map]
      revert br bc
      decide
    · apply List.Nodup.map_on ?_ (boxCells_nodup br bc)
      intro p1 hp1 p2 hp2 hf
      by_contra hne
      have hcne : ¬(p1.1 = p2.1 ∧ p1.2 = p2.2) := by
        rintro ⟨e1, e2⟩
        exact hne (Prod.ext e1 e2)
      exact (hnc p1.1 p1.2 p2.1 p2.2 ⟨hcne, sameUnit_of_same_box hp1 hp2⟩
        (complete_nonzero hc p1.1 p1.2)) hf
    · intro v hv
      obtain ⟨p, _, hpv⟩ := List.mem_map.mp hv
      rw [← hpv]
      exact hmem p.1 p.2

/-! ### solve: main correctness -/

theorem init_stinv (b : Board) (hv : isValidBoard b = true) :
    StInv (initializeCandidates b) := by
  constructor
  · show Inv (initializeCandidates b).board (initializeCandidates b).cands
    rw [initializeCandidates_board]
    exact init_inv b hv
  · exact init_tidy b

theorem init_stcompat {sol : Board} (b : Board) (hsol : IsSolution sol)
    (hext : Extends b sol) : StCompat sol (initializeCandidates b) := by
  show Compat sol (initializeCandidates b).board (initializeCandidates b).cands
  rw [initializeCandidates_board]
  exact init_compat b hsol hext

theorem solve_success (b : Board) (hv : isValidBoard b = true) (sol : Board)
    (hsol : IsSolution sol) (hext : Extends b sol) :
    ∃ st1 : SolverState, swb 82 (initializeCandidates b) = some (st1, true) ∧
      solve b = (⟨true, some st1.steps, none⟩, st1.board) ∧
      isComplete st1.board = true ∧ IsSolution st1.board := by
  have hI0 := init_stinv b hv
  have hC0 := init_stcompat b hsol hext
  have hcnt : countZeros (initializeCandidates b).board < 82 := by
    have := countZeros_le_81 (initializeCandidates b).board
    omega
  obtain ⟨st1, hswb⟩ := swb_success hsol 82 (initializeCandidates b) hI0 hC0 hcnt
  obtain ⟨hI1, hcomp⟩ := swb_sound 82 (initializeCandidates b) st1 hI0 hswb
  have hvb : isValidBoard (initializeCandidates b).board = true := by
    rw [initializeCandidates_board]
    exact hv
  refine ⟨st1, hswb, ?_, hcomp, complete_inv_isSolution hI1.1 hcomp⟩
  show solveCore (initializeCandidates b) = _
  rw [solveCore_of_swb _ _ _ hvb hswb, if_pos rfl]


/-! ### The trace only grows -/

theorem steps_trans {s1 s2 s3 : List TraceEntry} (h1 : ∃ t, s2 = s1 ++ t)
    (h2 : ∃ t, s3 = s2 ++ t) : ∃ t, s3 = s1 ++ t := by
  obtain ⟨t1, ht1⟩ := h1
  obtain ⟨t2, ht2⟩ := h2
  exact ⟨t1 ++ t2, by rw [ht2, ht1, List.append_assoc]⟩

theorem elimAt_steps (acc : SolverState × Bool) (r c : Fin 9) (value : ℤ) :
    (elimAt acc r c value).1.steps = acc.1.steps := by
  by_cases h : value ∈ acc.1.cands.get r c
  · rw [elimAt_eq_hit acc r c value h]
  · rw [elimAt_eq_miss acc r c value h]

theorem nakedStep_steps (acc : SolverState × Bool) (p : Fin 9 × Fin 9) :
    ∃ t, (nakedStep acc p).1.steps = acc.1.steps ++ t := by
  by_cases hc : acc.1.board.get p.1 p.2 = 0 ∧ (acc.1.cands.get p.1 p.2).length = 1
  · rw [nakedStep_eq_assign acc p hc]
    exact ⟨_, by rw [show (setCellValue acc.1 p.1 p.2 _).steps = acc.1.steps
      from setCellValue_steps _ _ _ _]⟩
  · rw [nakedStep_eq_skip acc p hc]
    exact ⟨[], (List.append_nil _).symm⟩

theorem hiddenRowStep_steps (acc : SolverState × Bool) (rv : Fin 9 × ℤ) :
    ∃ t, (hiddenRowStep acc rv).1.steps = acc.1.steps ++ t := by
  rcases hpc : (cols9.filter fun c =>
      decide (acc.1.board.get rv.1 c = 0 ∧ rv.2 ∈ acc.1.cands.get rv.1 c))
      with _ | ⟨col, _ | ⟨c2, t2⟩⟩
  · rw [hiddenRowStep_eq_nil acc rv hpc]
    exact ⟨[], (List.append_nil _).symm⟩
  · rw [hiddenRowStep_eq_single acc rv col hpc]
    exact ⟨_, by rw [show (setCellValue acc.1 rv.1 col rv.2).steps = acc.1.steps
      from setCellValue_steps _ _ _ _]⟩
  · rw [hiddenRowStep_eq_multi acc rv col c2 t2 hpc]
    exact ⟨[], (List.append_nil _).symm⟩

theorem hiddenColStep_steps (acc : SolverState × Bool) (cv : Fin 9 × ℤ) :
    ∃ t, (hiddenColStep acc cv).1.steps = acc.1.steps ++ t := by
  rcases hpc : (cols9.filter fun r =>
      decide (acc.1.board.get r cv.1 = 0 ∧ cv.2 ∈ acc.1.cands.get r cv.1))
      with _ | ⟨row, _ | ⟨r2, t2⟩⟩
  · rw [hiddenColStep_eq_nil acc cv hpc]
    exact ⟨[], (List.append_nil _).symm⟩
  · rw [hiddenColStep_eq_single acc cv row hpc]
    exact ⟨_, by rw [show (setCellValue acc.1 row cv.1 cv.2).steps = acc.1.steps
      from setCellValue_steps _ _ _ _]⟩
  · rw [hiddenColStep_eq_multi acc cv row r2 t2 hpc]
    exact ⟨[], (List.append_nil _).symm⟩

theorem hiddenBoxStep_steps (acc : SolverState × Bool) (bv : Fin 3 × Fin 3 × ℤ) :
    ∃ t, (hiddenBoxStep acc bv).1.steps = acc.1.steps ++ t := by
  rcases hpc : ((boxCells bv.1 bv.2.1).filter fun q =>
      decide (acc.1.board.get q.1 q.2 = 0 ∧ bv.2.2 ∈ acc.1.cands.get q.1 q.2))
      with _ | ⟨p, _ | ⟨p2, t2⟩⟩
  · rw [hiddenBoxStep_eq_nil acc bv hpc]
    exact ⟨[], (List.append_nil _).symm⟩
  · rw [hiddenBoxStep_eq_single acc bv p hpc]
    exact ⟨_, by rw [show (setCellValue acc.1 p.1 p.2 bv.2.2).steps = acc.1.steps
      from setCellValue_steps _ _ _ _]⟩
  · rw [hiddenBoxStep_eq_multi acc bv p p2 t2 hpc]
    exact ⟨[], (List.append_nil _).symm⟩

theorem pointingStep_steps (acc : SolverState × Bool) (bv : Fin 3 × Fin 3 × ℤ) :
    ∃ t, (pointingStep acc bv).1.steps = acc.1.steps ++ t := by
  have := pointingStep_P (fun s : SolverState => ∃ t, s.steps = acc.1.steps ++ t) acc bv
    (fun a r c ha => by
      show ∃ t, (elimAt a r c bv.2.2).1.steps = acc.1.steps ++ t
      rw [elimAt_steps]
      exact ha)
    ⟨[], (List.append_nil _).symm⟩
  exact this

theorem boxLineRowStep_steps (acc : SolverState × Bool) (rv : Fin 9 × ℤ) :
    ∃ t, (boxLineRowStep acc rv).1.steps = acc.1.steps ++ t :=
  boxLineRowStep_P (fun s : SolverState => ∃ t, s.steps = acc.1.steps ++ t) acc rv
    (fun a r c ha => by
      show ∃ t, (elimAt a r c rv.2).1.steps = acc.1.steps ++ t
      rw [elimAt_steps]
      exact ha)
    ⟨[], (List.append_nil _).symm⟩

theorem boxLineColStep_steps (acc : SolverState × Bool) (cv : Fin 9 × ℤ) :
    ∃ t, (boxLineColStep acc cv).1.steps = acc.1.steps ++ t :=
  boxLineColStep_P (fun s : SolverState => ∃ t, s.steps = acc.1.steps ++ t) acc cv
    (fun a r c ha => by
      show ∃ t, (elimAt a r c cv.2).1.steps = acc.1.steps ++ t
      rw [elimAt_steps]
      exact ha)
    ⟨[], (List.append_nil _).symm⟩

theorem foldl_steps {ι : Type} (f : SolverState × Bool → ι → SolverState × Bool)
    (hf : ∀ (a : SolverState × Bool) (i : ι), ∃ t, (f a i).1.steps = a.1.steps ++ t) :
    ∀ (L : List ι) (a : SolverState × Bool),
      ∃ t, ((L.foldl f a)).1.steps = a.1.steps ++ t := by
  intro L
  induction L with
  | nil =>
    intro a
    exact ⟨[], (List.append_nil _).symm⟩
  | cons i L ih =>
    intro a
    exact steps_trans (hf a i) (ih (f a i))

theorem solveNakedSingles_steps (st : SolverState) :
    ∃ t, (solveNakedSingles st).1.steps = st.steps ++ t := by
  unfold solveNakedSingles
  exact foldl_steps nakedStep nakedStep_steps allCells (st, false)

theorem solveHiddenSingles_steps (st : SolverState) :
    ∃ t, (solveHiddenSingles st).1.steps = st.steps ++ t := by
  unfold solveHiddenSingles hiddenSinglesBoxes hiddenSinglesCols hiddenSinglesRows
  exact steps_trans
    (steps_trans (foldl_steps hiddenRowStep hiddenRowStep_steps rowValuePairs (st, false))
      (foldl_steps hiddenColStep hiddenColStep_steps rowValuePairs _))
    (foldl_steps hiddenBoxStep hiddenBoxStep_steps boxValueTriples _)

theorem solvePointingPairs_steps (st : SolverState) :
    ∃ t, (solvePointingPairs st).1.steps = st.steps ++ t := by
  unfold solvePointingPairs
  exact foldl_steps pointingStep pointingStep_steps boxValueTriples (st, false)

theorem solveBoxLineReduction_steps (st : SolverState) :
    ∃ t, (solveBoxLineReduction st).1.steps = st.steps ++ t := by
  unfold solveBoxLineReduction boxLineCols boxLineRows
  exact steps_trans
    (foldl_steps boxLineRowStep boxLineRowStep_steps rowValuePairs (st, false))
    (foldl_steps boxLineColStep boxLineColStep_steps rowValuePairs _)

theorem propagateOnce_steps (st : SolverState) :
    ∃ t, (propagateOnce st).1.steps = st.steps ++ t := by
  rw [propagateOnce_fst]
  exact steps_trans
    (steps_trans
      (steps_trans (solveNakedSingles_steps st) (solveHiddenSingles_steps _))
      (solvePointingPairs_steps _))
    (solveBoxLineReduction_steps _)

theorem propagateLoop_steps : ∀ (fuel : ℕ) (st : SolverState),
    ∃ t, (propagateLoop fuel st).steps = st.steps ++ t := by
  intro fuel
  induction fuel with
  | zero =>
    intro st
    exact ⟨[], (List.append_nil _).symm⟩
  | succ n ih =>
    intro st
    rw [propagateLoop_succ]
    by_cases hb : (propagateOnce st).2 = true
    · rw [if_pos hb]
      exact steps_trans (propagateOnce_steps st) (ih _)
    · rw [if_neg hb]
      exact propagateOnce_steps st

theorem constraintPropagation_steps (st : SolverState) :
    ∃ t, (constraintPropagation st).steps = st.steps ++ t :=
  propagateLoop_steps 730 st

theorem tryValues_steps (n : ℕ) (r c : Fin 9)
    (hrec : ∀ (st st1 : SolverState) (flag : Bool), swb n st = some (st1, flag) →
      ∃ t, st1.steps = st.steps ++ t) :
    ∀ (l : List ℤ) (stc st1 : SolverState) (flag : Bool),
      tryValues (swb n) r c stc l = some (st1, flag) →
      ∃ t, st1.steps = stc.steps ++ t := by
  intro l
  induction l with
  | nil =>
    intro stc st1 flag heq
    rw [tryValues_nil] at heq
    injection heq with heq2
    injection heq2 with he hf
    subst he
    exact ⟨[], (List.append_nil _).symm⟩
  | cons v rest ih =>
    intro stc st1 flag heq
    rcases htr : swb n (setCellValue stc r c v) with _ | res
    · rw [tryValues_cons_none _ _ _ _ _ _ htr] at heq
      exact absurd heq (by simp)
    · obtain ⟨st2, flag2⟩ := res
      have hst2 : ∃ t, st2.steps = stc.steps ++ t := by
        have h1 := hrec _ _ _ htr
        rw [setCellValue_steps] at h1
        exact h1
      cases flag2
      · rw [tryValues_cons_failed _ _ _ _ _ _ _ htr] at heq
        exact ih ⟨stc.board, stc.cands, st2.steps⟩ st1 flag heq |> steps_trans hst2
      · rw [tryValues_cons_success _ _ _ _ _ _ _ htr] at heq
        injection heq with heq2
        injection heq2 with he hf
        subst he
        exact hst2

theorem swb_steps : ∀ (fuel : ℕ) (st st1 : SolverState) (flag : Bool),
    swb fuel st = some (st1, flag) → ∃ t, st1.steps = st.steps ++ t := by
  intro fuel
  induction fuel with
  | zero =>
    intro st st1 flag heq
    exact absurd heq (by rw [show swb 0 st = none from rfl]; simp)
  | succ n ih =>
    intro st st1 flag heq
    rw [swb_succ] at heq
    have hcp := constraintPropagation_steps st
    rcases hm : mrvScan (constraintPropagation st) allCells 10 none with _ | bo
    · rw [swbBranch_none _ _ hm] at heq
      simp only [Option.some.injEq, Prod.mk.injEq] at heq
      rw [← heq.1]
      exact hcp
    · rcases bo with _ | q
      · rw [swbBranch_solved _ _ hm] at heq
        simp only [Option.some.injEq, Prod.mk.injEq] at heq
        rw [← heq.1]
        exact hcp
      · have hm' : mrvScan (constraintPropagation st) allCells 10 none
            = some (some (q.1, q.2)) := by
          rw [Prod.mk.eta]
          exact hm
        rw [swbBranch_best _ _ q.1 q.2 hm'] at heq
        exact steps_trans hcp (tryValues_steps n q.1 q.2 ih _ _ _ _ heq)


/-! ### Staged concrete evaluations -/

theorem ev_e2 : List.foldl initStep ⟨exampleBoard, Mathlib.Vector.replicate 9 (Mathlib.Vector.replicate 9 digits), ([] : List TraceEntry)⟩ ([(0, 0), (0, 1), (0, 2), (0, 3), (0, 4), (0, 5), (0, 6), (0, 7), (0, 8), (1, 0), (1, 1), (1, 2), (1, 3), (1, 4), (1, 5)] : List (Fin 9 × Fin 9)) = ev_S1 := by decide!

theorem ev_e4 : List.foldl initStep ev_S1 ([(1, 6), (1, 7), (1, 8), (2, 0), (2, 1), (2, 2), (2, 3), (2, 4), (2, 5), (2, 6), (2, 7), (2, 8), (3, 0), (3, 1)] : List (Fin 9 × Fin 9)) = ev_S3 := by decide!

theorem ev_e6 : List.foldl initStep ev_S3 ([(3, 2), (3, 3), (3, 4), (3, 5), (3, 6), (3, 7), (3, 8), (4, 0), (4, 1), (4, 2), (4, 3), (4, 4), (4, 5), (4, 6)] : List (Fin 9 × Fin 9)) = ev_S5 := by decide!

theorem ev_e8 : List.foldl initStep ev_S5 ([(4, 7), (4, 8), (5, 0), (5, 1), (5, 2), (5, 3), (5, 4), (5, 5), (5, 6), (5, 7), (5, 8), (6, 0), (6, 1), (6, 2)] : List (Fin 9 × Fin 9)) = ev_S7 := by decide!

theorem ev_e10 : List.foldl initStep ev_S7 ([(6, 3), (6, 4), (6, 5), (6, 6), (6, 7), (6, 8), (7, 0), (7, 1), (7, 2), (7, 3), (7, 4), (7, 5), (7, 6), (7, 7)] : List (Fin 9 × Fin 9)) = ev_S9 := by decide!

theorem ev_e12 : List.foldl initStep ev_S9 ([(7, 8), (8, 0), (8, 1), (8, 2), (8, 3), (8, 4), (8, 5), (8, 6), (8, 7), (8, 8)] : List (Fin 9 × Fin 9)) = ev_S11 := by decide!

theorem ev_e13 : initializeCandidates exampleBoard = ev_S11 := by
  simp only [initializeCandidates]
  rw [show allCells = ([(0, 0), (0, 1), (0, 2), (0, 3), (0, 4), (0, 5), (0, 6), (0, 7), (0, 8), (1, 0), (1, 1), (1, 2), (1, 3), (1, 4), (1, 5)] : List (Fin 9 × Fin 9)) ++ ([(1, 6), (1, 7), (1, 8), (2, 0), (2, 1), (2, 2), (2, 3), (2, 4), (2, 5), (2, 6), (2, 7), (2, 8), (3, 0), (3, 1)] : List (Fin 9 × Fin 9)) ++ ([(3, 2), (3, 3), (3, 4), (3, 5), (3, 6), (3, 7), (3, 8), (4, 0), (4, 1), (4, 2), (4, 3), (4, 4), (4, 5), (4, 6)] : List (Fin 9 × Fin 9)) ++ ([(4, 7), (4, 8), (5, 0), (5, 1), (5, 2), (5, 3), (5, 4), (5, 5), (5, 6), (5, 7), (5, 8), (6, 0), (6, 1), (6, 2)] : List (Fin 9 × Fin 9)) ++ ([(6, 3), (6, 4), (6, 5), (6, 6), (6, 7), (6, 8), (7, 0), (7, 1), (7, 2), (7, 3), (7, 4), (7, 5), (7, 6), (7, 7)] : List (Fin 9 × Fin 9)) ++ ([(7, 8), (8, 0), (8, 1), (8, 2), (8, 3), (8, 4), (8, 5), (8, 6), (8, 7), (8, 8)] : List (Fin 9 × Fin 9)) from by decide!]
  rw [List.foldl_append, List.foldl_append, List.foldl_append, List.foldl_append, List.foldl_append]
  rw [ev_e2, ev_e4, ev_e6, ev_e8, ev_e10, ev_e12]

theorem ev_e14 : isValidBoard ev_S11.board = true := by decide!

theorem ev_e16 : solveNakedSingles ev_S11 = (ev_S15, true) := by decide!

theorem ev_e17 : hiddenSinglesRows (ev_S15, false) = (ev_S15, false) := by decide!

theorem ev_e18 : hiddenSinglesCols (ev_S15, false) = (ev_S15, false) := by decide!

theorem ev_e19 : hiddenSinglesBoxes (ev_S15, false) = (ev_S15, false) := by decide!

theorem ev_e20 : solveHiddenSingles ev_S15 = (ev_S15, false) := by   simp only [solveHiddenSingles, ev_e17, ev_e18, ev_e19]

theorem ev_e21 : solvePointingPairs ev_S15 = (ev_S15, false) := by decide!

theorem ev_e22 : boxLineRows (ev_S15, false) = (ev_S15, false) := by decide!

theorem ev_e23 : boxLineCols (ev_S15, false) = (ev_S15, false) := by decide!

theorem ev_e24 : solveBoxLineReduction ev_S15 = (ev_S15, false) := by   simp only [solveBoxLineReduction, ev_e22, ev_e23]

theorem ev_e25 : propagateOnce ev_S11 = (ev_S15, true) := by   simp only [propagateOnce, ev_e16, ev_e20, ev_e21, ev_e24, Bool.or_true, Bool.true_or, Bool.or_false, Bool.false_or, Bool.or_self]

theorem ev_e26 : solveNakedSingles ev_S15 = (ev_S15, false) := by decide!

theorem ev_e27 : propagateOnce ev_S15 = (ev_S15, false) := by   simp only [propagateOnce, ev_e26, ev_e20, ev_e21, ev_e24, Bool.or_true, Bool.true_or, Bool.or_false, Bool.false_or, Bool.or_self]

theorem ev_e28 : propagateLoop 729 ev_S15 = ev_S15 := by   rw [show (729 : ℕ) = 728 + 1 from rfl, propagateLoop_succ, ev_e27, ite_pair_false, pair_fst]

theorem ev_e29 : propagateLoop 730 ev_S11 = ev_S15 := by
  rw [show (730 : ℕ) = 729 + 1 from rfl, propagateLoop_succ, ev_e25, ite_pair_true, pair_fst]
  exact ev_e28

theorem ev_e30 : constraintPropagation ev_S11 = ev_S15 := by
  simp only [constraintPropagation]
  exact ev_e29

theorem ev_e31 : mrvScan ev_S15 allCells 10 none = some none := by decide!

theorem ev_e32 : swb 82 ev_S11 = some (ev_S15, true) := by   rw [show (82 : ℕ) = 81 + 1 from rfl, swb_succ, ev_e30, swbBranch_solved (swb 81) ev_S15 ev_e31]

theorem ev_e33 : solve exampleBoard = (⟨true, some ([⟨"Naked Single", 0, 0, 1, "Only possible value for cell (1, 1)"⟩] : List TraceEntry), none⟩, mkGrid9 (0 : ℤ) [[1, 2, 3, 4, 5, 6, 7, 8, 9], [4, 5, 6, 7, 8, 9, 1, 2, 3], [7, 8, 9, 1, 2, 3, 4, 5, 6], [2, 3, 4, 5, 6, 7, 8, 9, 1], [5, 6, 7, 8, 9, 1, 2, 3, 4], [8, 9, 1, 2, 3, 4, 5, 6, 7], [3, 4, 5, 6, 7, 8, 9, 1, 2], [6, 7, 8, 9, 1, 2, 3, 4, 5], [9, 1, 2, 3, 4, 5, 6, 7, 8]]) := by
  rw [show solve exampleBoard = solveCore (initializeCandidates exampleBoard) from rfl, ev_e13,
    solveCore_of_swb ev_S11 ev_S15 true ev_e14 ev_e32]
  decide!

theorem ev_e35 : List.foldl initStep ⟨hintBugBoard, Mathlib.Vector.replicate 9 (Mathlib.Vector.replicate 9 digits), ([] : List TraceEntry)⟩ ([(0, 0), (0, 1), (0, 2), (0, 3), (0, 4), (0, 5), (0, 6), (0, 7), (0, 8), (1, 0), (1, 1), (1, 2), (1, 3), (1, 4), (1, 5), (1, 6)] : List (Fin 9 × Fin 9)) = ev_S34 := by decide!

theorem ev_e37 : List.foldl initStep ev_S34 ([(1, 7), (1, 8), (2, 0), (2, 1), (2, 2), (2, 3), (2, 4), (2, 5), (2, 6), (2, 7), (2, 8), (3, 0), (3, 1), (3, 2), (3, 3), (3, 4)] : List (Fin 9 × Fin 9)) = ev_S36 := by decide!

theorem ev_e39 : List.foldl initStep ev_S36 ([(3, 5), (3, 6), (3, 7), (3, 8), (4, 0), (4, 1), (4, 2), (4, 3), (4, 4), (4, 5), (4, 6), (4, 7), (4, 8), (5, 0)] : List (Fin 9 × Fin 9)) = ev_S38 := by decide!

theorem ev_e41 : List.foldl initStep ev_S38 ([(5, 1), (5, 2), (5, 3), (5, 4), (5, 5), (5, 6), (5, 7), (5, 8), (6, 0), (6, 1), (6, 2), (6, 3), (6, 4), (6, 5)] : List (Fin 9 × Fin 9)) = ev_S40 := by decide!

theorem ev_e43 : List.foldl initStep ev_S40 ([(6, 6), (6, 7), (6, 8), (7, 0), (7, 1), (7, 2), (7, 3), (7, 4), (7, 5), (7, 6), (7, 7), (7, 8), (8, 0), (8, 1)] : List (Fin 9 × Fin 9)) = ev_S42 := by decide!

theorem ev_e45 : List.foldl initStep ev_S42 ([(8, 2), (8, 3), (8, 4), (8, 5), (8, 6), (8, 7), (8, 8)] : List (Fin 9 × Fin 9)) = ev_S44 := by decide!

theorem ev_e46 : initializeCandidates hintBugBoard = ev_S44 := by
  simp only [initializeCandidates]
  rw [show allCells = ([(0, 0), (0, 1), (0, 2), (0, 3), (0, 4), (0, 5), (0, 6), (0, 7), (0, 8), (1, 0), (1, 1), (1, 2), (1, 3), (1, 4), (1, 5), (1, 6)] : List (Fin 9 × Fin 9)) ++ ([(1, 7), (1, 8), (2, 0), (2, 1), (2, 2), (2, 3), (2, 4), (2, 5), (2, 6), (2, 7), (2, 8), (3, 0), (3, 1), (3, 2), (3, 3), (3, 4)] : List (Fin 9 × Fin 9)) ++ ([(3, 5), (3, 6), (3, 7), (3, 8), (4, 0), (4, 1), (4, 2), (4, 3), (4, 4), (4, 5), (4, 6), (4, 7), (4, 8), (5, 0)] : List (Fin 9 × Fin 9)) ++ ([(5, 1), (5, 2), (5, 3), (5, 4), (5, 5), (5, 6), (5, 7), (5, 8), (6, 0), (6, 1), (6, 2), (6, 3), (6, 4), (6, 5)] : List (Fin 9 × Fin 9)) ++ ([(6, 6), (6, 7), (6, 8), (7, 0), (7, 1), (7, 2), (7, 3), (7, 4), (7, 5), (7, 6), (7, 7), (7, 8), (8, 0), (8, 1)] : List (Fin 9 × Fin 9)) ++ ([(8, 2), (8, 3), (8, 4), (8, 5), (8, 6), (8, 7), (8, 8)] : List (Fin 9 × Fin 9)) from by decide!]
  rw [List.foldl_append, List.foldl_append, List.foldl_append, List.foldl_append, List.foldl_append]
  rw [ev_e35, ev_e37, ev_e39, ev_e41, ev_e43, ev_e45]

theorem ev_e47 : solveNakedSingles ev_S44 = (ev_S44, false) := by decide!

theorem ev_e48 : hiddenSinglesRows (ev_S44, false) = (ev_S44, false) := by decide!

theorem ev_e49 : hiddenSinglesCols (ev_S44, false) = (ev_S44, false) := by decide!

theorem ev_e50 : hiddenSinglesBoxes (ev_S44, false) = (ev_S44, false) := by decide!

theorem ev_e51 : solveHiddenSingles ev_S44 = (ev_S44, false) := by   simp only [solveHiddenSingles, ev_e48, ev_e49, ev_e50]

theorem ev_e52 : isValidBoard ev_S44.board = true := by decide!

theorem ev_e53 : solvePointingPairs ev_S44 = (ev_S44, false) := by decide!

theorem ev_e54 : boxLineRows (ev_S44, false) = (ev_S44, false) := by decide!

theorem ev_e55 : boxLineCols (ev_S44, false) = (ev_S44, false) := by decide!

theorem ev_e56 : solveBoxLineReduction ev_S44 = (ev_S44, false) := by   simp only [solveBoxLineReduction, ev_e54, ev_e55]

theorem ev_e57 : propagateOnce ev_S44 = (ev_S44, false) := by   simp only [propagateOnce, ev_e47, ev_e51, ev_e53, ev_e56, Bool.or_true, Bool.true_or, Bool.or_false, Bool.false_or, Bool.or_self]

theorem ev_e58 : propagateLoop 730 ev_S44 = ev_S44 := by   rw [show (730 : ℕ) = 729 + 1 from rfl, propagateLoop_succ, ev_e57, ite_pair_false, pair_fst]

theorem ev_e59 : constraintPropagation ev_S44 = ev_S44 := by
  simp only [constraintPropagation]
  exact ev_e58

theorem ev_e60 : mrvScan ev_S44 allCells 10 none = some (some ((0, 3) : Fin 9 × Fin 9)) := by decide!

theorem ev_e61 : Grid.get ev_S44.cands 0 3 = ([6, 7] : List ℤ) := by decide!

theorem ev_e63 : setCellValue ev_S44 0 3 6 = ev_S62 := by decide!

theorem ev_e65 : solveNakedSingles ev_S62 = (ev_S64, true) := by decide!

theorem ev_e66 : hiddenSinglesRows (ev_S64, false) = (ev_S64, false) := by decide!

theorem ev_e67 : hiddenSinglesCols (ev_S64, false) = (ev_S64, false) := by decide!

theorem ev_e68 : hiddenSinglesBoxes (ev_S64, false) = (ev_S64, false) := by decide!

theorem ev_e69 : solveHiddenSingles ev_S64 = (ev_S64, false) := by   simp only [solveHiddenSingles, ev_e66, ev_e67, ev_e68]

theorem ev_e70 : solvePointingPairs ev_S64 = (ev_S64, false) := by decide!

theorem ev_e71 : boxLineRows (ev_S64, false) = (ev_S64, false) := by decide!

theorem ev_e72 : boxLineCols (ev_S64, false) = (ev_S64, false) := by decide!

theorem ev_e73 : solveBoxLineReduction ev_S64 = (ev_S64, false) := by   simp only [solveBoxLineReduction, ev_e71, ev_e72]

theorem ev_e74 : propagateOnce ev_S62 = (ev_S64, true) := by   simp only [propagateOnce, ev_e65, ev_e69, ev_e70, ev_e73, Bool.or_true, Bool.true_or, Bool.or_false, Bool.false_or, Bool.or_self]

theorem ev_e75 : solveNakedSingles ev_S64 = (ev_S64, false) := by decide!

theorem ev_e76 : propagateOnce ev_S64 = (ev_S64, false) := by   simp only [propagateOnce, ev_e75, ev_e69, ev_e70, ev_e73, Bool.or_true, Bool.true_or, Bool.or_false, Bool.false_or, Bool.or_self]

theorem ev_e77 : propagateLoop 729 ev_S64 = ev_S64 := by   rw [show (729 : ℕ) = 728 + 1 from rfl, propagateLoop_succ, ev_e76, ite_pair_false, pair_fst]

theorem ev_e78 : propagateLoop 730 ev_S62 = ev_S64 := by
  rw [show (730 : ℕ) = 729 + 1 from rfl, propagateLoop_succ, ev_e74, ite_pair_true, pair_fst]
  exact ev_e77

theorem ev_e79 : constraintPropagation ev_S62 = ev_S64 := by
  simp only [constraintPropagation]
  exact ev_e78

theorem ev_e80 : mrvScan ev_S64 allCells 10 none = some none := by decide!

theorem ev_e81 : swb 81 ev_S62 = some (ev_S64, true) := by   rw [show (81 : ℕ) = 80 + 1 from rfl, swb_succ, ev_e79, swbBranch_solved (swb 80) ev_S64 ev_e80]

theorem ev_e82 : tryValues (swb 81) 0 3 ev_S44 ([6, 7] : List ℤ) = some (ev_S64, true) := by   rw [tryValues_cons_success (swb 81) 0 3 ev_S44 6 ([7] : List ℤ) ev_S64 (by rw [ev_e63]; exact ev_e81)]

theorem ev_e83 : swb 82 ev_S44 = some (ev_S64, true) := by   rw [show (82 : ℕ) = 81 + 1 from rfl, swb_succ, ev_e59, swbBranch_best (swb 81) ev_S44 0 3 ev_e60, ev_e61, ev_e82]

theorem ev_e84 : solve hintBugBoard = (⟨true, some ([⟨"Naked Single", 0, 4, 7, "Only possible value for cell (1, 5)"⟩, ⟨"Naked Single", 3, 3, 7, "Only possible value for cell (4, 4)"⟩, ⟨"Naked Single", 3, 4, 6, "Only possible value for cell (4, 5)"⟩] : List TraceEntry), none⟩, mkGrid9 (0 : ℤ) [[5, 3, 4, 6, 7, 8, 9, 1, 2], [6, 7, 2, 1, 9, 5, 3, 4, 8], [1, 9, 8, 3, 4, 2, 5, 6, 7], [8, 5, 9, 7, 6, 1, 4, 2, 3], [4, 2, 6, 8, 5, 3, 7, 9, 1], [7, 1, 3, 9, 2, 4, 8, 5, 6], [9, 6, 1, 5, 3, 7, 2, 8, 4], [2, 8, 7, 4, 1, 9, 6, 3, 5], [3, 4, 5, 2, 8, 6, 1, 7, 9]]) := by
  rw [show solve hintBugBoard = solveCore (initializeCandidates hintBugBoard) from rfl, ev_e46,
    solveCore_of_swb ev_S44 ev_S64 true ev_e52 ev_e83]
  decide!

theorem ev_e85 : getIntelligentHint hintBugBoard = some (⟨0, 3, 0, "Logical Deduction", "Next logical step"⟩ : Hint) := by
  rw [show getIntelligentHint hintBugBoard = hintNakedCase hintBugBoard (solveNakedSingles (initializeCandidates (copyBoard hintBugBoard))) from rfl,
    show copyBoard hintBugBoard = hintBugBoard from rfl, ev_e46, ev_e47]
  rw [show hintNakedCase hintBugBoard (ev_S44, false) = hintHiddenCase hintBugBoard (solveHiddenSingles ev_S44) from rfl, ev_e51]
  rw [show hintHiddenCase hintBugBoard (ev_S44, false) = hintFallback hintBugBoard ev_S44.board (solve (copyBoard hintBugBoard)) from rfl,
    show copyBoard hintBugBoard = hintBugBoard from rfl, ev_e84]
  decide!

theorem ev_e87 : List.foldl initStep ⟨staleTraceBoard, Mathlib.Vector.replicate 9 (Mathlib.Vector.replicate 9 digits), ([] : List TraceEntry)⟩ ([(0, 0), (0, 1), (0, 2), (0, 3), (0, 4), (0, 5), (0, 6), (0, 7), (0, 8), (1, 0), (1, 1), (1, 2), (1, 3), (1, 4), (1, 5), (1, 6), (1, 7), (1, 8), (2, 0), (2, 1), (2, 2), (2, 3), (2, 4), (2, 5)] : List (Fin 9 × Fin 9)) = ev_S86 := by decide!

theorem ev_e89 : List.foldl initStep ev_S86 ([(2, 6), (2, 7), (2, 8), (3, 0), (3, 1), (3, 2), (3, 3), (3, 4), (3, 5), (3, 6), (3, 7), (3, 8), (4, 0), (4, 1), (4, 2), (4, 3), (4, 4), (4, 5), (4, 6), (4, 7), (4, 8), (5, 0)] : List (Fin 9 × Fin 9)) = ev_S88 := by decide!

theorem ev_e91 : List.foldl initStep ev_S88 ([(5, 1), (5, 2), (5, 3), (5, 4), (5, 5), (5, 6), (5, 7), (5, 8), (6, 0), (6, 1), (6, 2), (6, 3), (6, 4), (6, 5), (6, 6), (6, 7), (6, 8), (7, 0), (7, 1), (7, 2), (7, 3), (7, 4), (7, 5), (7, 6)] : List (Fin 9 × Fin 9)) = ev_S90 := by decide!

theorem ev_e93 : List.foldl initStep ev_S90 ([(7, 7), (7, 8), (8, 0), (8, 1), (8, 2), (8, 3), (8, 4), (8, 5), (8, 6), (8, 7), (8, 8)] : List (Fin 9 × Fin 9)) = ev_S92 := by decide!

theorem ev_e94 : initializeCandidates staleTraceBoard = ev_S92 := by
  simp only [initializeCandidates]
  rw [show allCells = ([(0, 0), (0, 1), (0, 2), (0, 3), (0, 4), (0, 5), (0, 6), (0, 7), (0, 8), (1, 0), (1, 1), (1, 2), (1, 3), (1, 4), (1, 5), (1, 6), (1, 7), (1, 8), (2, 0), (2, 1), (2, 2), (2, 3), (2, 4), (2, 5)] : List (Fin 9 × Fin 9)) ++ ([(2, 6), (2, 7), (2, 8), (3, 0), (3, 1), (3, 2), (3, 3), (3, 4), (3, 5), (3, 6), (3, 7), (3, 8), (4, 0), (4, 1), (4, 2), (4, 3), (4, 4), (4, 5), (4, 6), (4, 7), (4, 8), (5, 0)] : List (Fin 9 × Fin 9)) ++ ([(5, 1), (5, 2), (5, 3), (5, 4), (5, 5), (5, 6), (5, 7), (5, 8), (6, 0), (6, 1), (6, 2), (6, 3), (6, 4), (6, 5), (6, 6), (6, 7), (6, 8), (7, 0), (7, 1), (7, 2), (7, 3), (7, 4), (7, 5), (7, 6)] : List (Fin 9 × Fin 9)) ++ ([(7, 7), (7, 8), (8, 0), (8, 1), (8, 2), (8, 3), (8, 4), (8, 5), (8, 6), (8, 7), (8, 8)] : List (Fin 9 × Fin 9)) from by decide!]
  rw [List.foldl_append, List.foldl_append, List.foldl_append]
  rw [ev_e87, ev_e89, ev_e91, ev_e93]

theorem ev_e95 : isValidBoard ev_S92.board = true := by decide!

theorem ev_e98 : List.foldl nakedStep (ev_S92, false) ([(0, 0), (0, 1), (0, 2), (0, 3), (0, 4), (0, 5), (0, 6), (0, 7), (0, 8), (1, 0), (1, 1), (1, 2), (1, 3), (1, 4), (1, 5), (1, 6), (1, 7), (1, 8), (2, 0), (2, 1), (2, 2), (2, 3), (2, 4), (2, 5), (2, 6), (2, 7), (2, 8), (3, 0), (3, 1), (3, 2), (3, 3), (3, 4), (3, 5), (3, 6), (3, 7), (3, 8), (4, 0), (4, 1), (4, 2), (4, 3), (4, 4), (4, 5), (4, 6), (4, 7), (4, 8), (5, 0), (5, 1), (5, 2), (5, 3), (5, 4), (5, 5), (5, 6), (5, 7), (5, 8), (6, 0), (6, 1), (6, 2), (6, 3), (6, 4), (6, 5), (6, 6)] : List (Fin 9 × Fin 9)) = (ev_S97, true) := by decide!

theorem ev_e99 : List.foldl nakedStep (ev_S97, true) ([(6, 7), (6, 8), (7, 0), (7, 1), (7, 2), (7, 3), (7, 4), (7, 5), (7, 6), (7, 7), (7, 8), (8, 0), (8, 1), (8, 2), (8, 3), (8, 4), (8, 5), (8, 6), (8, 7), (8, 8)] : List (Fin 9 × Fin 9)) = (ev_S96, true) := by decide!

theorem ev_e100 : solveNakedSingles ev_S92 = (ev_S96, true) := by
  simp only [solveNakedSingles]
  rw [show allCells = ([(0, 0), (0, 1), (0, 2), (0, 3), (0, 4), (0, 5), (0, 6), (0, 7), (0, 8), (1, 0), (1, 1), (1, 2), (1, 3), (1, 4), (1, 5), (1, 6), (1, 7), (1, 8), (2, 0), (2, 1), (2, 2), (2, 3), (2, 4), (2, 5), (2, 6), (2, 7), (2, 8), (3, 0), (3, 1), (3, 2), (3, 3), (3, 4), (3, 5), (3, 6), (3, 7), (3, 8), (4, 0), (4, 1), (4, 2), (4, 3), (4, 4), (4, 5), (4, 6), (4, 7), (4, 8), (5, 0), (5, 1), (5, 2), (5, 3), (5, 4), (5, 5), (5, 6), (5, 7), (5, 8), (6, 0), (6, 1), (6, 2), (6, 3), (6, 4), (6, 5), (6, 6)] : List (Fin 9 × Fin 9)) ++ ([(6, 7), (6, 8), (7, 0), (7, 1), (7, 2), (7, 3), (7, 4), (7, 5), (7, 6), (7, 7), (7, 8), (8, 0), (8, 1), (8, 2), (8, 3), (8, 4), (8, 5), (8, 6), (8, 7), (8, 8)] : List (Fin 9 × Fin 9)) from by decide!]
  rw [List.foldl_append]
  rw [ev_e98, ev_e99]

theorem ev_e102 : hiddenSinglesRows (ev_S96, false) = (ev_S101, true) := by decide!

theorem ev_e104 : hiddenSinglesCols (ev_S101, true) = (ev_S103, true) := by decide!

theorem ev_e105 : hiddenSinglesBoxes (ev_S103, true) = (ev_S103, true) := by decide!

theorem ev_e106 : solveHiddenSingles ev_S96 = (ev_S103, true) := by   simp only [solveHiddenSingles, ev_e102, ev_e104, ev_e105]

theorem ev_e107 : solvePointingPairs ev_S103 = (ev_S103, false) := by decide!

theorem ev_e108 : boxLineRows (ev_S103, false) = (ev_S103, false) := by decide!

theorem ev_e109 : boxLineCols (ev_S103, false) = (ev_S103, false) := by decide!

theorem ev_e110 : solveBoxLineReduction ev_S103 = (ev_S103, false) := by   simp only [solveBoxLineReduction, ev_e108, ev_e109]

theorem ev_e111 : propagateOnce ev_S92 = (ev_S103, true) := by   simp only [propagateOnce, ev_e100, ev_e106, ev_e107, ev_e110, Bool.or_true, Bool.true_or, Bool.or_false, Bool.false_or, Bool.or_self]

theorem ev_e112 : solveNakedSingles ev_S103 = (ev_S103, false) := by decide!

theorem ev_e113 : hiddenSinglesRows (ev_S103, false) = (ev_S103, false) := by decide!

theorem ev_e114 : hiddenSinglesCols (ev_S103, false) = (ev_S103, false) := by decide!

theorem ev_e115 : hiddenSinglesBoxes (ev_S103, false) = (ev_S103, false) := by decide!

theorem ev_e116 : solveHiddenSingles ev_S103 = (ev_S103, false) := by   simp only [solveHiddenSingles, ev_e113, ev_e114, ev_e115]

theorem ev_e117 : propagateOnce ev_S103 = (ev_S103, false) := by   simp only [propagateOnce, ev_e112, ev_e116, ev_e107, ev_e110, Bool.or_true, Bool.true_or, Bool.or_false, Bool.false_or, Bool.or_self]

theorem ev_e118 : propagateLoop 729 ev_S103 = ev_S103 := by   rw [show (729 : ℕ) = 728 + 1 from rfl, propagateLoop_succ, ev_e117, ite_pair_false, pair_fst]

theorem ev_e119 : propagateLoop 730 ev_S92 = ev_S103 := by
  rw [show (730 : ℕ) = 729 + 1 from rfl, propagateLoop_succ, ev_e111, ite_pair_true, pair_fst]
  exact ev_e118

theorem ev_e120 : constraintPropagation ev_S92 = ev_S103 := by
  simp only [constraintPropagation]
  exact ev_e119

theorem ev_e121 : mrvScan ev_S103 allCells 10 none = some (some ((0, 3) : Fin 9 × Fin 9)) := by decide!

theorem ev_e122 : Grid.get ev_S103.cands 0 3 = ([2, 6] : List ℤ) := by decide!

theorem ev_e124 : setCellValue ev_S103 0 3 2 = ev_S123 := by decide!

theorem ev_e126 : solveNakedSingles ev_S123 = (ev_S125, true) := by decide!

theorem ev_e127 : hiddenSinglesRows (ev_S125, false) = (ev_S125, false) := by decide!

theorem ev_e128 : hiddenSinglesCols (ev_S125, false) = (ev_S125, false) := by decide!

theorem ev_e129 : hiddenSinglesBoxes (ev_S125, false) = (ev_S125, false) := by decide!

theorem ev_e130 : solveHiddenSingles ev_S125 = (ev_S125, false) := by   simp only [solveHiddenSingles, ev_e127, ev_e128, ev_e129]

theorem ev_e131 : solvePointingPairs ev_S125 = (ev_S125, false) := by decide!

theorem ev_e132 : boxLineRows (ev_S125, false) = (ev_S125, false) := by decide!

theorem ev_e133 : boxLineCols (ev_S125, false) = (ev_S125, false) := by decide!

theorem ev_e134 : solveBoxLineReduction ev_S125 = (ev_S125, false) := by   simp only [solveBoxLineReduction, ev_e132, ev_e133]

theorem ev_e135 : propagateOnce ev_S123 = (ev_S125, true) := by   simp only [propagateOnce, ev_e126, ev_e130, ev_e131, ev_e134, Bool.or_true, Bool.true_or, Bool.or_false, Bool.false_or, Bool.or_self]

theorem ev_e136 : solveNakedSingles ev_S125 = (ev_S125, false) := by decide!

theorem ev_e137 : propagateOnce ev_S125 = (ev_S125, false) := by   simp only [propagateOnce, ev_e136, ev_e130, ev_e131, ev_e134, Bool.or_true, Bool.true_or, Bool.or_false, Bool.false_or, Bool.or_self]

theorem ev_e138 : propagateLoop 729 ev_S125 = ev_S125 := by   rw [show (729 : ℕ) = 728 + 1 from rfl, propagateLoop_succ, ev_e137, ite_pair_false, pair_fst]

theorem ev_e139 : propagateLoop 730 ev_S123 = ev_S125 := by
  rw [show (730 : ℕ) = 729 + 1 from rfl, propagateLoop_succ, ev_e135, ite_pair_true, pair_fst]
  exact ev_e138

theorem ev_e140 : constraintPropagation ev_S123 = ev_S125 := by
  simp only [constraintPropagation]
  exact ev_e139

theorem ev_e141 : mrvScan ev_S125 allCells 10 none = none := by decide!

theorem ev_e142 : swb 81 ev_S123 = some (ev_S125, false) := by   rw [show (81 : ℕ) = 80 + 1 from rfl, swb_succ, ev_e140, swbBranch_none (swb 80) ev_S125 ev_e141]

theorem ev_e144 : (⟨ev_S103.board, ev_S103.cands, ev_S125.steps⟩ : SolverState) = ev_S143 := by decide!

theorem ev_e146 : setCellValue ev_S143 0 3 6 = ev_S145 := by decide!

theorem ev_e148 : solveNakedSingles ev_S145 = (ev_S147, true) := by decide!

theorem ev_e150 : hiddenSinglesRows (ev_S147, false) = (ev_S149, true) := by decide!

theorem ev_e151 : hiddenSinglesCols (ev_S149, true) = (ev_S149, true) := by decide!

theorem ev_e152 : hiddenSinglesBoxes (ev_S149, true) = (ev_S149, true) := by decide!

theorem ev_e153 : solveHiddenSingles ev_S147 = (ev_S149, true) := by   simp only [solveHiddenSingles, ev_e150, ev_e151, ev_e152]

theorem ev_e154 : solvePointingPairs ev_S149 = (ev_S149, false) := by decide!

theorem ev_e155 : boxLineRows (ev_S149, false) = (ev_S149, false) := by decide!

theorem ev_e156 : boxLineCols (ev_S149, false) = (ev_S149, false) := by decide!

theorem ev_e157 : solveBoxLineReduction ev_S149 = (ev_S149, false) := by   simp only [solveBoxLineReduction, ev_e155, ev_e156]

theorem ev_e158 : propagateOnce ev_S145 = (ev_S149, true) := by   simp only [propagateOnce, ev_e148, ev_e153, ev_e154, ev_e157, Bool.or_true, Bool.true_or, Bool.or_false, Bool.false_or, Bool.or_self]

theorem ev_e159 : solveNakedSingles ev_S149 = (ev_S149, false) := by decide!

theorem ev_e160 : hiddenSinglesRows (ev_S149, false) = (ev_S149, false) := by decide!

theorem ev_e161 : hiddenSinglesCols (ev_S149, false) = (ev_S149, false) := by decide!

theorem ev_e162 : hiddenSinglesBoxes (ev_S149, false) = (ev_S149, false) := by decide!

theorem ev_e163 : solveHiddenSingles ev_S149 = (ev_S149, false) := by   simp only [solveHiddenSingles, ev_e160, ev_e161, ev_e162]

theorem ev_e164 : propagateOnce ev_S149 = (ev_S149, false) := by   simp only [propagateOnce, ev_e159, ev_e163, ev_e154, ev_e157, Bool.or_true, Bool.true_or, Bool.or_false, Bool.false_or, Bool.or_self]

theorem ev_e165 : propagateLoop 729 ev_S149 = ev_S149 := by   rw [show (729 : ℕ) = 728 + 1 from rfl, propagateLoop_succ, ev_e164, ite_pair_false, pair_fst]

theorem ev_e166 : propagateLoop 730 ev_S145 = ev_S149 := by
  rw [show (730 : ℕ) = 729 + 1 from rfl, propagateLoop_succ, ev_e158, ite_pair_true, pair_fst]
  exact ev_e165

theorem ev_e167 : constraintPropagation ev_S145 = ev_S149 := by
  simp only [constraintPropagation]
  exact ev_e166

theorem ev_e168 : mrvScan ev_S149 allCells 10 none = some none := by decide!

theorem ev_e169 : swb 81 ev_S145 = some (ev_S149, true) := by   rw [show (81 : ℕ) = 80 + 1 from rfl, swb_succ, ev_e167, swbBranch_solved (swb 80) ev_S149 ev_e168]

theorem ev_e170 : tryValues (swb 81) 0 3 ev_S143 ([6] : List ℤ) = some (ev_S149, true) := by   rw [tryValues_cons_success (swb 81) 0 3 ev_S143 6 ([] : List ℤ) ev_S149 (by rw [ev_e146]; exact ev_e169)]

theorem ev_e171 : tryValues (swb 81) 0 3 ev_S103 ([2, 6] : List ℤ) = some (ev_S149, true) := by   rw [tryValues_cons_failed (swb 81) 0 3 ev_S103 2 ([6] : List ℤ) ev_S125 (by rw [ev_e124]; exact ev_e142), ev_e144, ev_e170]

theorem ev_e172 : swb 82 ev_S92 = some (ev_S149, true) := by   rw [show (82 : ℕ) = 81 + 1 from rfl, swb_succ, ev_e120, swbBranch_best (swb 81) ev_S103 0 3 ev_e121, ev_e122, ev_e171]

theorem ev_e173 : solve staleTraceBoard = (⟨true, some ([⟨"Naked Single", 0, 4, 7, "Only possible value for cell (1, 5)"⟩, ⟨"Naked Single", 1, 6, 3, "Only possible value for cell (2, 7)"⟩, ⟨"Naked Single", 2, 4, 4, "Only possible value for cell (3, 5)"⟩, ⟨"Naked Single", 3, 0, 8, "Only possible value for cell (4, 1)"⟩, ⟨"Naked Single", 3, 8, 3, "Only possible value for cell (4, 9)"⟩, ⟨"Naked Single", 4, 0, 4, "Only possible value for cell (5, 1)"⟩, ⟨"Naked Single", 5, 0, 7, "Only possible value for cell (6, 1)"⟩, ⟨"Naked Single", 5, 2, 3, "Only possible value for cell (6, 3)"⟩, ⟨"Naked Single", 5, 6, 8, "Only possible value for cell (6, 7)"⟩, ⟨"Naked Single", 6, 1, 6, "Only possible value for cell (7, 2)"⟩, ⟨"Naked Single", 6, 2, 1, "Only possible value for cell (7, 3)"⟩, ⟨"Naked Single", 6, 5, 7, "Only possible value for cell (7, 6)"⟩, ⟨"Naked Single", 6, 7, 8, "Only possible value for cell (7, 8)"⟩, ⟨"Naked Single", 6, 8, 4, "Only possible value for cell (7, 9)"⟩, ⟨"Naked Single", 8, 4, 8, "Only possible value for cell (9, 5)"⟩, ⟨"Hidden Single (Row)", 1, 2, 2, "2 can only go in this cell in row 2"⟩, ⟨"Hidden Single (Row)", 2, 3, 3, "3 can only go in this cell in row 3"⟩, ⟨"Hidden Single (Row)", 4, 1, 2, "2 can only go in this cell in row 5"⟩, ⟨"Hidden Single (Row)", 4, 2, 6, "6 can only go in this cell in row 5"⟩, ⟨"Hidden Single (Row)", 7, 3, 4, "4 can only go in this cell in row 8"⟩, ⟨"Hidden Single (Row)", 7, 8, 5, "5 can only go in this cell in row 8"⟩, ⟨"Hidden Single (Row)", 8, 6, 1, "1 can only go in this cell in row 9"⟩, ⟨"Hidden Single (Column)", 0, 1, 3, "3 can only go in this cell in column 2"⟩, ⟨"Naked Single", 0, 8, 9, "Only possible value for cell (1, 9)"⟩, ⟨"Naked Single", 2, 5, 6, "Only possible value for cell (3, 6)"⟩, ⟨"Naked Single", 2, 7, 7, "Only possible value for cell (3, 8)"⟩, ⟨"Naked Single", 2, 8, 2, "Only possible value for cell (3, 9)"⟩, ⟨"Naked Single", 7, 5, 9, "Only possible value for cell (8, 6)"⟩, ⟨"Naked Single", 7, 6, 6, "Only possible value for cell (8, 7)"⟩, ⟨"Naked Single", 8, 3, 6, "Only possible value for cell (9, 4)"⟩, ⟨"Naked Single", 8, 5, 2, "Only possible value for cell (9, 6)"⟩, ⟨"Naked Single", 8, 8, 7, "Only possible value for cell (9, 9)"⟩, ⟨"Naked Single", 0, 6, 9, "Only possible value for cell (1, 7)"⟩, ⟨"Naked Single", 0, 8, 2, "Only possible value for cell (1, 9)"⟩, ⟨"Naked Single", 2, 5, 2, "Only possible value for cell (3, 6)"⟩, ⟨"Naked Single", 2, 8, 7, "Only possible value for cell (3, 9)"⟩, ⟨"Naked Single", 7, 6, 6, "Only possible value for cell (8, 7)"⟩, ⟨"Naked Single", 8, 3, 2, "Only possible value for cell (9, 4)"⟩, ⟨"Naked Single", 8, 7, 7, "Only possible value for cell (9, 8)"⟩, ⟨"Naked Single", 8, 8, 9, "Only possible value for cell (9, 9)"⟩, ⟨"Hidden Single (Row)", 2, 7, 6, "6 can only go in this cell in row 3"⟩, ⟨"Hidden Single (Row)", 7, 5, 9, "9 can only go in this cell in row 8"⟩, ⟨"Hidden Single (Row)", 8, 5, 6, "6 can only go in this cell in row 9"⟩] : List TraceEntry), none⟩, mkGrid9 (0 : ℤ) [[5, 3, 4, 6, 7, 8, 9, 1, 2], [6, 7, 2, 1, 9, 5, 3, 4, 8], [1, 9, 8, 3, 4, 2, 5, 6, 7], [8, 5, 9, 7, 6, 1, 4, 2, 3], [4, 2, 6, 8, 5, 3, 7, 9, 1], [7, 1, 3, 9, 2, 4, 8, 5, 6], [9, 6, 1, 5, 3, 7, 2, 8, 4], [2, 8, 7, 4, 1, 9, 6, 3, 5], [3, 4, 5, 2, 8, 6, 1, 7, 9]]) := by
  rw [show solve staleTraceBoard = solveCore (initializeCandidates staleTraceBoard) from rfl, ev_e94,
    solveCore_of_swb ev_S92 ev_S149 true ev_e95 ev_e172]
  decide!


/-! ### Claim support lemmas -/

theorem solve_invalid (b : Board) (hv : isValidBoard b = false) :
    solve b = (⟨false, none, some "Invalid initial board state"⟩, b) := by
  show solveCore (initializeCandidates b) = _
  rw [solveCore_invalid _ (by rw [initializeCandidates_board]; exact hv),
    initializeCandidates_board]

theorem solve_steps_of_valid (b : Board) (hv : isValidBoard b = true) :
    ∃ l, (solve b).1.steps = some l := by
  obtain ⟨res, hres⟩ := Option.isSome_iff_exists.mp (swb82_isSome b)
  obtain ⟨st1, flag⟩ := res
  refine ⟨st1.steps, ?_⟩
  rw [show solve b = solveCore (initializeCandidates b) from rfl,
    solveCore_of_swb _ _ _ (by rw [initializeCandidates_board]; exact hv) hres]

theorem freshState_tidy : Tidy freshState.cands := by
  constructor
  · intro r c v hv
    rw [show freshState.cands
        = Mathlib.Vector.replicate 9 (Mathlib.Vector.replicate 9 digits) from rfl,
      Grid.get_replicate] at hv
    exact hv
  · intro r c
    rw [show freshState.cands
        = Mathlib.Vector.replicate 9 (Mathlib.Vector.replicate 9 digits) from rfl,
      Grid.get_replicate]
    exact digits_sorted

/-! ### The claims -/

/-- C1: for every board of integers in `[0, 9]` accepted by `isValidBoard` that
has at least one completion satisfying the Sudoku constraints, `solve` returns
`success = true`, and the board it leaves behind is complete with every row,
column and 3x3 box a permutation of the digits 1-9. -/
theorem C1_solve_correct : ∀ b : Board, isValidBoard b = true →
    (∃ sol : Board, IsSolution sol ∧ Extends b sol) →
    (solve b).1.success = true ∧ isComplete (solve b).2 = true ∧
      IsSolution (solve b).2 := by
  intro b hv hex
  obtain ⟨sol, hsol, hext⟩ := hex
  obtain ⟨st1, _, hsolve, hcomp, hsol1⟩ := solve_success b hv sol hsol hext
  rw [hsolve]
  exact ⟨rfl, hcomp, hsol1⟩

theorem C1_solve_correct_witness :
    isValidBoard exampleBoard = true ∧
    (IsSolution exampleSolution ∧ Extends exampleBoard exampleSolution) ∧
    ((solve exampleBoard).1.success = true ∧
      isComplete (solve exampleBoard).2 = true ∧ IsSolution (solve exampleBoard).2) :=
  ⟨by decide, ⟨by decide, by decide⟩,
    C1_solve_correct exampleBoard (by decide) ⟨exampleSolution, by decide, by decide⟩⟩

/-- C2: `analyzeDifficulty` computes exactly the technique-weighted score of the
specification (+1 Naked Single, +2 Hidden Single, +3 Pointing Pairs, +3 Box/Line
Reduction, plus `max(0, 30 - filledCells)`), maps it through the thresholds
5/15/25 to Easy/Medium/Hard/Expert, and reports `Invalid` with score 0 when the
solve fails. -/
theorem C2_analyzeDifficulty_spec : ∀ b : Board,
    analyzeDifficulty b = analyzeDifficultySpec b := by
  intro b
  simp only [analyzeDifficulty, analyzeDifficultySpec]
  by_cases hs : (solve (copyBoard b)).1.success = true
  · have hcong : ∀ (T : String) (x y : ℤ),
        (if T ∈ List.map TraceEntry.technique ((solve (copyBoard b)).1.steps.getD [])
          then x else y)
          = (if ∃ e ∈ (solve (copyBoard b)).1.steps.getD [], e.technique = T
            then x else y) := by
      intro T x y
      by_cases h : ∃ e ∈ (solve (copyBoard b)).1.steps.getD [], e.technique = T
      · rw [if_pos (List.mem_map.mpr h), if_pos h]
      · rw [if_neg (fun hx => h (List.mem_map.mp hx)), if_neg h]
    rw [if_neg (by rw [hs]; simp), if_pos hs, hcong "Naked Single" 1 0,
      hcong "Hidden Single" 2 0, hcong "Pointing Pairs" 3 0,
      hcong "Box/Line Reduction" 3 0]
  · have hs' : (solve (copyBoard b)).1.success = false := by
      cases h : (solve (copyBoard b)).1.success
      · rfl
      · exact absurd h hs
    rw [if_pos hs', if_neg (by rw [hs']; simp)]

/-- C3 (code bug): on a solvable, incomplete board on which neither a naked-
single pass nor a hidden-single pass fills a cell, the fallback of
`getIntelligentHint` reports the first empty cell with value `0` — the value of
the untouched working copy — instead of the solved digit of that cell (here 6):
the full solve succeeds and solves cell (0, 3) to 6, yet the hint carries 0. -/
theorem C3_hint_fallback_returns_zero :
    getIntelligentHint hintBugBoard
        = some ⟨0, 3, 0, "Logical Deduction", "Next logical step"⟩ ∧
    hintBugBoard.get 0 3 = 0 ∧
    (solve hintBugBoard).1.success = true ∧
    (solve hintBugBoard).2.get 0 3 = 6 := by
  refine ⟨ev_e85, by decide, ?_, ?_⟩
  · rw [ev_e84]
  · rw [ev_e84]
    decide

/-- C4 (counterexample): on a board rejected by `isValidBoard`, the outcome
object of `solve` carries no `steps` list at all — the claim that the steps
field is present on the InvalidBoard error is wrong. -/
theorem C4_counterexample :
    (solve dupBoard).1.steps = none ∧ (solve dupBoard).1.success = false ∧
    (solve dupBoard).1.error = some "Invalid initial board state" := by
  rw [solve_invalid dupBoard (by decide)]
  exact ⟨rfl, rfl, rfl⟩

/-- C4 (amended): `solve` always returns an outcome record (success flag, error
that is a string or none) without throwing; the `steps` list is present exactly
when the board passes validation (in particular also on the Unsolvable error),
and it is absent (`undefined` in JS) precisely on the InvalidBoard error, whose
outcome is `success = false`, no steps, error "Invalid initial board state". -/
theorem C4_amended : ∀ b : Board,
    ((solve b).1.steps = none ↔ isValidBoard b = false) ∧
    (isValidBoard b = false →
      (solve b).1 = ⟨false, none, some "Invalid initial board state"⟩) := by
  intro b
  by_cases hv : isValidBoard b = true
  · refine ⟨⟨?_, ?_⟩, ?_⟩
    · intro hnone
      obtain ⟨l, hl⟩ := solve_steps_of_valid b hv
      rw [hl] at hnone
      exact absurd hnone (by simp)
    · intro hf
      rw [hv] at hf
      exact absurd hf (by simp)
    · intro hf
      rw [hv] at hf
      exact absurd hf (by simp)
  · have hv' : isValidBoard b = false := by
      cases h : isValidBoard b
      · rfl
      · exact absurd h hv
    rw [solve_invalid b hv']
    refine ⟨?_, fun _ => rfl⟩
    simp [hv']

theorem C4_amended_witness :
    isValidBoard dupBoard = false ∧
    (solve dupBoard).1 = ⟨false, none, some "Invalid initial board state"⟩ :=
  ⟨by decide, (C4_amended dupBoard).2 (by decide)⟩

/-- C5: a board with two equal non-zero digits in one row, column or box, or
with a value outside `[0, 9]`, fails `isValidBoard`, and `solve` on it fails
fast with the InvalidBoard error, leaving the board exactly as it was. -/
theorem C5_invalid_rejected : ∀ b : Board,
    ((∃ r c r' c' : Fin 9, IsPeer r c r' c' ∧ b.get r c ≠ 0 ∧
        b.get r c = b.get r' c') ∨
      (∃ r c : Fin 9, b.get r c < 0 ∨ 9 < b.get r c)) →
    isValidBoard b = false ∧
      solve b = (⟨false, none, some "Invalid initial board state"⟩, b) := by
  intro b hbad
  have hv : isValidBoard b = false := by
    cases h : isValidBoard b
    · rfl
    · exfalso
      rcases hbad with ⟨r, c, r', c', hp, h0, heq⟩ | ⟨r, c, hout⟩
      · exact (valid_noConflict b h r c r' c' hp h0) heq
      · have := (isValidBoard_parts b h).1 r c
        omega
  exact ⟨hv, solve_invalid b hv⟩

theorem C5_invalid_rejected_witness :
    (IsPeer 0 0 0 1 ∧ dupBoard.get 0 0 ≠ 0 ∧ dupBoard.get 0 0 = dupBoard.get 0 1) ∧
    (isValidBoard dupBoard = false ∧
      solve dupBoard = (⟨false, none, some "Invalid initial board state"⟩, dupBoard)) :=
  ⟨⟨by decide, by decide, by decide⟩,
    C5_invalid_rejected dupBoard (Or.inl ⟨0, 0, 0, 1, by decide, by decide, by decide⟩)⟩

/-- C6: candidate sets start as the ascending list 1..9 and only ever lose
elements, so they stay strictly ascending through initialization and constraint
propagation; and the trial loop of each `solveWithBacktracking` step enumerates
exactly the stored candidate list of the chosen MRV cell — hence tries its
values in ascending numeric order. -/
theorem C6_ascending_trials :
    (∀ (b : Board) (r c : Fin 9),
      ((initializeCandidates b).cands.get r c).Pairwise (· < ·)) ∧
    (∀ (st : SolverState) (r c : Fin 9), Tidy st.cands →
      ((constraintPropagation st).cands.get r c).Pairwise (· < ·)) ∧
    (∀ (fuel : ℕ) (st : SolverState),
      swb (fuel + 1) st = swbBranch (swb fuel) (constraintPropagation st)) ∧
    (∀ (fuel : ℕ) (st1 : SolverState) (r c : Fin 9),
      mrvScan st1 allCells 10 none = some (some (r, c)) →
      swbBranch (swb fuel) st1 = tryValues (swb fuel) r c st1 (st1.cands.get r c)) := by
  refine ⟨fun b r c => (init_tidy b).2 r c, ?_, swb_succ, ?_⟩
  · intro st r c ht
    exact (constraintPropagation_t9 (countZeros st.board) st ⟨ht, le_refl _⟩).1.2 r c
  · intro fuel st1 r c hm
    exact swbBranch_best _ _ r c hm

theorem C6_ascending_trials_witness :
    (Tidy freshState.cands ∧
      mrvScan freshState allCells 10 none = some (some (0, 0))) ∧
    (((constraintPropagation freshState).cands.get 0 0).Pairwise (· < ·) ∧
      swbBranch (swb 5) freshState
        = tryValues (swb 5) 0 0 freshState (freshState.cands.get 0 0)) :=
  ⟨⟨freshState_tidy, by decide⟩,
    C6_ascending_trials.2.1 freshState 0 0 freshState_tidy,
    C6_ascending_trials.2.2.2 5 freshState 0 0 (by decide)⟩

/-- C7: `solve` is a pure function of the board value: two runs on equal copies
return identical outcomes and identical final boards — rule order, the MRV
tie-break and the candidate order are fixed, with no other input. -/
theorem C7_deterministic : ∀ b1 b2 : Board, b1 = b2 →
    solve b1 = solve b2 ∧ (solve b1).2 = (solve b2).2 ∧
      (solve b1).1.success = (solve b2).1.success := by
  intro b1 b2 h
  subst h
  exact ⟨rfl, rfl, rfl⟩

theorem C7_deterministic_witness :
    exampleBoard = exampleBoard ∧
    (solve exampleBoard = solve exampleBoard ∧
      (solve exampleBoard).2 = (solve exampleBoard).2 ∧
      (solve exampleBoard).1.success = (solve exampleBoard).1.success) :=
  ⟨rfl, C7_deterministic exampleBoard exampleBoard rfl⟩

/-- C8: after `initializeCandidates`, every pre-filled cell has an empty
candidate set, and every empty cell's candidate set holds exactly the digits
1..9 that do not appear among its non-zero row, column and box peers. -/
theorem C8_init_characterization : ∀ b : Board, BoardRange b →
    (∀ r c : Fin 9, b.get r c ≠ 0 → (initializeCandidates b).cands.get r c = []) ∧
    (∀ r c : Fin 9, b.get r c = 0 → ∀ v : ℤ,
      v ∈ (initializeCandidates b).cands.get r c ↔
        v ∈ digits ∧ ∀ r' c' : Fin 9, IsPeer r c r' c' → b.get r' c' ≠ v) := by
  intro b _
  constructor
  · intro r c h
    rw [init_cands_get, if_pos h]
  · intro r c h0 v
    rw [init_cands_mem]
    constructor
    · rintro ⟨_, hd, hp⟩
      exact ⟨hd, hp⟩
    · rintro ⟨hd, hp⟩
      exact ⟨h0, hd, hp⟩

theorem C8_init_characterization_witness :
    BoardRange exampleBoard ∧
    ((∀ r c : Fin 9, exampleBoard.get r c ≠ 0 →
        (initializeCandidates exampleBoard).cands.get r c = []) ∧
      (∀ r c : Fin 9, exampleBoard.get r c = 0 → ∀ v : ℤ,
        v ∈ (initializeCandidates exampleBoard).cands.get r c ↔
          v ∈ digits ∧ ∀ r' c' : Fin 9, IsPeer r c r' c' →
            exampleBoard.get r' c' ≠ v)) :=
  ⟨by decide, C8_init_characterization exampleBoard (by decide)⟩

/-- C9: the backtracking search terminates on every input: a trial assignment
at an empty cell with a stored candidate strictly decreases the number of empty
cells, constraint propagation never increases it, a fuel bound exceeding the
number of empty cells (always at most 81) suffices for the fuelled search to
return, and in particular the fuel 82 used by `solve` always does. -/
theorem C9_terminates :
    (∀ (st : SolverState) (r c : Fin 9) (v : ℤ), Tidy st.cands →
      st.board.get r c = 0 → v ∈ st.cands.get r c →
      countZeros (setCellValue st r c v).board < countZeros st.board) ∧
    (∀ st : SolverState, Tidy st.cands →
      countZeros (constraintPropagation st).board ≤ countZeros st.board) ∧
    (∀ (fuel : ℕ) (st : SolverState), Tidy st.cands → countZeros st.board < fuel →
      (swb fuel st).isSome) ∧
    (∀ b : Board, countZeros b ≤ 81) ∧
    (∀ b : Board, (swb 82 (initializeCandidates b)).isSome) := by
  refine ⟨?_, ?_, swb_isSome, countZeros_le_81, swb82_isSome⟩
  · intro st r c v ht h0 hv
    exact countZeros_scv_lt st r c v h0 (ht.1 r c v hv)
  · intro st ht
    exact (constraintPropagation_t9 (countZeros st.board) st ⟨ht, le_refl _⟩).2

theorem C9_terminates_witness :
    (Tidy freshState.cands ∧ freshState.board.get 0 0 = 0 ∧
      (5 : ℤ) ∈ freshState.cands.get 0 0) ∧
    countZeros (setCellValue freshState 0 0 5).board < countZeros freshState.board :=
  ⟨⟨freshState_tidy, by decide, by decide⟩,
    C9_terminates.1 freshState 0 0 5 freshState_tidy (by decide) (by decide)⟩

/-- C10: backtracking restores board and candidates but never truncates the
trace: whatever the fuelled search returns, its trace extends the input trace
(entries of undone branches included); and on the concrete solvable board
`staleTraceBoard` the successful solve returns a steps list containing an entry
whose value differs from the final solved board at that cell. -/
theorem C10_trace_not_truncated :
    (∀ (fuel : ℕ) (st st1 : SolverState) (flag : Bool),
      swb fuel st = some (st1, flag) → ∃ t, st1.steps = st.steps ++ t) ∧
    ((solve staleTraceBoard).1.success = true ∧
      ∃ e ∈ (solve staleTraceBoard).1.steps.getD [],
        (solve staleTraceBoard).2.get e.row e.col ≠ e.value) := by
  refine ⟨swb_steps, ?_⟩
  rw [ev_e173]
  refine ⟨rfl, ⟨"Naked Single", 0, 8, 9, "Only possible value for cell (1, 9)"⟩, ?_, ?_⟩
  · decide
  · decide

theorem C10_trace_not_truncated_witness :
    swb 82 ev_S11 = some (ev_S15, true) ∧ ∃ t, ev_S15.steps = ev_S11.steps ++ t :=
  ⟨ev_e32, C10_trace_not_truncated.1 82 ev_S11 ev_S15 true ev_e32⟩

end SudokuJS
